import Mathlib

/-!
Order workflow of the storefront backend

A shallow embedding of `internal/models/models.go`, of the order and payment handlers in
`internal/handlers/orders.go`, of the cart handlers in `internal/handlers/cart.go` and of
the middleware in `internal/middleware/auth.go` with the route groups of `cmd/server/main.go`.

Modelling conventions.

* The relational store is a record of tables (`DB`); every table is the list of
  its rows in the order in which the store returns them.  `First` is the first
  matching row, `Find` is the list of matching rows, `Create` appends a row.
* `float64` amounts are embedded as exact rationals (`ℚ`): the arithmetic of
  the handlers is kept expression by expression, binary rounding is not part
  of the embedding.
* Go `int` and `int64` are embedded as `Int`; the sums the handlers compute on
  them wrap around modulo 2^64 (`wrapInt64`), the arithmetic of the SQL
  updates on the stock column is exact.
* `Save` of a value whose has-many relationship is loaded writes the loaded
  rows back as well (`saveLoadedCart`); `Save` of a value without loaded
  relationships writes its own row only.
* Everything the handlers obtain from outside the store (fresh UUIDs, the
  clock, whether a store call returns an error) is an explicit argument.
* A transaction is a pair of the state persisted when it began and the state
  it has built so far; `Rollback` yields the former, a successful `Commit`
  the latter.
-/

set_option linter.dupNamespace false

namespace Bizoe

/-! ## models.go -/

abbrev OrderStatus := String

def OrderStatusPending : OrderStatus := "pending"
def OrderStatusConfirmed : OrderStatus := "confirmed"
def OrderStatusProcessing : OrderStatus := "processing"
def OrderStatusShipped : OrderStatus := "shipped"
def OrderStatusDelivered : OrderStatus := "delivered"
def OrderStatusCancelled : OrderStatus := "cancelled"

abbrev PaymentStatus := String

def PaymentStatusPending : PaymentStatus := "pending"
def PaymentStatusPaid : PaymentStatus := "paid"
def PaymentStatusFailed : PaymentStatus := "failed"
def PaymentStatusRefunded : PaymentStatus := "refunded"

/-- Address value embedded twice in an order (models.go, `Address`). -/
structure Address where
  FirstName : String
  LastName : String
  Email : String
  Phone : String
  Address : String
  City : String
  State : String
  Country : String
  ZipCode : String
deriving DecidableEq, Repr

/-- Product row: the columns the cart and order handlers read or write. -/
structure Product where
  ID : String
  Name : String
  Price : ℚ
  InStock : Bool
  StockQuantity : Int
deriving DecidableEq, Repr

/-- Cart row (without its relationship fields). -/
structure Cart where
  ID : String
  UserID : Option String
  TotalAmount : ℚ
  TotalItems : Int
deriving DecidableEq, Repr

/-- Cart item row (without its relationship fields). -/
structure CartItem where
  ID : String
  CartID : String
  ProductID : String
  Quantity : Int
  Price : ℚ
deriving DecidableEq, Repr

/-- Order row (without its relationship fields). -/
structure Order where
  ID : String
  UserID : String
  OrderNumber : String
  Status : OrderStatus
  ShippingAddress : Address
  BillingAddress : Address
  PaymentMethod : String
  PaymentStatus : PaymentStatus
  PaymentIntentID : String
  Subtotal : ℚ
  Tax : ℚ
  Shipping : ℚ
  Total : ℚ
deriving DecidableEq, Repr

/-- Order item row (without its relationship fields). -/
structure OrderItem where
  ID : String
  OrderID : String
  ProductID : String
  Quantity : Int
  Price : ℚ
  Total : ℚ
deriving DecidableEq, Repr

/-- The Go zero value of `Product`, which a relationship field holds when the
preload finds no row. -/
def Product.zero : Product :=
  { ID := "", Name := "", Price := 0, InStock := false, StockQuantity := 0 }

/-- A cart item with its `Product` relationship preloaded. -/
structure LoadedCartItem extends CartItem where
  Product : Product
deriving DecidableEq, Repr

/-- A cart with `Items.Product` preloaded. -/
structure LoadedCart extends Cart where
  Items : List LoadedCartItem
deriving DecidableEq, Repr

/-- models.go `generateOrderNumber`: `date` is `now.Format("20060102")`, `uuid`
the string of a fresh UUID. -/
def generateOrderNumber (date uuid : String) : String :=
  "BIZOE-" ++ date ++ "-" ++ uuid.take 8

/-- models.go `Order.BeforeCreate`. -/
def Order.BeforeCreate (uuid date numberUUID : String) (o : Order) : Order :=
  let o1 := if o.ID = "" then { o with ID := uuid } else o
  if o1.OrderNumber = "" then { o1 with OrderNumber := generateOrderNumber date numberUUID } else o1

/-- models.go `OrderItem.BeforeCreate`. -/
def OrderItem.BeforeCreate (uuid : String) (oi : OrderItem) : OrderItem :=
  let oi1 := if oi.ID = "" then { oi with ID := uuid } else oi
  { oi1 with Total := (oi1.Quantity : ℚ) * oi1.Price }

/-- The value of an `int` or `int64` expression whose mathematical value is `x`: Go integer
arithmetic wraps around modulo 2^64. -/
def wrapInt64 (x : Int) : Int := (x + 2 ^ 63) % 2 ^ 64 - 2 ^ 63

/-! ## The store -/

/-- The tables the handlers touch. -/
structure DB where
  products : List Product
  carts : List Cart
  cartItems : List CartItem
  orders : List Order
  orderItems : List OrderItem
deriving DecidableEq, Repr

/-- A transaction opened by `db.Begin()`. -/
structure Tx where
  base : DB
  cur : DB
deriving DecidableEq, Repr

def DB.Begin (db : DB) : Tx := { base := db, cur := db }

/-- After `tx.Rollback()` the persisted state is the one the transaction started from. -/
def Tx.Rollback (tx : Tx) : DB := tx.base

/-- The state persisted by `tx.Commit()`: the transaction's writes when it
succeeds, the state it started from when the store reports an error. -/
def Tx.Commit (tx : Tx) (fails : Bool) : Bool × DB :=
  if fails then (false, tx.base) else (true, tx.cur)

/-- JSON response of a handler: HTTP status and the keys of the body. -/
structure Response where
  status : Nat
  success : Bool
  error : String
  message : String
  data : Option Order
deriving DecidableEq, Repr

def Response.fail (status : Nat) (error message : String) : Response :=
  { status := status, success := false, error := error, message := message, data := none }

/-- Preload of a `Product` relationship: the row with that primary key, the
zero value when there is none. -/
def preloadProduct (db : DB) (productID : String) : Product :=
  (db.products.find? (fun p => p.ID = productID)).getD Product.zero

/-- Preload of `Items.Product` for a cart. -/
def preloadItems (db : DB) (cartID : String) : List LoadedCartItem :=
  (db.cartItems.filter (fun it => it.CartID = cartID)).map
    (fun it => { toCartItem := it, Product := preloadProduct db it.ProductID })

/-- The row update `UPDATE products SET stock_quantity = stock_quantity + delta WHERE id = productID`
issued through `Model(&product).Update("stock_quantity", gorm.Expr(...))`. -/
def updateStockQuantity (db : DB) (productID : String) (delta : Int) : DB :=
  let update : Product → Product := fun p =>
    if p.ID = productID then { p with StockQuantity := p.StockQuantity + delta } else p
  { db with products := db.products.map update }

/-- The statement `Where("cart_id = ?", cartID).Delete(&models.CartItem{})`. -/
def deleteCartItems (db : DB) (cartID : String) : DB :=
  { db with cartItems := db.cartItems.filter (fun it => ¬ it.CartID = cartID) }

/-- The statement `Save(&cart)` on a cart value whose `Items` are not loaded: all columns
of the row with that primary key are overwritten; the row is inserted when there is none. -/
def saveCart (db : DB) (cart : Cart) : DB :=
  if db.carts.any (fun c => c.ID = cart.ID) then
    { db with carts := db.carts.map (fun c => if c.ID = cart.ID then cart else c) }
  else
    { db with carts := db.carts ++ [cart] }

/-- The insert the store library issues for one row of a loaded has-many `Items` when the
owning value is saved: the row is inserted with the columns the Go value holds; when a row
with its primary key is stored already, only the foreign key `cart_id` of that row is
overwritten. -/
def upsertCartItem (db : DB) (item : CartItem) : DB :=
  let rewrite : CartItem → CartItem := fun it =>
    if it.ID = item.ID then { it with CartID := item.CartID } else it
  if db.cartItems.any (fun it => it.ID = item.ID) then
    { db with cartItems := db.cartItems.map rewrite }
  else
    { db with cartItems := db.cartItems ++ [item] }

/-- The rows `Save` writes back for the loaded `Items`, one after the other. -/
def upsertCartItems (db : DB) (items : List CartItem) : DB :=
  items.foldl upsertCartItem db

/-- The statement `Save(&cart)` on a cart value loaded with `Preload("Items.Product")`: the
row is written as by `saveCart`, and the library then saves the loaded associations: every
row of `Items` is written back by `upsertCartItem`.  The loaded `Product` of an item is
saved with "on conflict do nothing", which leaves the stored product row as it is. -/
def saveLoadedCart (db : DB) (cart : LoadedCart) : DB :=
  upsertCartItems (saveCart db cart.toCart) (cart.Items.map (fun it => it.toCartItem))

/-! ## orders.go: CreateOrder -/

structure CreateOrderRequest where
  ShippingAddress : Address
  BillingAddress : Address
  PaymentMethod : String
deriving DecidableEq, Repr

/-- Which store calls of one `CreateOrder` run return an error, and the values
the run draws from outside the store.  A call may fail for any reason (lost
connection, constraint violation, key collision of a fresh UUID);
`createOrderItemFails i` and `updateStockFails i` are the two calls for cart
line number `i`. -/
structure Env where
  fetchCartFails : Bool
  createOrderFails : Bool
  createOrderItemFails : Nat → Bool
  updateStockFails : Nat → Bool
  deleteCartItemsFails : Bool
  saveCartFails : Bool
  commitFails : Bool
  orderUUID : String
  orderNumberUUID : String
  date : String
  orderItemUUID : Nat → String

/-- Lines 67-82: `Preload("Items.Product").Where("user_id = ?", userID).First(&cart)`. -/
def fetchCart (env : Env) (db : DB) (userID : String) : Except Response LoadedCart :=
  if env.fetchCartFails then
    .error (Response.fail 500 "Database error" "Failed to fetch cart")
  else
    match db.carts.find? (fun c => c.UserID = some userID) with
    | none => .error (Response.fail 404 "Cart not found" "User cart is empty or does not exist")
    | some cart => .ok { toCart := cart, Items := preloadItems db cart.ID }

/-- Lines 92-101: the stock validation loop; the response of the first line that fails. -/
def validateStock : List LoadedCartItem → Option Response
  | [] => none
  | item :: rest =>
    if !item.Product.InStock || item.Product.StockQuantity < item.Quantity then
      some (Response.fail 400 "Insufficient stock"
        ("Product " ++ item.Product.Name ++ " is out of stock or insufficient quantity available"))
    else validateStock rest

/-- Line 105. -/
def orderTax (subtotal : ℚ) : ℚ := subtotal * 0.08

/-- Lines 106-109. -/
def orderShipping (subtotal : ℚ) : ℚ := if subtotal < 100 then 9.99 else 0.0

/-- Lines 143-172: the loop over the cart items inside the transaction, from
item number `i` on; an error carries the message of the failing step. -/
def createOrderItems (env : Env) (orderID : String) :
    List LoadedCartItem → Nat → DB → Except String DB
  | [], _, db => .ok db
  | cartItem :: rest, i, db =>
    let orderItem : OrderItem :=
      { ID := "", OrderID := orderID, ProductID := cartItem.ProductID,
        Quantity := cartItem.Quantity, Price := cartItem.Price,
        Total := cartItem.Price * (cartItem.Quantity : ℚ) }
    if env.createOrderItemFails i then .error "Failed to create order item"
    else
      let created := OrderItem.BeforeCreate (env.orderItemUUID i) orderItem
      let db1 := { db with orderItems := db.orderItems ++ [created] }
      if env.updateStockFails i then .error "Failed to update product stock"
      else
        createOrderItems env orderID rest (i + 1)
          (updateStockQuantity db1 cartItem.Product.ID (- cartItem.Quantity))

/-- Lines 49-101: authentication, request binding, cart load, empty-cart check
and stock validation.  Nothing is written. -/
def prepareOrder (env : Env) (db : DB) (userID : Option String)
    (req : Except String CreateOrderRequest) :
    Except Response (String × CreateOrderRequest × LoadedCart) :=
  match userID with
  | none => .error (Response.fail 401 "Unauthorized" "User not authenticated")
  | some userID =>
    match req with
    | .error err => .error (Response.fail 400 "Validation failed" err)
    | .ok req =>
      match fetchCart env db userID with
      | .error r => .error r
      | .ok cart =>
        if cart.Items.length = 0 then
          .error (Response.fail 400 "Empty cart" "Cannot create order from empty cart")
        else
          match validateStock cart.Items with
          | some r => .error r
          | none => .ok (userID, req, cart)

/-- Lines 103-213: totals, transaction and response, run on the store `db`
with the cart that was loaded before. -/
def createOrderTx (env : Env) (db : DB) (userID : String) (req : CreateOrderRequest)
    (cart : LoadedCart) : Response × DB :=
  let subtotal := cart.TotalAmount
  let tax := orderTax subtotal
  let shipping := orderShipping subtotal
  let total := subtotal + tax + shipping
  let tx := db.Begin
  let order : Order :=
    { ID := "", UserID := userID, OrderNumber := "", Status := OrderStatusPending,
      ShippingAddress := req.ShippingAddress, BillingAddress := req.BillingAddress,
      PaymentMethod := req.PaymentMethod, PaymentStatus := PaymentStatusPending,
      PaymentIntentID := "", Subtotal := subtotal, Tax := tax, Shipping := shipping,
      Total := total }
  if env.createOrderFails then
    (Response.fail 500 "Database error" "Failed to create order", tx.Rollback)
  else
    let order := Order.BeforeCreate env.orderUUID env.date env.orderNumberUUID order
    let tx := { tx with cur := { tx.cur with orders := tx.cur.orders ++ [order] } }
    match createOrderItems env order.ID cart.Items 0 tx.cur with
    | .error msg => (Response.fail 500 "Database error" msg, tx.Rollback)
    | .ok cur =>
      let tx := { tx with cur := cur }
      if env.deleteCartItemsFails then
        (Response.fail 500 "Database error" "Failed to clear cart", tx.Rollback)
      else
        let tx := { tx with cur := deleteCartItems tx.cur cart.ID }
        let cart : LoadedCart := { cart with TotalAmount := 0, TotalItems := 0 }
        if env.saveCartFails then
          (Response.fail 500 "Database error" "Failed to update cart", tx.Rollback)
        else
          let tx := { tx with cur := saveLoadedCart tx.cur cart }
          match tx.Commit env.commitFails with
          | (false, db1) =>
            (Response.fail 500 "Database error" "Failed to commit order transaction", db1)
          | (true, db1) =>
            let order := (db1.orders.find? (fun o => o.ID = order.ID)).getD order
            ({ status := 201, success := true, error := "",
               message := "Order created successfully", data := some order }, db1)

/-- The handler `OrderHandler.CreateOrder`: response and persisted state. -/
def CreateOrder (env : Env) (db : DB) (userID : Option String)
    (req : Except String CreateOrderRequest) : Response × DB :=
  match prepareOrder env db userID req with
  | .error r => (r, db)
  | .ok (userID, req, cart) => createOrderTx env db userID req cart

/-! ## cart.go -/

/-- models.go `Cart.BeforeCreate`. -/
def Cart.BeforeCreate (uuid : String) (c : Cart) : Cart :=
  if c.ID = "" then { c with ID := uuid } else c

/-- models.go `CartItem.BeforeCreate`. -/
def CartItem.BeforeCreate (uuid : String) (ci : CartItem) : CartItem :=
  if ci.ID = "" then { ci with ID := uuid } else ci

structure AddToCartRequest where
  ProductID : String
  Quantity : Int
deriving DecidableEq, Repr

structure UpdateCartRequest where
  ProductID : String
  Quantity : Int
deriving DecidableEq, Repr

/-- JSON response of a cart handler. -/
structure CartResponse where
  status : Nat
  success : Bool
  error : String
  message : String
  data : Option LoadedCart
deriving DecidableEq, Repr

def CartResponse.fail (status : Nat) (error message : String) : CartResponse :=
  { status := status, success := false, error := error, message := message, data := none }

/-- Which store calls of one cart-handler run return an error, and the UUIDs the run
draws.  The handlers test the error of the fetches and of the deletions in
`RemoveFromCart` and `ClearCart`; they drop the error of every other call. -/
structure CartEnv where
  fetchProductFails : Bool
  fetchCartFails : Bool
  createCartFails : Bool
  fetchItemFails : Bool
  saveItemFails : Bool
  createItemFails : Bool
  deleteItemFails : Bool
  deleteItemsFails : Bool
  findItemsFails : Bool
  saveCartFails : Bool
  cartUUID : String
  itemUUID : String

/-- The statement `Create(&cart)`: the row is appended unless the call fails; a row whose
primary key is already in the table makes the call fail. -/
def createCart (fails : Bool) (db : DB) (cart : Cart) : DB :=
  if fails || db.carts.any (fun c => c.ID = cart.ID) then db
  else { db with carts := db.carts ++ [cart] }

/-- The statement `Create(&newItem)` on the cart items, likewise. -/
def createCartItem (fails : Bool) (db : DB) (item : CartItem) : DB :=
  if fails || db.cartItems.any (fun it => it.ID = item.ID) then db
  else { db with cartItems := db.cartItems ++ [item] }

/-- The statement `Save(&cartItem)`: all columns of the row with that primary key are
overwritten; the row is inserted when there is none. -/
def saveCartItem (db : DB) (item : CartItem) : DB :=
  if db.cartItems.any (fun it => it.ID = item.ID) then
    { db with cartItems := db.cartItems.map (fun it => if it.ID = item.ID then item else it) }
  else
    { db with cartItems := db.cartItems ++ [item] }

/-- The statement `Delete(&cartItem)`: the row with that primary key is deleted. -/
def deleteCartItem (db : DB) (itemID : String) : DB :=
  { db with cartItems := db.cartItems.filter (fun it => ¬ it.ID = itemID) }

/-- The reload `Preload("Items.Product.Category").First(&cart, "id = ?", cart.ID)` before
the response; `cart` is left as it is when the row is not found. -/
def reloadCart (db : DB) (cart : Cart) : LoadedCart :=
  { toCart := (db.carts.find? (fun c => c.ID = cart.ID)).getD cart,
    Items := preloadItems db cart.ID }

/-- cart.go `updateCartTotals`: the recomputed cart and the store after `Save(cart)`. -/
def updateCartTotals (env : CartEnv) (db : DB) (cart : Cart) : Cart × DB :=
  let items := if env.findItemsFails then [] else db.cartItems.filter (fun it => it.CartID = cart.ID)
  let totals : ℚ × Int :=
    items.foldl
      (fun acc item =>
        (acc.1 + item.Price * (item.Quantity : ℚ), wrapInt64 (acc.2 + item.Quantity)))
      (0, 0)
  let cart := { cart with TotalAmount := totals.1, TotalItems := totals.2 }
  (cart, if env.saveCartFails then db else saveCart db cart)

/-- Lines 167-177 of `AddToCart`, and the same tail of `UpdateCart` and `RemoveFromCart`:
totals update, reload and response. -/
def cartUpdated (env : CartEnv) (db : DB) (cart : Cart) (message : String) :
    CartResponse × DB :=
  let (cart, db1) := updateCartTotals env db cart
  ({ status := 200, success := true, error := "", message := message,
     data := some (reloadCart db1 cart) }, db1)

/-- The handler `CartHandler.AddToCart`. -/
def AddToCart (env : CartEnv) (db : DB) (userID : Option String)
    (req : Except String AddToCartRequest) : CartResponse × DB :=
  match userID with
  | none => (CartResponse.fail 401 "Unauthorized" "User not authenticated", db)
  | some userID =>
    match req with
    | .error err => (CartResponse.fail 400 "Validation failed" err, db)
    | .ok req =>
      if env.fetchProductFails then
        (CartResponse.fail 500 "Database error" "Failed to fetch product", db)
      else
        match db.products.find? (fun p => p.ID = req.ProductID) with
        | none =>
          (CartResponse.fail 404 "Product not found" "The requested product does not exist", db)
        | some product =>
          if !product.InStock || product.StockQuantity < req.Quantity then
            (CartResponse.fail 400 "Insufficient stock"
              "Product is out of stock or insufficient quantity available", db)
          else if env.fetchCartFails then
            (CartResponse.fail 500 "Database error" "Failed to fetch cart", db)
          else
            let (cart, db1) :=
              match db.carts.find? (fun c => c.UserID = some userID) with
              | some cart => (cart, db)
              | none =>
                let cart := Cart.BeforeCreate env.cartUUID
                  { ID := "", UserID := some userID, TotalAmount := 0, TotalItems := 0 }
                (cart, createCart env.createCartFails db cart)
            if env.fetchItemFails then
              (CartResponse.fail 500 "Database error" "Failed to check existing cart item", db1)
            else
              match db1.cartItems.find?
                  (fun it => it.CartID = cart.ID ∧ it.ProductID = req.ProductID) with
              | some existingItem =>
                let newQuantity := wrapInt64 (existingItem.Quantity + req.Quantity)
                if newQuantity > product.StockQuantity then
                  (CartResponse.fail 400 "Insufficient stock"
                    "Cannot add more items than available in stock", db1)
                else
                  let existingItem := { existingItem with Quantity := newQuantity }
                  let db2 := if env.saveItemFails then db1 else saveCartItem db1 existingItem
                  cartUpdated env db2 cart "Item added to cart successfully"
              | none =>
                let newItem := CartItem.BeforeCreate env.itemUUID
                  { ID := "", CartID := cart.ID, ProductID := req.ProductID,
                    Quantity := req.Quantity, Price := product.Price }
                let db2 := createCartItem env.createItemFails db1 newItem
                cartUpdated env db2 cart "Item added to cart successfully"

/-- Lines 200-232 of `UpdateCart`, shared with `RemoveFromCart` (lines 287-319): the
user's cart and its item for the product. -/
def findCartItem (env : CartEnv) (db : DB) (userID productID : String) :
    Except CartResponse (Cart × CartItem) :=
  if env.fetchCartFails then
    .error (CartResponse.fail 500 "Database error" "Failed to fetch cart")
  else
    match db.carts.find? (fun c => c.UserID = some userID) with
    | none => .error (CartResponse.fail 404 "Cart not found" "User cart does not exist")
    | some cart =>
      if env.fetchItemFails then
        .error (CartResponse.fail 500 "Database error" "Failed to find cart item")
      else
        match db.cartItems.find? (fun it => it.CartID = cart.ID ∧ it.ProductID = productID) with
        | none => .error (CartResponse.fail 404 "Item not found" "Item not found in cart")
        | some cartItem => .ok (cart, cartItem)

/-- The handler `CartHandler.UpdateCart`. -/
def UpdateCart (env : CartEnv) (db : DB) (userID : Option String)
    (req : Except String UpdateCartRequest) : CartResponse × DB :=
  match userID with
  | none => (CartResponse.fail 401 "Unauthorized" "User not authenticated", db)
  | some userID =>
    match req with
    | .error err => (CartResponse.fail 400 "Validation failed" err, db)
    | .ok req =>
      match findCartItem env db userID req.ProductID with
      | .error r => (r, db)
      | .ok (cart, cartItem) =>
        if req.Quantity = 0 then
          let db1 := if env.deleteItemFails then db else deleteCartItem db cartItem.ID
          cartUpdated env db1 cart "Cart updated successfully"
        else if env.fetchProductFails then
          (CartResponse.fail 500 "Database error" "Failed to fetch product", db)
        else
          match db.products.find? (fun p => p.ID = req.ProductID) with
          | none => (CartResponse.fail 500 "Database error" "Failed to fetch product", db)
          | some product =>
            if !product.InStock || product.StockQuantity < req.Quantity then
              (CartResponse.fail 400 "Insufficient stock"
                "Requested quantity exceeds available stock", db)
            else
              let cartItem := { cartItem with Quantity := req.Quantity }
              let db1 := if env.saveItemFails then db else saveCartItem db cartItem
              cartUpdated env db1 cart "Cart updated successfully"

/-- The handler `CartHandler.RemoveFromCart`; `productID` is the path parameter. -/
def RemoveFromCart (env : CartEnv) (db : DB) (userID : Option String) (productID : String) :
    CartResponse × DB :=
  match userID with
  | none => (CartResponse.fail 401 "Unauthorized" "User not authenticated", db)
  | some userID =>
    match findCartItem env db userID productID with
    | .error r => (r, db)
    | .ok (cart, cartItem) =>
      if env.deleteItemFails then
        (CartResponse.fail 500 "Database error" "Failed to remove item from cart", db)
      else
        cartUpdated env (deleteCartItem db cartItem.ID) cart "Item removed from cart successfully"

/-- The handler `CartHandler.ClearCart`. -/
def ClearCart (env : CartEnv) (db : DB) (userID : Option String) : CartResponse × DB :=
  match userID with
  | none => (CartResponse.fail 401 "Unauthorized" "User not authenticated", db)
  | some userID =>
    if env.fetchCartFails then
      (CartResponse.fail 500 "Database error" "Failed to fetch cart", db)
    else
      match db.carts.find? (fun c => c.UserID = some userID) with
      | none => (CartResponse.fail 404 "Cart not found" "User cart does not exist", db)
      | some cart =>
        if env.deleteItemsFails then
          (CartResponse.fail 500 "Database error" "Failed to clear cart", db)
        else
          let db1 := deleteCartItems db cart.ID
          let cart := { cart with TotalAmount := 0, TotalItems := 0 }
          let db2 := if env.saveCartFails then db1 else saveCart db1 cart
          ({ status := 200, success := true, error := "", message := "Cart cleared successfully",
             data := some { toCart := cart, Items := [] } }, db2)

/-! ## Descriptions used by the statements

The definitions below are not code of the repository: they name the states and
conditions the theorems speak about. -/

/-- The state the item loop of `CreateOrder` reaches when none of its store calls fails. -/
def itemsResult (env : Env) (orderID : String) : List LoadedCartItem → Nat → DB → DB
  | [], _, db => db
  | cartItem :: rest, i, db =>
    let created := OrderItem.BeforeCreate (env.orderItemUUID i)
      { ID := "", OrderID := orderID, ProductID := cartItem.ProductID,
        Quantity := cartItem.Quantity, Price := cartItem.Price,
        Total := cartItem.Price * (cartItem.Quantity : ℚ) }
    itemsResult env orderID rest (i + 1)
      (updateStockQuantity { db with orderItems := db.orderItems ++ [created] }
        cartItem.Product.ID (- cartItem.Quantity))

/-- No store call inside the transaction of a run over `n` cart lines fails. -/
def Env.noFaults (env : Env) (n : Nat) : Prop :=
  env.createOrderFails = false ∧
  (∀ i, i < n → env.createOrderItemFails i = false ∧ env.updateStockFails i = false) ∧
  env.deleteCartItemsFails = false ∧ env.saveCartFails = false ∧ env.commitFails = false

/-- The order row `CreateOrder` inserts. -/
def newOrder (env : Env) (userID : String) (req : CreateOrderRequest) (cart : LoadedCart) : Order :=
  Order.BeforeCreate env.orderUUID env.date env.orderNumberUUID
    { ID := "", UserID := userID, OrderNumber := "", Status := OrderStatusPending,
      ShippingAddress := req.ShippingAddress, BillingAddress := req.BillingAddress,
      PaymentMethod := req.PaymentMethod, PaymentStatus := PaymentStatusPending,
      PaymentIntentID := "", Subtotal := cart.TotalAmount, Tax := orderTax cart.TotalAmount,
      Shipping := orderShipping cart.TotalAmount,
      Total := cart.TotalAmount + orderTax cart.TotalAmount + orderShipping cart.TotalAmount }

/-- The state a fault-free transaction of `CreateOrder` commits. -/
def committed (env : Env) (db : DB) (userID : String) (req : CreateOrderRequest)
    (cart : LoadedCart) : DB :=
  saveLoadedCart
    (deleteCartItems
      (itemsResult env (newOrder env userID req cart).ID cart.Items 0
        { db with orders := db.orders ++ [newOrder env userID req cart] })
      cart.ID)
    { cart with TotalAmount := 0, TotalItems := 0 }

/-- Stored stock quantity of the product with primary key `productID`. -/
def stockOf (db : DB) (productID : String) : Option Int :=
  (db.products.find? (fun p => p.ID = productID)).map (fun p => p.StockQuantity)

/-- Total quantity the cart lines request of the product `productID`. -/
def requested (items : List LoadedCartItem) (productID : String) : Int :=
  ((items.filter (fun it => it.Product.ID = productID)).map (fun it => it.Quantity)).sum

/-- A cart line the stock validation rejects (orders.go line 94). -/
def short (item : LoadedCartItem) : Prop :=
  item.Product.InStock = false ∨ item.Product.StockQuantity < item.Quantity

instance (item : LoadedCartItem) : Decidable (short item) := by
  unfold short; infer_instance

/-- The response of the stock validation for the line `item`. -/
def stockError (item : LoadedCartItem) : Response :=
  Response.fail 400 "Insufficient stock"
    ("Product " ++ item.Product.Name ++ " is out of stock or insufficient quantity available")

/-- Total quantity of the cart lines whose `ProductID` is `productID`. -/
def lineQuantity (items : List LoadedCartItem) (productID : String) : Int :=
  ((items.filter (fun it => it.ProductID = productID)).map (fun it => it.Quantity)).sum

/-- The spec's `round(x, 2)`: `x` rounded to the nearest cent. -/
def round2 (x : ℚ) : ℚ := (round (x * 100) : ℤ) / 100

/-! ### Concrete stores for the scenarios -/

def Scenario.addr : Address :=
  { FirstName := "Ada", LastName := "Byron", Email := "ada@example.org", Phone := "555-0100",
    Address := "1 Main Street", City := "Springfield", State := "IL", Country := "US",
    ZipCode := "62701" }

def Scenario.req : CreateOrderRequest :=
  { ShippingAddress := Scenario.addr, BillingAddress := Scenario.addr, PaymentMethod := "card" }

/-- A run in which no store call fails. -/
def Scenario.env : Env :=
  { fetchCartFails := false, createOrderFails := false, createOrderItemFails := fun _ => false,
    updateStockFails := fun _ => false, deleteCartItemsFails := false, saveCartFails := false,
    commitFails := false, orderUUID := "0b7e3c52-order", orderNumberUUID := "4f9a1d2e-number",
    date := "20240131", orderItemUUID := fun i => "item-" ++ toString i }

/-- One user whose cart holds `qty` units of one product priced `price`, of which `stock` are in stock. -/
def Scenario.store (price : ℚ) (qty stock : Int) : DB :=
  { products := [{ ID := "p1", Name := "Resin", Price := price, InStock := true, StockQuantity := stock }],
    carts := [{ ID := "c1", UserID := some "u1", TotalAmount := price * (qty : ℚ), TotalItems := qty }],
    cartItems := [{ ID := "ci1", CartID := "c1", ProductID := "p1", Quantity := qty, Price := price }],
    orders := [], orderItems := [] }

/-- The store calls inside the transaction of `CreateOrder` (lines 134-203); `i` is the
number of the cart line. -/
inductive TxStep
  | orderInsert
  | orderItemInsert (i : Nat)
  | stockDecrement (i : Nat)
  | cartItemsDelete
  | cartTotalsReset
  | commit
deriving DecidableEq, Repr

/-- Whether the store call `step` of the run returns an error. -/
def Env.failsAt (env : Env) : TxStep → Bool
  | .orderInsert => env.createOrderFails
  | .orderItemInsert i => env.createOrderItemFails i
  | .stockDecrement i => env.updateStockFails i
  | .cartItemsDelete => env.deleteCartItemsFails
  | .cartTotalsReset => env.saveCartFails
  | .commit => env.commitFails

/-- The step is one a transaction over `n` cart lines can reach. -/
def TxStep.inRun (n : Nat) : TxStep → Prop
  | .orderItemInsert i => i < n
  | .stockDecrement i => i < n
  | _ => True

/-- A run in which exactly the store call `step` fails. -/
def Scenario.envFailing (step : TxStep) : Env :=
  { Scenario.env with
    createOrderFails := decide (step = .orderInsert)
    createOrderItemFails := fun i => decide (step = .orderItemInsert i)
    updateStockFails := fun i => decide (step = .stockDecrement i)
    deleteCartItemsFails := decide (step = .cartItemsDelete)
    saveCartFails := decide (step = .cartTotalsReset)
    commitFails := decide (step = .commit) }

/-- A second fault-free run, with its own UUIDs. -/
def Scenario.env2 : Env :=
  { Scenario.env with
    orderUUID := "7c1d9e04-order", orderNumberUUID := "a3b8f610-number",
    orderItemUUID := fun i => "item2-" ++ toString i }

/-- One product of which `stock` are in stock, and two users whose carts each hold one
line of that product, of quantities `qty1` and `qty2`. -/
def Scenario.contended (stock qty1 qty2 : Int) : DB :=
  { products := [{ ID := "p1", Name := "Resin", Price := 10, InStock := true, StockQuantity := stock }],
    carts := [{ ID := "c1", UserID := some "u1", TotalAmount := 10 * (qty1 : ℚ), TotalItems := qty1 },
              { ID := "c2", UserID := some "u2", TotalAmount := 10 * (qty2 : ℚ), TotalItems := qty2 }],
    cartItems := [{ ID := "ci1", CartID := "c1", ProductID := "p1", Quantity := qty1, Price := 10 },
                  { ID := "ci2", CartID := "c2", ProductID := "p1", Quantity := qty2, Price := 10 }],
    orders := [], orderItems := [] }

/-- One user whose cart holds two lines of the same product, each of quantity `qty`. -/
def Scenario.doubled (stock qty : Int) : DB :=
  { products := [{ ID := "p1", Name := "Resin", Price := 10, InStock := true, StockQuantity := stock }],
    carts := [{ ID := "c1", UserID := some "u1", TotalAmount := 20 * (qty : ℚ), TotalItems := 2 * qty }],
    cartItems := [{ ID := "ci1", CartID := "c1", ProductID := "p1", Quantity := qty, Price := 10 },
                  { ID := "ci2", CartID := "c1", ProductID := "p1", Quantity := qty, Price := 10 }],
    orders := [], orderItems := [] }

/-- One user whose cart exists and holds no line; one product in stock. -/
def Scenario.emptyCart : DB :=
  { products := [{ ID := "p1", Name := "Resin", Price := 10, InStock := true, StockQuantity := 5 }],
    carts := [{ ID := "c1", UserID := some "u1", TotalAmount := 0, TotalItems := 0 }],
    cartItems := [], orders := [], orderItems := [] }

/-- Two `CreateOrder` requests served at the same time, in the schedule in which both
handlers finish loading and validating their carts (lines 49-101, reads outside any
transaction) before either transaction (lines 112-203) starts; the transactions then run
one after the other.  Returns both responses and the final persisted state. -/
def CreateOrderInterleaved (envA envB : Env) (db : DB)
    (userA : Option String) (reqA : Except String CreateOrderRequest)
    (userB : Option String) (reqB : Except String CreateOrderRequest) :
    Response × Response × DB :=
  let preparedA := prepareOrder envA db userA reqA
  let preparedB := prepareOrder envB db userB reqB
  let (respA, db1) :=
    match preparedA with
    | .error r => (r, db)
    | .ok (u, r, cart) => createOrderTx envA db u r cart
  let (respB, db2) :=
    match preparedB with
    | .error r => (r, db1)
    | .ok (u, r, cart) => createOrderTx envB db1 u r cart
  (respA, respB, db2)

/-- The cart item rows of the cart `cartID`. -/
def cartLines (db : DB) (cartID : String) : List CartItem :=
  db.cartItems.filter (fun it => it.CartID = cartID)

/-- Sum over the lines of price-at-add times quantity. -/
def linesAmount (items : List CartItem) : ℚ :=
  (items.map (fun it => it.Price * (it.Quantity : ℚ))).sum

/-- Sum over the lines of the quantities. -/
def linesQuantity (items : List CartItem) : Int :=
  (items.map (fun it => it.Quantity)).sum

/-- The cached totals of the cart row `c` agree with its lines: the amount is the sum of the
line amounts, the item count the sum of the line quantities as an `int`. -/
def totalsAgree (db : DB) (c : Cart) : Prop :=
  c.TotalAmount = linesAmount (cartLines db c.ID) ∧
  c.TotalItems = wrapInt64 (linesQuantity (cartLines db c.ID))

/-- Consistency of the cart tables: cart item keys are unique, every cart item belongs to
a cart row, and every cart row's cached totals agree with its lines. -/
structure CartInvariant (db : DB) : Prop where
  itemKeys : (db.cartItems.map (fun it => it.ID)).Nodup
  owned : ∀ it ∈ db.cartItems, ∃ c ∈ db.carts, c.ID = it.CartID
  totals : ∀ c ∈ db.carts, totalsAgree db c

/-- The same, except that the cart `cartID` may be missing or have stale totals. -/
structure CartInvariantExcept (db : DB) (cartID : String) : Prop where
  itemKeys : (db.cartItems.map (fun it => it.ID)).Nodup
  owned : ∀ it ∈ db.cartItems, it.CartID = cartID ∨ ∃ c ∈ db.carts, c.ID = it.CartID
  totals : ∀ c ∈ db.carts, c.ID ≠ cartID → totalsAgree db c

/-- One request to a cart handler. -/
inductive CartOp
  | add (userID : Option String) (req : Except String AddToCartRequest)
  | update (userID : Option String) (req : Except String UpdateCartRequest)
  | remove (userID : Option String) (productID : String)
  | clear (userID : Option String)

/-- The handler run of a cart request. -/
def CartOp.run (env : CartEnv) (db : DB) : CartOp → CartResponse × DB
  | .add userID req => AddToCart env db userID req
  | .update userID req => UpdateCart env db userID req
  | .remove userID productID => RemoveFromCart env db userID productID
  | .clear userID => ClearCart env db userID

/-- The stores reachable from one whose carts are all empty through `AddToCart`,
`UpdateCart`, `RemoveFromCart` and `ClearCart` requests of any users, in runs in which the
two store calls that write the cached totals back (`Find(&items)` and `Save(cart)`, whose
errors the handlers drop) succeed. -/
inductive CartReachable : DB → Prop
  | init (db : DB) (hitems : db.cartItems = [])
      (hcarts : ∀ c ∈ db.carts, c.TotalAmount = 0 ∧ c.TotalItems = 0) : CartReachable db
  | step (db : DB) (env : CartEnv) (op : CartOp) (h : CartReachable db)
      (hfind : env.findItemsFails = false) (hsave : env.saveCartFails = false) :
      CartReachable (op.run env db).2

/-- A cart-handler run in which no store call fails. -/
def Scenario.cartEnv : CartEnv :=
  { fetchProductFails := false, fetchCartFails := false, createCartFails := false,
    fetchItemFails := false, saveItemFails := false, createItemFails := false,
    deleteItemFails := false, deleteItemsFails := false, findItemsFails := false,
    saveCartFails := false, cartUUID := "cart-6d2f", itemUUID := "line-91ab" }

/-- A cart-handler run in which the store rejects the `Save(cart)` of `updateCartTotals`
and no other call fails. -/
def Scenario.cartEnvStale : CartEnv :=
  { fetchProductFails := false, fetchCartFails := false, createCartFails := false,
    fetchItemFails := false, saveItemFails := false, createItemFails := false,
    deleteItemFails := false, deleteItemsFails := false, findItemsFails := false,
    saveCartFails := true, cartUUID := "cart-6d2f", itemUUID := "line-91ab" }

/-- A store with two products and no cart. -/
def Scenario.catalog : DB :=
  { products := [{ ID := "p1", Name := "Resin", Price := 10, InStock := true, StockQuantity := 5 },
                 { ID := "p2", Name := "Printer", Price := 899.99, InStock := true, StockQuantity := 3 }],
    carts := [], cartItems := [], orders := [], orderItems := [] }

/-- A second fault-free cart-handler run, with its own UUIDs. -/
def Scenario.cartEnv2 : CartEnv :=
  { Scenario.cartEnv with cartUUID := "cart-77e0", itemUUID := "line-c3d4" }

/-- The store after user u1 added 2 of p1 and then 1 of p2 to an empty cart. -/
def Scenario.afterAdds : DB :=
  ((CartOp.add (some "u1") (.ok { ProductID := "p2", Quantity := 1 })).run Scenario.cartEnv2
    ((CartOp.add (some "u1") (.ok { ProductID := "p1", Quantity := 2 })).run Scenario.cartEnv
      Scenario.catalog).2).2

/-- The store after user u1 added 2 of p1 to an empty cart in the run `Scenario.cartEnvStale`. -/
def Scenario.stale : DB :=
  (AddToCart Scenario.cartEnvStale Scenario.catalog (some "u1")
    (.ok { ProductID := "p1", Quantity := 2 })).2

/-! ## orders.go: CancelOrder and UpdateOrderStatus -/

/-- An order item with its `Product` relationship preloaded. -/
structure LoadedOrderItem extends OrderItem where
  Product : Product
deriving DecidableEq, Repr

/-- An order with `Items.Product` preloaded. -/
structure LoadedOrder extends Order where
  Items : List LoadedOrderItem
deriving DecidableEq, Repr

/-- Preload of `Items.Product` for an order. -/
def preloadOrderItems (db : DB) (orderID : String) : List LoadedOrderItem :=
  (db.orderItems.filter (fun oi => oi.OrderID = orderID)).map
    (fun oi => { toOrderItem := oi, Product := preloadProduct db oi.ProductID })

/-- The statement `Save(&order)` on an order row: all columns of the row with that
primary key are overwritten; the row is inserted when there is none.  Only the row is
written (see `saveCart`). -/
def saveOrder (db : DB) (order : Order) : DB :=
  if db.orders.any (fun o => o.ID = order.ID) then
    { db with orders := db.orders.map (fun o => if o.ID = order.ID then order else o) }
  else
    { db with orders := db.orders ++ [order] }

/-- Which store calls of one `CancelOrder` or `UpdateOrderStatus` run return an error,
for any reason; `restoreStockFails i` is the stock update for order item number `i`. -/
structure OrderEnv where
  fetchOrderFails : Bool
  restoreStockFails : Nat → Bool
  saveOrderFails : Bool
  commitFails : Bool

/-- Lines 438-449 of `CancelOrder`: the loop restoring the stock of the order items, from
item number `i` on; `none` when a store call fails. -/
def restoreStock (env : OrderEnv) : List LoadedOrderItem → Nat → DB → Option DB
  | [], _, db => some db
  | item :: rest, i, db =>
    if env.restoreStockFails i then none
    else restoreStock env rest (i + 1) (updateStockQuantity db item.Product.ID item.Quantity)

/-- The handler `OrderHandler.CancelOrder`; `userID` and `isAdmin` are what
`middleware.GetUserID` and `middleware.IsAdmin` read from the request context, `orderID`
is the path parameter. -/
def CancelOrder (env : OrderEnv) (db : DB) (userID : Option String) (isAdmin : Bool)
    (orderID : String) : Response × DB :=
  match userID with
  | none => (Response.fail 401 "Unauthorized" "User not authenticated", db)
  | some userID =>
    if env.fetchOrderFails then
      (Response.fail 500 "Database error" "Failed to fetch order", db)
    else
      match db.orders.find? (fun o => (isAdmin ∨ o.UserID = userID) ∧ o.ID = orderID) with
      | none => (Response.fail 404 "Order not found" "The requested order does not exist", db)
      | some row =>
        let order : LoadedOrder := { toOrder := row, Items := preloadOrderItems db row.ID }
        if order.Status = OrderStatusShipped ∨ order.Status = OrderStatusDelivered then
          (Response.fail 400 "Cannot cancel order"
            "Order has already been shipped or delivered", db)
        else if order.Status = OrderStatusCancelled then
          (Response.fail 400 "Order already cancelled"
            "This order has already been cancelled", db)
        else
          let tx := db.Begin
          match restoreStock env order.Items 0 tx.cur with
          | none =>
            (Response.fail 500 "Database error" "Failed to restore product stock", tx.Rollback)
          | some cur =>
            let tx := { tx with cur := cur }
            let order : Order := { order.toOrder with Status := OrderStatusCancelled }
            if env.saveOrderFails then
              (Response.fail 500 "Database error" "Failed to cancel order", tx.Rollback)
            else
              let tx := { tx with cur := saveOrder tx.cur order }
              match tx.Commit env.commitFails with
              | (false, db1) =>
                (Response.fail 500 "Database error" "Failed to commit order cancellation", db1)
              | (true, db1) =>
                ({ status := 200, success := true, error := "",
                   message := "Order cancelled successfully", data := some order }, db1)

/-- Lines 321-328 of `UpdateOrderStatus`. -/
def validStatuses : List String :=
  [OrderStatusPending, OrderStatusConfirmed, OrderStatusProcessing, OrderStatusShipped,
   OrderStatusDelivered, OrderStatusCancelled]

/-- The handler `OrderHandler.UpdateOrderStatus`; `orderID` is the path parameter,
`updateData` the bound body (its `Status` field) or the binding error. -/
def UpdateOrderStatus (env : OrderEnv) (db : DB) (orderID : String)
    (updateData : Except String String) : Response × DB :=
  match updateData with
  | .error err => (Response.fail 400 "Validation failed" err, db)
  | .ok status =>
    let isValid := validStatuses.any (fun s => s = status)
    if !isValid then
      (Response.fail 400 "Invalid status" "Invalid order status provided", db)
    else if env.fetchOrderFails then
      (Response.fail 500 "Database error" "Failed to find order", db)
    else
      match db.orders.find? (fun o => o.ID = orderID) with
      | none => (Response.fail 404 "Order not found" "The requested order does not exist", db)
      | some order =>
        let order := { order with Status := status }
        if env.saveOrderFails then
          (Response.fail 500 "Database error" "Failed to update order status", db)
        else
          let db1 := saveOrder db order
          let order := (db1.orders.find? (fun o => o.ID = order.ID)).getD order
          ({ status := 200, success := true, error := "",
             message := "Order status updated successfully", data := some order }, db1)

/-! ## orders.go: CreatePaymentIntent and ConfirmPayment -/

structure CreatePaymentIntentRequest where
  OrderID : String
deriving DecidableEq, Repr

structure ConfirmPaymentRequest where
  PaymentIntentID : String
  OrderID : String
deriving DecidableEq, Repr

/-- The `stripe.PaymentIntentParams` the handler builds. -/
structure PaymentIntentParams where
  Amount : Int
  Currency : String
  Metadata : List (String × String)
deriving DecidableEq, Repr

/-- A `stripe.PaymentIntent`: the fields the handlers read (`ID`, `ClientSecret`, `Status`)
and, of those they do not read, the amount and the metadata the intent was created with. -/
structure PaymentIntent where
  ID : String
  ClientSecret : String
  Status : String
  Amount : Int := 0
  Metadata : List (String × String) := []
deriving DecidableEq, Repr

/-- Which store calls of one payment-handler run return an error, and the answers of the
payment processor: `newIntent` is `paymentintent.New`, `getIntent` is `paymentintent.Get`;
an error is a failed call. -/
structure PayEnv where
  fetchOrderFails : Bool
  saveOrderFails : Bool
  newIntent : PaymentIntentParams → Except String PaymentIntent
  getIntent : String → Except String PaymentIntent

/-- JSON response of `CreatePaymentIntent`. -/
structure IntentResponse where
  status : Nat
  success : Bool
  error : String
  message : String
  clientSecret : Option String
  paymentIntentId : Option String
deriving DecidableEq, Repr

def IntentResponse.fail (status : Nat) (error message : String) : IntentResponse :=
  { status := status, success := false, error := error, message := message,
    clientSecret := none, paymentIntentId := none }

/-- The Go conversion `int64(x)` of a `float64`: the fraction is discarded (rounding toward
zero).  Values outside the range of `int64` are not considered. -/
def toInt64 (x : ℚ) : Int := if 0 ≤ x then ⌊x⌋ else ⌈x⌉

/-- Lines 498-513 and 576-591: `Where("user_id = ? AND id = ?", userID, orderID).First(&order)`. -/
def fetchOwnOrder (fails : Bool) (db : DB) (userID orderID : String) :
    Except (Nat × String × String) Order :=
  if fails then .error (500, "Database error", "Failed to fetch order")
  else
    match db.orders.find? (fun o => o.UserID = userID ∧ o.ID = orderID) with
    | none => .error (404, "Order not found", "The requested order does not exist")
    | some order => .ok order

/-- The handler `OrderHandler.CreatePaymentIntent`: response, persisted state and the
intents requested from the processor. -/
def CreatePaymentIntent (env : PayEnv) (db : DB) (userID : Option String)
    (req : Except String CreatePaymentIntentRequest) :
    IntentResponse × DB × List PaymentIntentParams :=
  match userID with
  | none => (IntentResponse.fail 401 "Unauthorized" "User not authenticated", db, [])
  | some userID =>
    match req with
    | .error err => (IntentResponse.fail 400 "Validation failed" err, db, [])
    | .ok req =>
      match fetchOwnOrder env.fetchOrderFails db userID req.OrderID with
      | .error (status, error, message) => (IntentResponse.fail status error message, db, [])
      | .ok order =>
        if order.PaymentStatus = PaymentStatusPaid then
          (IntentResponse.fail 400 "Order already paid" "This order has already been paid", db, [])
        else
          let params : PaymentIntentParams :=
            { Amount := toInt64 (order.Total * 100), Currency := "usd",
              Metadata := [("order_id", order.ID), ("user_id", userID)] }
          match env.newIntent params with
          | .error _ =>
            (IntentResponse.fail 500 "Payment error" "Failed to create payment intent", db,
              [params])
          | .ok pi =>
            let order := { order with PaymentIntentID := pi.ID }
            let db1 := if env.saveOrderFails then db else saveOrder db order
            ({ status := 200, success := true, error := "", message := "",
               clientSecret := some pi.ClientSecret, paymentIntentId := some pi.ID },
              db1, [params])

/-- The handler `OrderHandler.ConfirmPayment`. -/
def ConfirmPayment (env : PayEnv) (db : DB) (userID : Option String)
    (req : Except String ConfirmPaymentRequest) : Response × DB :=
  match userID with
  | none => (Response.fail 401 "Unauthorized" "User not authenticated", db)
  | some userID =>
    match req with
    | .error err => (Response.fail 400 "Validation failed" err, db)
    | .ok req =>
      match fetchOwnOrder env.fetchOrderFails db userID req.OrderID with
      | .error (status, error, message) => (Response.fail status error message, db)
      | .ok order =>
        match env.getIntent req.PaymentIntentID with
        | .error _ =>
          (Response.fail 400 "Payment verification failed"
            "Failed to verify payment with Stripe", db)
        | .ok pi =>
          if pi.Status ≠ "succeeded" then
            (Response.fail 400 "Payment not completed"
              "Payment has not been completed successfully", db)
          else
            let order :=
              { order with PaymentStatus := PaymentStatusPaid, Status := OrderStatusConfirmed }
            if env.saveOrderFails then
              (Response.fail 500 "Database error" "Failed to update order payment status", db)
            else
              ({ status := 200, success := true, error := "",
                 message := "Payment confirmed successfully", data := some order },
                saveOrder db order)

/-! ## middleware/auth.go and the route groups of main.go -/

/-- The JWT claims (auth.go, `Claims`). -/
structure Claims where
  UserID : String
  Email : String
  IsAdmin : Bool
deriving DecidableEq, Repr

/-- The keys the middleware sets in the request context. -/
structure Context where
  userID : Option String
  userEmail : Option String
  isAdmin : Option Bool
deriving DecidableEq, Repr

def Context.empty : Context := { userID := none, userEmail := none, isAdmin := none }

/-- Outcome of `jwt.ParseWithClaims` on the token string: a parse or signature error, a
token whose claims are not usable, or the claims of a valid token. -/
inductive TokenResult
  | invalid
  | badClaims
  | valid (claims : Claims)
deriving DecidableEq, Repr

/-- The middleware `AuthRequired`: the response with which the request is aborted, or the
context handed to the next handler.  `parse` stands for the JWT validation with the
configured secret. -/
def AuthRequired (parse : String → TokenResult) (authHeader : String) (c : Context) :
    Except Response Context :=
  if authHeader = "" then
    .error (Response.fail 401 "Unauthorized" "Authorization header is required")
  else
    match authHeader.splitOn " " with
    | ["Bearer", tokenString] =>
      match parse tokenString with
      | .invalid => .error (Response.fail 401 "Unauthorized" "Invalid or expired token")
      | .badClaims => .error (Response.fail 401 "Unauthorized" "Invalid token claims")
      | .valid claims =>
        .ok { c with userID := some claims.UserID, userEmail := some claims.Email,
                     isAdmin := some claims.IsAdmin }
    | _ => .error (Response.fail 401 "Unauthorized" "Invalid authorization header format")

/-- The middleware `AdminRequired`. -/
def AdminRequired (c : Context) : Except Response Context :=
  match c.isAdmin with
  | some true => .ok c
  | _ => .error (Response.fail 403 "Forbidden" "Admin access required")

/-- auth.go `GetUserID`. -/
def GetUserID (c : Context) : Option String := c.userID

/-- auth.go `IsAdmin`. -/
def IsAdmin (c : Context) : Bool := c.isAdmin.getD false

/-- The middleware a route group can install. -/
inductive Middleware
  | authRequired
  | adminRequired
deriving DecidableEq, Repr

/-- The middleware chain runs in order; the first abort ends the request. -/
def runMiddleware (parse : String → TokenResult) (authHeader : String) :
    List Middleware → Context → Except Response Context
  | [], c => .ok c
  | .authRequired :: rest, c =>
    match AuthRequired parse authHeader c with
    | .error r => .error r
    | .ok c1 => runMiddleware parse authHeader rest c1
  | .adminRequired :: rest, c =>
    match AdminRequired c with
    | .error r => .error r
    | .ok c1 => runMiddleware parse authHeader rest c1

/-- main.go lines 98-99: the middleware of the group of the protected routes. -/
def protectedGroup : List Middleware := [.authRequired]

/-- main.go lines 136-137: the middleware of the group of the admin routes. -/
def adminGroup : List Middleware := [.authRequired]

/-- A request to a route of the admin group (`PUT /admin/orders/:id/status`,
`GET /admin/orders`, ...): the abort response of the group's middleware, or the result of
the route's handler on the context the middleware built. -/
def adminRoute {α : Type} (parse : String → TokenResult) (authHeader : String)
    (handler : Context → α) : Except Response α :=
  match runMiddleware parse authHeader adminGroup Context.empty with
  | .error r => .error r
  | .ok c => .ok (handler c)

/-- A request to a route of the protected group, likewise. -/
def protectedRoute {α : Type} (parse : String → TokenResult) (authHeader : String)
    (handler : Context → α) : Except Response α :=
  match runMiddleware parse authHeader protectedGroup Context.empty with
  | .error r => .error r
  | .ok c => .ok (handler c)

/-- The order items the item loop of `CreateOrder` creates for the cart lines, from line
number `i` on. -/
def orderItemsFrom (env : Env) (orderID : String) : List LoadedCartItem → Nat → List OrderItem
  | [], _ => []
  | cartItem :: rest, i =>
    OrderItem.BeforeCreate (env.orderItemUUID i)
      { ID := "", OrderID := orderID, ProductID := cartItem.ProductID,
        Quantity := cartItem.Quantity, Price := cartItem.Price,
        Total := cartItem.Price * (cartItem.Quantity : ℚ) } ::
    orderItemsFrom env orderID rest (i + 1)

/-- One user whose cart holds 2 units of a product added at price 10, whose current price
is 12. -/
def Scenario.repriced : DB :=
  { products := [{ ID := "p1", Name := "Resin", Price := 12, InStock := true, StockQuantity := 5 }],
    carts := [{ ID := "c1", UserID := some "u1", TotalAmount := 20, TotalItems := 2 }],
    cartItems := [{ ID := "ci1", CartID := "c1", ProductID := "p1", Quantity := 2, Price := 10 }],
    orders := [], orderItems := [] }

/-- The state the stock-restoring loop of `CancelOrder` reaches when none of its store
calls fails. -/
def restoreResult : List LoadedOrderItem → DB → DB
  | [], db => db
  | item :: rest, db => restoreResult rest (updateStockQuantity db item.Product.ID item.Quantity)

/-- Total quantity the order items give back to the product `productID`. -/
def restored (items : List LoadedOrderItem) (productID : String) : Int :=
  ((items.filter (fun oi => oi.Product.ID = productID)).map (fun oi => oi.Quantity)).sum

/-- No store call inside the transaction of a `CancelOrder` run over `n` order items fails. -/
def OrderEnv.noFaults (env : OrderEnv) (n : Nat) : Prop :=
  (∀ i, i < n → env.restoreStockFails i = false) ∧
  env.saveOrderFails = false ∧ env.commitFails = false

/-- The state a fault-free transaction of `CancelOrder` on the order row `row` commits. -/
def cancelled (db : DB) (row : Order) : DB :=
  saveOrder (restoreResult (preloadOrderItems db row.ID) db)
    { row with Status := OrderStatusCancelled }

/-- A run of `CancelOrder` or `UpdateOrderStatus` in which no store call fails. -/
def Scenario.orderEnv : OrderEnv :=
  { fetchOrderFails := false, restoreStockFails := fun _ => false, saveOrderFails := false,
    commitFails := false }

/-- The store after user u1 ordered 2 units of p1 (price 10, stock 5 before the order). -/
def Scenario.ordered : DB :=
  (CreateOrder Scenario.env (Scenario.store 10 2 5) (some "u1") (.ok Scenario.req)).2

/-- The same store with the order's status set to `status`. -/
def Scenario.orderedWith (status : String) : DB :=
  (UpdateOrderStatus Scenario.orderEnv Scenario.ordered "0b7e3c52-order" (.ok status)).2

/-- The order row of `Scenario.ordered`, with status `status`. -/
def Scenario.orderRow (status : String) : Order :=
  { ID := "0b7e3c52-order", UserID := "u1", OrderNumber := "BIZOE-20240131-4f9a1d2e",
    Status := status, ShippingAddress := Scenario.addr, BillingAddress := Scenario.addr,
    PaymentMethod := "card", PaymentStatus := "pending", PaymentIntentID := "",
    Subtotal := 20, Tax := 1.6, Shipping := 9.99, Total := 31.59 }

/-- The JWT validation of the scenarios: `tok-u2` is a valid token of the non-admin user
u2, `tok-admin` one of an administrator, every other string is rejected. -/
def Scenario.parse (token : String) : TokenResult :=
  if token = "tok-u2" then
    .valid { UserID := "u2", Email := "u2@example.org", IsAdmin := false }
  else if token = "tok-admin" then
    .valid { UserID := "admin", Email := "admin@example.org", IsAdmin := true }
  else .invalid

/-- The response with which the middleware aborted the request, if it did. -/
def aborted {α : Type} : Except Response α → Option Response
  | .error r => some r
  | .ok _ => none

/-- The result of the route's handler, if the request reached it. -/
def handled {α : Type} : Except Response α → Option α
  | .error _ => none
  | .ok a => some a

/-- A payment-handler run in which no store call fails; the processor creates the intent
`pi_1` for every request, reports `pi_paid` as succeeded and `pi_open` as processing, and
fails on any other intent id. -/
def Scenario.payEnv : PayEnv :=
  { fetchOrderFails := false, saveOrderFails := false,
    newIntent := fun _ =>
      .ok { ID := "pi_1", ClientSecret := "pi_1_secret", Status := "requires_payment_method" },
    getIntent := fun id =>
      if id = "pi_paid" then
        .ok { ID := "pi_paid", ClientSecret := "pi_paid_secret", Status := "succeeded" }
      else if id = "pi_open" then
        .ok { ID := "pi_open", ClientSecret := "pi_open_secret", Status := "processing" }
      else .error "No such payment_intent" }

/-- The same run, except that the store rejects every `Save(&order)`. -/
def Scenario.payEnvSaveFails : PayEnv :=
  { Scenario.payEnv with saveOrderFails := true }

/-- The store after user u1 ordered 1 unit of a product priced 9.99. -/
def Scenario.ordered999 : DB :=
  (CreateOrder Scenario.env (Scenario.store 9.99 1 5) (some "u1") (.ok Scenario.req)).2

/-- The store `Scenario.ordered` after the payment of its order was confirmed. -/
def Scenario.paid : DB :=
  (ConfirmPayment Scenario.payEnv Scenario.ordered (some "u1")
    (.ok { PaymentIntentID := "pi_paid", OrderID := "0b7e3c52-order" })).2

/-- The order row `ConfirmPayment` stores for `o`. -/
def Order.paid (o : Order) : Order :=
  { o with PaymentStatus := PaymentStatusPaid, Status := OrderStatusConfirmed }

/-! ## The order-number format -/

/-- A character of the lower-case hexadecimal notation `uuid.UUID.String` writes. -/
def hexDigit (c : Char) : Bool := c.isDigit || (decide ('a' ≤ c) && decide (c ≤ 'f'))

/-- The persisted order-number format `PREFIX-YYYYMMDD-XXXXXXXX`: 23 characters, the prefix
`BIZOE`, a hyphen, eight decimal digits, a hyphen, eight hexadecimal characters. -/
def orderNumberFormat (s : String) : Prop :=
  s.data.length = 23 ∧ s.data.take 6 = ['B', 'I', 'Z', 'O', 'E', '-'] ∧
  (∀ c ∈ (s.data.drop 6).take 8, c.isDigit = true) ∧
  (s.data.drop 14).take 1 = ['-'] ∧
  (∀ c ∈ s.data.drop 15, hexDigit c = true)

instance (s : String) : Decidable (orderNumberFormat s) := by
  unfold orderNumberFormat; infer_instance

/-! ## orders.go: GetAllOrders -/

/-- The conversion `strconv.Atoi` with its error dropped, as in
`page, _ := strconv.Atoi(...)`: the value of an optionally signed decimal string, clipped to
the range of `int`, and 0 for any other string. -/
def Atoi (s : String) : Int :=
  let v : Int :=
    if s.get 0 = '+' then ((s.drop 1).toNat?.map Int.ofNat).getD 0 else s.toInt?.getD 0
  if v > 2 ^ 63 - 1 then 2 ^ 63 - 1 else if v < - 2 ^ 63 then - 2 ^ 63 else v

/-- The error value of a Go run-time panic. -/
def divideByZero : String := "runtime error: integer divide by zero"

/-- Line 290: `int((total + int64(limit) - 1) / int64(limit))`.  Integer division truncates
toward zero and panics on a zero divisor. -/
def totalPages (total limit : Int) : Except String Int :=
  if limit = 0 then .error divideByZero
  else .ok (wrapInt64 (Int.tdiv (wrapInt64 (wrapInt64 (total + limit) - 1)) limit))

/-- The `pagination` object of the response. -/
structure Pagination where
  page : Int
  limit : Int
  total : Int
  totalPages : Int
deriving DecidableEq, Repr

/-- JSON response of `GetAllOrders`. -/
structure OrdersResponse where
  status : Nat
  success : Bool
  error : String
  message : String
  data : List Order
  pagination : Option Pagination
deriving DecidableEq, Repr

def OrdersResponse.fail (status : Nat) (error message : String) : OrdersResponse :=
  { status := status, success := false, error := error, message := message, data := [],
    pagination := none }

/-- Which store calls of one `GetAllOrders` run return an error, and how the store applies
`Offset(offset).Limit(limit)` to the rows of the query (`window offset limit rows`). -/
structure ListEnv where
  countFails : Bool
  findFails : Bool
  window : Int → Int → List Order → List Order

/-- The handler `OrderHandler.GetAllOrders`; `page`, `limit` are the query parameters when
present, `status` is the `status` query parameter (empty when absent).  An error is a
run-time panic of the handler. -/
def GetAllOrders (env : ListEnv) (db : DB) (page limit : Option String) (status : String) :
    Except String OrdersResponse :=
  let page := Atoi (page.getD "1")
  let limit := Atoi (limit.getD "20")
  let query := db.orders.filter (fun o => status = "" ∨ o.Status = status)
  if env.countFails then
    .ok (OrdersResponse.fail 500 "Database error" "Failed to count orders")
  else
    let total : Int := query.length
    let offset := wrapInt64 (wrapInt64 (page - 1) * limit)
    if env.findFails then
      .ok (OrdersResponse.fail 500 "Database error" "Failed to fetch orders")
    else
      let orders := env.window offset limit query.reverse
      match totalPages total limit with
      | .error e => .error e
      | .ok pages =>
        .ok { status := 200, success := true, error := "", message := "", data := orders,
              pagination := some { page := page, limit := limit, total := total,
                                   totalPages := pages } }

/-! ## Descriptions used by the statements on payments, order data and sequences of requests -/

/-- The panic with which a handler run ended, if it did. -/
def panicOf {α : Type} : Except String α → Option String
  | .error e => some e
  | .ok _ => none

/-- The response of a handler run that did not panic. -/
def responseOf {α : Type} : Except String α → Option α
  | .error _ => none
  | .ok a => some a

/-- A `GetAllOrders` run in which no store call fails; the store skips `offset` rows when
`offset` is positive and returns at most `limit` rows. -/
def Scenario.listEnv : ListEnv :=
  { countFails := false, findFails := false,
    window := fun offset limit rows => (rows.drop offset.toNat).take limit.toNat }

/-- The error of a failed call, if it failed. -/
def errorOf {ε α : Type} : Except ε α → Option ε
  | .error e => some e
  | .ok _ => none

/-- A payment-handler run in which the processor reports `pi_other` as succeeded: an intent
of 100 minor units created for another order of another user. -/
def Scenario.payEnvOther : PayEnv :=
  { Scenario.payEnv with
    getIntent := fun id =>
      if id = "pi_other" then
        .ok { ID := "pi_other", ClientSecret := "pi_other_secret", Status := "succeeded",
              Amount := 100, Metadata := [("order_id", "another-order"), ("user_id", "u2")] }
      else .error "No such payment_intent" }

/-- The store `Scenario.ordered` after CreatePaymentIntent stored the reference `pi_1` on its
order. -/
def Scenario.intended : DB :=
  (CreatePaymentIntent Scenario.payEnv Scenario.ordered (some "u1")
    (.ok { OrderID := "0b7e3c52-order" })).2.1

/-- The store `Scenario.ordered` after its order was cancelled by its owner. -/
def Scenario.cancelledOrder : DB :=
  (CancelOrder Scenario.orderEnv Scenario.ordered (some "u1") false "0b7e3c52-order").2

/-- The store `Scenario.cancelledOrder` after the status of its order was set back to
pending. -/
def Scenario.reopened : DB :=
  (UpdateOrderStatus Scenario.orderEnv Scenario.cancelledOrder "0b7e3c52-order"
    (.ok "pending")).2

/-- The parameters with which `CreatePaymentIntent` asks the processor for an intent for
`order` on behalf of `userID` (lines 525-532). -/
def intentParams (order : Order) (userID : String) : PaymentIntentParams :=
  { Amount := toInt64 (order.Total * 100), Currency := "usd",
    Metadata := [("order_id", order.ID), ("user_id", userID)] }

/-- A payment-handler run in which the processor cannot be reached. -/
def Scenario.payEnvDown : PayEnv :=
  { fetchOrderFails := false, saveOrderFails := false,
    newIntent := fun _ => .error "processor unreachable",
    getIntent := fun _ => .error "processor unreachable" }

/-- The order row of `Scenario.intended`. -/
def Scenario.intendedRow : Order :=
  { Scenario.orderRow "pending" with PaymentIntentID := "pi_1" }

/-- The fields of an order row other than `Status`, `PaymentStatus` and `PaymentIntentID`. -/
structure OrderData where
  ID : String
  UserID : String
  OrderNumber : String
  ShippingAddress : Address
  BillingAddress : Address
  PaymentMethod : String
  Subtotal : ℚ
  Tax : ℚ
  Shipping : ℚ
  Total : ℚ
deriving DecidableEq, Repr

/-- The order data no handler is to change. -/
def Order.fixed (o : Order) : OrderData :=
  { ID := o.ID, UserID := o.UserID, OrderNumber := o.OrderNumber,
    ShippingAddress := o.ShippingAddress, BillingAddress := o.BillingAddress,
    PaymentMethod := o.PaymentMethod, Subtotal := o.Subtotal, Tax := o.Tax,
    Shipping := o.Shipping, Total := o.Total }

/-- The order table of `db1` holds the rows of `db`, in the same order, each with its fixed
data unchanged and its payment status either unchanged or set to paid. -/
def OrdersUpdated (db db1 : DB) : Prop :=
  ∃ f : Order → Order, db1.orders = db.orders.map f ∧
    ∀ o ∈ db.orders, (f o).fixed = o.fixed ∧
      ((f o).PaymentStatus = o.PaymentStatus ∨ (f o).PaymentStatus = PaymentStatusPaid)

/-- The changes of an order's payment status the specification allows in one operation: none,
pending to paid, pending to failed, paid to refunded. -/
def paymentStep (a b : PaymentStatus) : Prop :=
  a = b ∨ (a = PaymentStatusPending ∧ b = PaymentStatusPaid) ∨
  (a = PaymentStatusPending ∧ b = PaymentStatusFailed) ∨
  (a = PaymentStatusPaid ∧ b = PaymentStatusRefunded)

/-- One request to a handler of the order workflow, with the environment of its run. -/
inductive OrderOp
  | create (env : Env) (userID : Option String) (req : Except String CreateOrderRequest)
  | cancel (env : OrderEnv) (userID : Option String) (isAdmin : Bool) (orderID : String)
  | updateStatus (env : OrderEnv) (orderID : String) (updateData : Except String String)
  | createIntent (env : PayEnv) (userID : Option String)
      (req : Except String CreatePaymentIntentRequest)
  | confirm (env : PayEnv) (userID : Option String) (req : Except String ConfirmPaymentRequest)

/-- The store after the handler run of an order request. -/
def OrderOp.run (db : DB) : OrderOp → DB
  | .create env userID req => (CreateOrder env db userID req).2
  | .cancel env userID isAdmin orderID => (CancelOrder env db userID isAdmin orderID).2
  | .updateStatus env orderID updateData => (UpdateOrderStatus env db orderID updateData).2
  | .createIntent env userID req => (CreatePaymentIntent env db userID req).2.1
  | .confirm env userID req => (ConfirmPayment env db userID req).2

/-- The run respects the primary key of the order table: the insert of an order whose id
is already stored fails. -/
def OrderOp.keyed (db : DB) : OrderOp → Prop
  | .create env _ _ => (∃ o ∈ db.orders, o.ID = env.orderUUID) → env.createOrderFails = true
  | _ => True

/-- The stores reachable from one without orders through CreateOrder, CancelOrder,
UpdateOrderStatus, CreatePaymentIntent and ConfirmPayment requests, in any runs that respect
the primary key of the order table. -/
inductive OrderReachable : DB → Prop
  | init (db : DB) (horders : db.orders = []) : OrderReachable db
  | step (db : DB) (op : OrderOp) (h : OrderReachable db) (hkey : op.keyed db) :
      OrderReachable (op.run db)

/-- Order ids are unique and every payment status is pending or paid. -/
def PaymentInvariant (db : DB) : Prop :=
  (db.orders.map (fun o => o.ID)).Nodup ∧
  ∀ o ∈ db.orders, o.PaymentStatus = PaymentStatusPending ∨ o.PaymentStatus = PaymentStatusPaid

/-- The `min` bound the binding tags put on the quantity of a bound cart request
(cart.go lines 16-24): at least 1 for `AddToCartRequest`, at least 0 for
`UpdateCartRequest`. -/
def CartOp.valid : CartOp → Prop
  | .add _ (.ok r) => 1 ≤ r.Quantity
  | .update _ (.ok r) => 0 ≤ r.Quantity
  | _ => True

/-- The cart lines are well formed: cart item keys are unique, every line has a quantity of
at least 1, no two lines of one cart are for the same product, and every quantity is below
2^62. -/
structure LinesInvariant (db : DB) : Prop where
  itemKeys : (db.cartItems.map (fun it => it.ID)).Nodup
  quantity : ∀ it ∈ db.cartItems, 1 ≤ it.Quantity
  distinct : (db.cartItems.map (fun it => (it.CartID, it.ProductID))).Nodup
  bounded : ∀ it ∈ db.cartItems, it.Quantity < 2 ^ 62

/-- No stock quantity reaches 2^62.  A line quantity and a requested quantity that are both
within such a stock add up to less than 2^63, so that the `int` addition of `AddToCart`
does not wrap around. -/
def StockBelow (db : DB) : Prop :=
  ∀ p ∈ db.products, p.StockQuantity < 2 ^ 62

/-- The step from `db` to `db1` touches neither products, orders nor order items, and,
when no stock quantity reaches 2^62, keeps the cart lines well formed. -/
def Preserves (db db1 : DB) : Prop :=
  db1.products = db.products ∧ db1.orders = db.orders ∧ db1.orderItems = db.orderItems ∧
  (StockBelow db → LinesInvariant db → LinesInvariant db1)

/-- The stores reachable from one without cart lines through AddToCart, UpdateCart,
RemoveFromCart and ClearCart requests of any users whose bound quantities respect the
binding tags, in any runs. -/
inductive CartLinesReachable : DB → Prop
  | init (db : DB) (hitems : db.cartItems = []) : CartLinesReachable db
  | step (db : DB) (env : CartEnv) (op : CartOp) (h : CartLinesReachable db)
      (hvalid : op.valid) : CartLinesReachable (op.run env db).2

/-- One request to a handler of the cart or of the order workflow, with the environment of
its run. -/
inductive StoreOp
  | cart (env : CartEnv) (op : CartOp)
  | order (op : OrderOp)

/-- The store after the handler run of a request. -/
def StoreOp.run (db : DB) : StoreOp → DB
  | .cart env op => (op.run env db).2
  | .order op => op.run db

/-- The bound quantities of a cart request respect the binding tags. -/
def StoreOp.valid : StoreOp → Prop
  | .cart _ op => op.valid
  | .order _ => True

/-- The store after the requests `ops`, served one after the other. -/
def runAll (ops : List StoreOp) (db : DB) : DB :=
  ops.foldl (fun db op => op.run db) db

/-- Product keys are unique, no stock quantity is negative, the cart lines are well formed
and no order item has a negative quantity. -/
structure StockInvariant (db : DB) : Prop where
  productKeys : (db.products.map (fun p => p.ID)).Nodup
  stock : ∀ p ∈ db.products, 0 ≤ p.StockQuantity
  lines : LinesInvariant db
  ordered : ∀ oi ∈ db.orderItems, 0 ≤ oi.Quantity

/-- A store with one product, of which 2^62 are in stock, and no cart. -/
def Scenario.bulk : DB :=
  { products := [{ ID := "p1", Name := "Resin", Price := 10, InStock := true,
                   StockQuantity := 2 ^ 62 }],
    carts := [], cartItems := [], orders := [], orderItems := [] }

/-- The store after user u1 twice added 2^62 units of p1 to an empty cart. -/
def Scenario.bulkTwice : DB :=
  ((CartOp.add (some "u1") (.ok { ProductID := "p1", Quantity := 2 ^ 62 })).run Scenario.cartEnv
    ((CartOp.add (some "u1") (.ok { ProductID := "p1", Quantity := 2 ^ 62 })).run Scenario.cartEnv
      Scenario.bulk).2).2

/-- A store with one product, of which 3 * 2^61 are in stock, no cart and no order. -/
def Scenario.warehouse : DB :=
  { products := [{ ID := "p1", Name := "Resin", Price := 10, InStock := true,
                   StockQuantity := 3 * 2 ^ 61 }],
    carts := [], cartItems := [], orders := [], orderItems := [] }

/-- The cart-handler run of user u3 in `Scenario.overdraw`. -/
def Scenario.cartEnv3 : CartEnv :=
  { Scenario.cartEnv with cartUUID := "cart-b5a9", itemUUID := "line-e6f7" }

/-- The `CreateOrder` run of user u3 in `Scenario.overdraw`. -/
def Scenario.env3 : Env :=
  { Scenario.env with
    orderUUID := "d2e8a1b6-order", orderNumberUUID := "c9f07d35-number",
    orderItemUUID := fun i => "item3-" ++ toString i }

/-- Eight requests served one after the other, no store call failing: user u1 adds
3 * 2^61 units of p1 twice; user u2 adds 2^61 + 1 units and orders them; user u1 orders;
user u3 adds 2^63 - 1 units and orders them; user u1 cancels their order. -/
def Scenario.overdraw : List StoreOp :=
  [.cart Scenario.cartEnv (.add (some "u1") (.ok { ProductID := "p1", Quantity := 3 * 2 ^ 61 })),
   .cart Scenario.cartEnv (.add (some "u1") (.ok { ProductID := "p1", Quantity := 3 * 2 ^ 61 })),
   .cart Scenario.cartEnv2 (.add (some "u2") (.ok { ProductID := "p1", Quantity := 2 ^ 61 + 1 })),
   .order (.create Scenario.env2 (some "u2") (.ok Scenario.req)),
   .order (.create Scenario.env (some "u1") (.ok Scenario.req)),
   .cart Scenario.cartEnv3 (.add (some "u3") (.ok { ProductID := "p1", Quantity := 2 ^ 63 - 1 })),
   .order (.create Scenario.env3 (some "u3") (.ok Scenario.req)),
   .order (.cancel Scenario.orderEnv (some "u1") false "0b7e3c52-order")]

/-- Three requests served one after the other, no store call failing: user u1 adds one
more unit of p1, orders, and cancels the order. -/
def Scenario.roundTrip : List StoreOp :=
  [.cart Scenario.cartEnv (.add (some "u1") (.ok { ProductID := "p1", Quantity := 1 })),
   .order (.create Scenario.env (some "u1") (.ok Scenario.req)),
   .order (.cancel Scenario.orderEnv (some "u1") false "0b7e3c52-order")]

/-! ## Lemmas on CreateOrder -/

theorem createOrderItems_eq (env : Env) (orderID : String) (items : List LoadedCartItem) :
    ∀ (i : Nat) (db db1 : DB),
      createOrderItems env orderID items i db = .ok db1 ↔
        (∀ k, k < items.length →
          env.createOrderItemFails (i + k) = false ∧ env.updateStockFails (i + k) = false) ∧
        db1 = itemsResult env orderID items i db := by
  induction items with
  | nil =>
    intro i db db1
    simp only [createOrderItems, itemsResult, List.length_nil, Nat.not_lt_zero, false_imp_iff,
      implies_true, true_and, Except.ok.injEq]
    exact eq_comm
  | cons it rest ih =>
    intro i db db1
    simp only [createOrderItems, itemsResult, List.length_cons]
    cases h1 : env.createOrderItemFails i with
    | true =>
      simp only [if_true]
      constructor
      · intro h; cases h
      · intro h
        have := (h.1 0 (Nat.succ_pos _)).1
        simp [h1] at this
    | false =>
      cases h2 : env.updateStockFails i with
      | true =>
        simp only [if_true, Bool.false_eq_true, if_false]
        constructor
        · intro h; cases h
        · intro h
          have := (h.1 0 (Nat.succ_pos _)).2
          simp [h2] at this
      | false =>
        simp only [Bool.false_eq_true, if_false]
        rw [ih]
        constructor
        · rintro ⟨hk, hdb⟩
          refine ⟨?_, hdb⟩
          intro k hk1
          cases k with
          | zero => exact ⟨h1, h2⟩
          | succ k =>
            have := hk k (Nat.lt_of_succ_lt_succ hk1)
            simpa [Nat.add_assoc, Nat.add_comm 1 k] using this
        · rintro ⟨hk, hdb⟩
          refine ⟨?_, hdb⟩
          intro k hk1
          have := hk (k + 1) (Nat.succ_lt_succ hk1)
          simpa [Nat.add_assoc, Nat.add_comm 1 k] using this

theorem itemsResult_frame (env : Env) (orderID : String) (items : List LoadedCartItem) :
    ∀ (i : Nat) (db : DB),
      (itemsResult env orderID items i db).carts = db.carts ∧
      (itemsResult env orderID items i db).cartItems = db.cartItems ∧
      (itemsResult env orderID items i db).orders = db.orders := by
  induction items with
  | nil => intro i db; simp [itemsResult]
  | cons it rest ih =>
    intro i db
    simp only [itemsResult]
    have := ih (i + 1) (updateStockQuantity { db with orderItems := db.orderItems ++
      [OrderItem.BeforeCreate (env.orderItemUUID i)
        { ID := "", OrderID := orderID, ProductID := it.ProductID,
          Quantity := it.Quantity, Price := it.Price,
          Total := it.Price * (it.Quantity : ℚ) }] } it.Product.ID (- it.Quantity))
    simpa [updateStockQuantity] using this

theorem itemsResult_products (env : Env) (orderID : String) (items : List LoadedCartItem) :
    ∀ (i : Nat) (db : DB),
      (itemsResult env orderID items i db).products =
        db.products.map (fun p =>
          { p with StockQuantity := p.StockQuantity - requested items p.ID }) := by
  induction items with
  | nil =>
    intro i db
    simp [itemsResult, requested]
  | cons it rest ih =>
    intro i db
    simp only [itemsResult]
    rw [ih]
    simp only [updateStockQuantity, List.map_map]
    apply List.map_congr_left
    intro p _
    by_cases h : p.ID = it.Product.ID
    · simp [requested, List.filter_cons, h]
      ring
    · have h' : ¬ it.Product.ID = p.ID := fun e => h e.symm
      simp [requested, List.filter_cons, h, h']

theorem createOrderTx_cases (env : Env) (db : DB) (userID : String) (req : CreateOrderRequest)
    (cart : LoadedCart) :
    (env.noFaults cart.Items.length ∧
      (createOrderTx env db userID req cart).1.status = 201 ∧
      (createOrderTx env db userID req cart).2 = committed env db userID req cart) ∨
    (¬ env.noFaults cart.Items.length ∧
      (createOrderTx env db userID req cart).1.status = 500 ∧
      (createOrderTx env db userID req cart).1.error = "Database error" ∧
      (createOrderTx env db userID req cart).2 = db) := by
  have key := createOrderItems_eq env (newOrder env userID req cart).ID cart.Items 0
    { db with orders := db.orders ++ [newOrder env userID req cart] }
  unfold newOrder at key
  unfold createOrderTx committed newOrder
  simp only [Env.noFaults]
  cases h1 : env.createOrderFails with
  | true => right; simp [Response.fail, Tx.Rollback, DB.Begin]
  | false =>
    simp only [Bool.false_eq_true, if_false, DB.Begin]
    generalize hres : createOrderItems env _ cart.Items 0 _ = res
    rw [hres] at key
    cases res with
    | error msg =>
      right
      refine ⟨?_, by simp [Response.fail, Tx.Rollback]⟩
      intro h
      have := (key (itemsResult env _ cart.Items 0 _)).mpr ⟨by simpa using h.2.1, rfl⟩
      cases this
    | ok cur =>
      have hk := (key cur).mp rfl
      cases h2 : env.deleteCartItemsFails with
      | true => right; simp [Response.fail, Tx.Rollback]
      | false =>
        cases h3 : env.saveCartFails with
        | true => right; simp [Response.fail, Tx.Rollback]
        | false =>
          cases h4 : env.commitFails with
          | true => right; simp [Response.fail, Tx.Commit]
          | false =>
            left
            refine ⟨⟨trivial, by simpa using hk.1, rfl, rfl, rfl⟩, ?_⟩
            simp [Tx.Commit, hk.2]

theorem validateStock_none (items : List LoadedCartItem) :
    validateStock items = none ↔ ∀ it ∈ items, ¬ short it := by
  induction items with
  | nil => simp [validateStock]
  | cons it rest ih =>
    simp only [validateStock, List.mem_cons, forall_eq_or_imp]
    by_cases h : short it
    · have h' : (!it.Product.InStock || decide (it.Product.StockQuantity < it.Quantity)) = true := by
        rcases h with h | h <;> simp [h]
      simp [h', h]
    · have h' : (!it.Product.InStock || decide (it.Product.StockQuantity < it.Quantity)) = false := by
        simp only [short, not_or, Bool.not_eq_false] at h
        simp [h.1, h.2]
      simp [h', h, ih]

theorem validateStock_some (items : List LoadedCartItem) (r : Response) :
    validateStock items = some r ↔
      ∃ pre it post, items = pre ++ it :: post ∧ (∀ x ∈ pre, ¬ short x) ∧ short it ∧
        r = stockError it := by
  induction items with
  | nil => simp [validateStock]
  | cons it rest ih =>
    simp only [validateStock]
    by_cases h : short it
    · have h' : (!it.Product.InStock || decide (it.Product.StockQuantity < it.Quantity)) = true := by
        rcases h with h | h <;> simp [h]
      simp only [h', if_true, Option.some.injEq]
      constructor
      · intro e
        exact ⟨[], it, rest, rfl, by simp, h, by simp [stockError, ← e]⟩
      · rintro ⟨pre, it', post, e, hpre, _, hr⟩
        cases pre with
        | nil =>
          simp only [List.nil_append, List.cons.injEq] at e
          rw [hr, ← e.1]; rfl
        | cons x pre =>
          simp only [List.cons_append, List.cons.injEq] at e
          exact absurd (e.1 ▸ h) (hpre x (List.mem_cons_self _ _))
    · have h' : (!it.Product.InStock || decide (it.Product.StockQuantity < it.Quantity)) = false := by
        simp only [short, not_or, Bool.not_eq_false] at h
        simp [h.1, h.2]
      simp only [h', Bool.false_eq_true, if_false, ih]
      constructor
      · rintro ⟨pre, it', post, e, hpre, hs, hr⟩
        refine ⟨it :: pre, it', post, by simp [e], ?_, hs, hr⟩
        intro x hx
        rcases List.mem_cons.mp hx with hx | hx
        · exact hx ▸ h
        · exact hpre x hx
      · rintro ⟨pre, it', post, e, hpre, hs, hr⟩
        cases pre with
        | nil =>
          simp only [List.nil_append, List.cons.injEq] at e
          exact absurd (e.1 ▸ hs) h
        | cons x pre =>
          simp only [List.cons_append, List.cons.injEq] at e
          exact ⟨pre, it', post, e.2, fun y hy => hpre y (List.mem_cons_of_mem _ hy), hs, hr⟩

theorem CreateOrder_found (env : Env) (db : DB) (u : String) (r : CreateOrderRequest) (c : Cart)
    (hf : env.fetchCartFails = false)
    (hc : db.carts.find? (fun c => c.UserID = some u) = some c) :
    CreateOrder env db (some u) (.ok r) =
      if (preloadItems db c.ID).length = 0 then
        (Response.fail 400 "Empty cart" "Cannot create order from empty cart", db)
      else
        match validateStock (preloadItems db c.ID) with
        | some resp => (resp, db)
        | none => createOrderTx env db u r { toCart := c, Items := preloadItems db c.ID } := by
  simp only [CreateOrder, prepareOrder, fetchCart, hf, hc, Bool.false_eq_true, if_false]
  by_cases h0 : (preloadItems db c.ID).length = 0
  · simp [h0]
  · simp only [h0, if_false]
    cases validateStock (preloadItems db c.ID) <;> rfl

theorem CreateOrder_ok (env : Env) (db : DB) (u : String) (r : CreateOrderRequest) (c : Cart)
    (hf : env.fetchCartFails = false)
    (hc : db.carts.find? (fun c => c.UserID = some u) = some c)
    (hne : preloadItems db c.ID ≠ [])
    (hstock : ∀ it ∈ preloadItems db c.ID, ¬ short it)
    (hok : env.noFaults (preloadItems db c.ID).length) :
    (CreateOrder env db (some u) (.ok r)).1.status = 201 ∧
    (CreateOrder env db (some u) (.ok r)).2 =
      committed env db u r { toCart := c, Items := preloadItems db c.ID } := by
  rw [CreateOrder_found env db u r c hf hc]
  have h0 : ¬ (preloadItems db c.ID).length = 0 := by
    simpa [List.length_eq_zero] using hne
  simp only [h0, if_false, (validateStock_none _).mpr hstock]
  rcases createOrderTx_cases env db u r { toCart := c, Items := preloadItems db c.ID } with h | h
  · exact h.2
  · exact absurd hok h.1

theorem CreateOrder_inv (env : Env) (db : DB) (userID : Option String)
    (req : Except String CreateOrderRequest)
    (h : (CreateOrder env db userID req).1.status = 201) :
    ∃ u r c, userID = some u ∧ req = .ok r ∧ env.fetchCartFails = false ∧
      db.carts.find? (fun c => c.UserID = some u) = some c ∧
      preloadItems db c.ID ≠ [] ∧ (∀ it ∈ preloadItems db c.ID, ¬ short it) ∧
      env.noFaults (preloadItems db c.ID).length ∧
      (CreateOrder env db userID req).2 =
        committed env db u r { toCart := c, Items := preloadItems db c.ID } := by
  cases userID with
  | none => simp [CreateOrder, prepareOrder, Response.fail] at h
  | some u =>
    cases req with
    | error e => simp [CreateOrder, prepareOrder, Response.fail] at h
    | ok r =>
      cases hf : env.fetchCartFails with
      | true => simp [CreateOrder, prepareOrder, fetchCart, hf, Response.fail] at h
      | false =>
        cases hc : db.carts.find? (fun c => c.UserID = some u) with
        | none => simp [CreateOrder, prepareOrder, fetchCart, hf, hc, Response.fail] at h
        | some c =>
          rw [CreateOrder_found env db u r c hf hc] at h ⊢
          by_cases h0 : (preloadItems db c.ID).length = 0
          · simp [h0, Response.fail] at h
          · simp only [h0, if_false] at h ⊢
            cases hv : validateStock (preloadItems db c.ID) with
            | some resp =>
              obtain ⟨_, it, _, _, _, _, hr⟩ := (validateStock_some _ _).mp hv
              simp [hv, hr, stockError, Response.fail] at h
            | none =>
              simp only [hv] at h ⊢
              rcases createOrderTx_cases env db u r
                { toCart := c, Items := preloadItems db c.ID } with hh | hh
              · exact ⟨u, r, c, rfl, rfl, trivial, hc, by simpa [List.length_eq_zero] using h0,
                  (validateStock_none _).mp hv, hh.1, hh.2.2⟩
              · rw [hh.2.1] at h; cases h

theorem CreateOrder_unchanged (env : Env) (db : DB) (userID : Option String)
    (req : Except String CreateOrderRequest)
    (h : (CreateOrder env db userID req).1.status ≠ 201) :
    (CreateOrder env db userID req).2 = db := by
  cases userID with
  | none => simp [CreateOrder, prepareOrder]
  | some u =>
    cases req with
    | error e => simp [CreateOrder, prepareOrder]
    | ok r =>
      cases hf : env.fetchCartFails with
      | true => simp [CreateOrder, prepareOrder, fetchCart, hf]
      | false =>
        cases hc : db.carts.find? (fun c => c.UserID = some u) with
        | none => simp [CreateOrder, prepareOrder, fetchCart, hf, hc]
        | some c =>
          rw [CreateOrder_found env db u r c hf hc] at h ⊢
          by_cases h0 : (preloadItems db c.ID).length = 0
          · simp [h0]
          · simp only [h0, if_false] at h ⊢
            cases hv : validateStock (preloadItems db c.ID) with
            | some resp => simp
            | none =>
              simp only [hv] at h ⊢
              rcases createOrderTx_cases env db u r
                { toCart := c, Items := preloadItems db c.ID } with hh | hh
              · exact absurd hh.2.1 h
              · exact hh.2.2.2

theorem upsertCartItem_frame (db : DB) (item : CartItem) :
    (upsertCartItem db item).products = db.products ∧
    (upsertCartItem db item).carts = db.carts ∧
    (upsertCartItem db item).orders = db.orders ∧
    (upsertCartItem db item).orderItems = db.orderItems := by
  unfold upsertCartItem
  simp only
  split <;> exact ⟨rfl, rfl, rfl, rfl⟩

theorem upsertCartItems_frame (items : List CartItem) :
    ∀ db : DB,
      (upsertCartItems db items).products = db.products ∧
      (upsertCartItems db items).carts = db.carts ∧
      (upsertCartItems db items).orders = db.orders ∧
      (upsertCartItems db items).orderItems = db.orderItems := by
  induction items with
  | nil => intro db; exact ⟨rfl, rfl, rfl, rfl⟩
  | cons x rest ih =>
    intro db
    obtain ⟨h1, h2, h3, h4⟩ := ih (upsertCartItem db x)
    obtain ⟨g1, g2, g3, g4⟩ := upsertCartItem_frame db x
    exact ⟨h1.trans g1, h2.trans g2, h3.trans g3, h4.trans g4⟩

/-- Rows whose keys are neither stored nor repeated are appended by the write-back. -/
theorem upsertCartItems_fresh (items : List CartItem) :
    ∀ db : DB, (items.map (fun it => it.ID)).Nodup →
      (∀ it ∈ items, ∀ row ∈ db.cartItems, row.ID ≠ it.ID) →
      (upsertCartItems db items).cartItems = db.cartItems ++ items := by
  induction items with
  | nil => intro db _ _; simp [upsertCartItems]
  | cons x rest ih =>
    intro db hnd hfresh
    have hx : db.cartItems.any (fun it => decide (it.ID = x.ID)) = false := by
      rw [Bool.eq_false_iff]
      intro hany
      obtain ⟨row, hrow, hid⟩ := List.any_eq_true.mp hany
      exact hfresh x (List.mem_cons_self _ _) row hrow (by simpa using hid)
    have hstep : (upsertCartItem db x).cartItems = db.cartItems ++ [x] := by
      simp only [upsertCartItem, hx, Bool.false_eq_true, if_false]
    rw [List.map_cons, List.nodup_cons] at hnd
    show (upsertCartItems (upsertCartItem db x) rest).cartItems = _
    rw [ih (upsertCartItem db x) hnd.2, hstep, List.append_assoc, List.singleton_append]
    intro it hit row hrow
    rw [hstep] at hrow
    rcases List.mem_append.mp hrow with h1 | h1
    · exact hfresh it (List.mem_cons_of_mem _ hit) row h1
    · have hrx : row = x := by simpa using h1
      rw [hrx]
      intro he
      exact hnd.1 (List.mem_map.mpr ⟨it, hit, he.symm⟩)

theorem saveLoadedCart_frame (db : DB) (cart : LoadedCart) :
    (saveLoadedCart db cart).products = db.products ∧
    (saveLoadedCart db cart).carts = (saveCart db cart.toCart).carts ∧
    (saveLoadedCart db cart).orders = db.orders ∧
    (saveLoadedCart db cart).orderItems = db.orderItems := by
  obtain ⟨h1, h2, h3, h4⟩ :=
    upsertCartItems_frame (cart.Items.map (fun it => it.toCartItem)) (saveCart db cart.toCart)
  have hp : (saveCart db cart.toCart).products = db.products := by
    unfold saveCart; split <;> rfl
  have ho : (saveCart db cart.toCart).orders = db.orders := by
    unfold saveCart; split <;> rfl
  have hoi : (saveCart db cart.toCart).orderItems = db.orderItems := by
    unfold saveCart; split <;> rfl
  exact ⟨h1.trans hp, h2, h3.trans ho, h4.trans hoi⟩

theorem committed_orders (env : Env) (db : DB) (u : String) (r : CreateOrderRequest)
    (cart : LoadedCart) :
    (committed env db u r cart).orders = db.orders ++ [newOrder env u r cart] := by
  unfold committed
  rw [(saveLoadedCart_frame _ _).2.2.1]
  simp [deleteCartItems, (itemsResult_frame env _ cart.Items 0 _).2.2]

theorem committed_products (env : Env) (db : DB) (u : String) (r : CreateOrderRequest)
    (cart : LoadedCart) :
    (committed env db u r cart).products =
      db.products.map (fun p =>
        { p with StockQuantity := p.StockQuantity - requested cart.Items p.ID }) := by
  unfold committed
  rw [(saveLoadedCart_frame _ _).1]
  simp [deleteCartItems, itemsResult_products]

/-- The cart item table a fault-free `CreateOrder` commits: the rows of the other carts,
to which the `Save` of the loaded cart writes the loaded rows back. -/
theorem committed_cartItems (env : Env) (db : DB) (u : String) (r : CreateOrderRequest)
    (cart : LoadedCart) :
    (committed env db u r cart).cartItems =
      (upsertCartItems
        { db with cartItems := db.cartItems.filter (fun it => ¬ it.CartID = cart.ID) }
        (cart.Items.map (fun it => it.toCartItem))).cartItems := by
  have hdep : ∀ (items : List CartItem) (d1 d2 : DB), d1.cartItems = d2.cartItems →
      (upsertCartItems d1 items).cartItems = (upsertCartItems d2 items).cartItems := by
    intro items
    induction items with
    | nil => intro d1 d2 h; exact h
    | cons x rest ih =>
      intro d1 d2 h
      apply ih
      simp only [upsertCartItem, h]
      split <;> rfl
  unfold committed saveLoadedCart
  apply hdep
  have : ∀ (d : DB) (c : Cart), (saveCart d c).cartItems = d.cartItems := by
    intro d c; unfold saveCart; split <;> rfl
  rw [this]
  simp [deleteCartItems, (itemsResult_frame env _ cart.Items 0 _).2.1]

theorem preloadItems_rows (db : DB) (cartID : String) :
    (preloadItems db cartID).map (fun it => it.toCartItem) = cartLines db cartID := by
  simp [preloadItems, cartLines, List.map_map, Function.comp_def]

/-- With unique cart item keys, the rows the `Save` of the loaded cart writes back are the
lines the statement before it deleted: they are stored again, after the other carts' rows. -/
theorem committed_cartItems_of_nodup (env : Env) (db : DB) (u : String)
    (r : CreateOrderRequest) (c : Cart) (hnd : (db.cartItems.map (fun it => it.ID)).Nodup) :
    (committed env db u r { toCart := c, Items := preloadItems db c.ID }).cartItems =
      db.cartItems.filter (fun it => ¬ it.CartID = c.ID) ++ cartLines db c.ID := by
  rw [committed_cartItems]
  show (upsertCartItems _ ((preloadItems db c.ID).map (fun it => it.toCartItem))).cartItems = _
  rw [preloadItems_rows]
  refine upsertCartItems_fresh _ _ ?_ ?_
  · exact ((List.filter_sublist _).map _).nodup hnd
  · intro it hit row hrow he
    have h1 := List.mem_filter.mp hit
    have h2 := List.mem_filter.mp hrow
    have := List.inj_on_of_nodup_map hnd h2.1 h1.1 he
    rw [this] at h2
    simp [h1.2] at h2

theorem committed_carts (env : Env) (db : DB) (u : String) (r : CreateOrderRequest)
    (cart : LoadedCart) (hmem : cart.toCart ∈ db.carts) :
    (committed env db u r cart).carts =
      db.carts.map (fun c =>
        if c.ID = cart.ID then { cart.toCart with TotalAmount := 0, TotalItems := 0 } else c) := by
  have hany : db.carts.any (fun c => decide (c.ID = cart.ID)) = true := by
    simp only [List.any_eq_true]
    exact ⟨cart.toCart, hmem, by simp⟩
  unfold committed
  rw [(saveLoadedCart_frame _ _).2.1]
  unfold saveCart
  simp only [deleteCartItems, (itemsResult_frame env _ cart.Items 0 _).1, hany, if_true]

theorem newOrder_fields (env : Env) (u : String) (r : CreateOrderRequest) (cart : LoadedCart) :
    (newOrder env u r cart).ID = env.orderUUID ∧
    (newOrder env u r cart).UserID = u ∧
    (newOrder env u r cart).Status = OrderStatusPending ∧
    (newOrder env u r cart).PaymentStatus = PaymentStatusPending ∧
    (newOrder env u r cart).Subtotal = cart.TotalAmount ∧
    (newOrder env u r cart).Tax = orderTax cart.TotalAmount ∧
    (newOrder env u r cart).Shipping = orderShipping cart.TotalAmount ∧
    (newOrder env u r cart).Total =
      cart.TotalAmount + orderTax cart.TotalAmount + orderShipping cart.TotalAmount := by
  simp [newOrder, Order.BeforeCreate]

theorem stockOf_committed (env : Env) (db : DB) (u : String) (r : CreateOrderRequest)
    (cart : LoadedCart) (pid : String) :
    stockOf (committed env db u r cart) pid =
      (stockOf db pid).map (fun s => s - requested cart.Items pid) := by
  unfold stockOf
  rw [committed_products, List.find?_map]
  have : ((fun p : Product => decide (p.ID = pid)) ∘ fun p : Product =>
      { p with StockQuantity := p.StockQuantity - requested cart.Items p.ID }) =
      fun p : Product => decide (p.ID = pid) := by
    funext p; rfl
  rw [this]
  cases h : db.products.find? (fun p => decide (p.ID = pid)) with
  | none => rfl
  | some p =>
    have hp : p.ID = pid := by simpa using List.find?_some h
    simp [hp]

theorem preloadItems_product (db : DB) (cid : String) (it : LoadedCartItem)
    (hit : it ∈ preloadItems db cid) (hs : ¬ short it) :
    it.Product.ID = it.ProductID ∧
    db.products.find? (fun p => p.ID = it.ProductID) = some it.Product ∧ it.CartID = cid := by
  simp only [preloadItems, List.mem_map, List.mem_filter, decide_eq_true_eq] at hit
  obtain ⟨row, ⟨_, hcid⟩, rfl⟩ := hit
  simp only [short, not_or, Bool.not_eq_false] at hs
  simp only [preloadProduct] at hs ⊢
  cases h : db.products.find? (fun p => decide (p.ID = row.ProductID)) with
  | none => simp [h, Product.zero] at hs
  | some p =>
    have hp : p.ID = row.ProductID := by simpa using List.find?_some h
    simp [hp, hcid]

theorem requested_eq_lineQuantity (items : List LoadedCartItem) (pid : String)
    (h : ∀ it ∈ items, it.Product.ID = it.ProductID) :
    requested items pid = lineQuantity items pid := by
  unfold requested lineQuantity
  congr 2
  apply List.filter_congr
  intro it hit
  rw [h it hit]

theorem lineQuantity_of_nodup (items : List LoadedCartItem)
    (hnd : (items.map (fun it => it.ProductID)).Nodup) (it : LoadedCartItem) (hit : it ∈ items) :
    lineQuantity items it.ProductID = it.Quantity := by
  induction items with
  | nil => cases hit
  | cons x rest ih =>
    simp only [List.map_cons, List.nodup_cons, List.mem_map, not_exists, not_and] at hnd
    rcases List.mem_cons.mp hit with hx | hx
    · subst hx
      have hrest : rest.filter (fun y => decide (y.ProductID = it.ProductID)) = [] := by
        simp only [List.filter_eq_nil_iff, decide_eq_true_eq]
        intro y hy e
        exact hnd.1 y hy e
      simp [lineQuantity, List.filter_cons, hrest]
    · have hne : ¬ x.ProductID = it.ProductID := fun e => hnd.1 it hx e.symm
      have := ih hnd.2 hx
      simpa [lineQuantity, List.filter_cons, hne] using this

theorem lineQuantity_of_not_mem (items : List LoadedCartItem) (pid : String)
    (h : ∀ it ∈ items, it.ProductID ≠ pid) : lineQuantity items pid = 0 := by
  have : items.filter (fun y => decide (y.ProductID = pid)) = [] := by
    simp only [List.filter_eq_nil_iff, decide_eq_true_eq]
    exact h
  simp [lineQuantity, this]

theorem CreateOrder_stored (env : Env) (db : DB) (userID : Option String)
    (req : Except String CreateOrderRequest)
    (h : (CreateOrder env db userID req).1.status = 201) :
    ∃ u r c, userID = some u ∧ db.carts.find? (fun c => c.UserID = some u) = some c ∧
      (CreateOrder env db userID req).2.orders =
        db.orders ++ [newOrder env u r { toCart := c, Items := preloadItems db c.ID }] := by
  obtain ⟨u, r, c, hu, _, _, hc, _, _, _, hdb⟩ := CreateOrder_inv env db userID req h
  exact ⟨u, r, c, hu, hc, by rw [hdb, committed_orders]⟩

/-- C1: a successful CreateOrder appends one order to the store, whose subtotal is the cart's
cached total, whose tax is subtotal * 0.08 and whose total is subtotal + tax + shipping. -/
theorem createOrder_total (env : Env) (db : DB) (userID : Option String)
    (req : Except String CreateOrderRequest)
    (h : (CreateOrder env db userID req).1.status = 201) :
    ∃ o, (CreateOrder env db userID req).2.orders = db.orders ++ [o] ∧
      o.ID = env.orderUUID ∧
      o.Tax = o.Subtotal * 0.08 ∧
      o.Total = o.Subtotal + o.Tax + o.Shipping := by
  obtain ⟨u, r, c, _, _, _, _, _, _, _, hdb⟩ := CreateOrder_inv env db userID req h
  refine ⟨newOrder env u r { toCart := c, Items := preloadItems db c.ID }, ?_, ?_, ?_, ?_⟩
  · rw [hdb, committed_orders]
  · exact (newOrder_fields _ _ _ _).1
  · simp [newOrder, Order.BeforeCreate, orderTax]
  · simp [newOrder, Order.BeforeCreate]

theorem createOrder_total_witness :
    (CreateOrder Scenario.env (Scenario.store 10 2 5) (some "u1") (.ok Scenario.req)).1.status = 201 ∧
    ∃ o, (CreateOrder Scenario.env (Scenario.store 10 2 5) (some "u1") (.ok Scenario.req)).2.orders
        = (Scenario.store 10 2 5).orders ++ [o] ∧
      o.ID = Scenario.env.orderUUID ∧
      o.Tax = o.Subtotal * 0.08 ∧
      o.Total = o.Subtotal + o.Tax + o.Shipping :=
  ⟨by decide, createOrder_total _ _ _ _ (by decide)⟩

/-- C2 (as stated) fails: for a cart of one item priced 9.99 the stored tax is 0.7992,
whereas 9.99 * 0.08 rounded to cents is 0.80. -/
theorem createOrder_tax_not_rounded :
    (CreateOrder Scenario.env (Scenario.store 9.99 1 5) (some "u1") (.ok Scenario.req)).1.status = 201 ∧
    ∃ o, (CreateOrder Scenario.env (Scenario.store 9.99 1 5) (some "u1") (.ok Scenario.req)).2.orders = [o] ∧
      o.Subtotal = 9.99 ∧ o.Tax = 0.7992 ∧ round2 (o.Subtotal * 0.08) = 0.80 ∧
      o.Tax ≠ round2 (o.Subtotal * 0.08) := by
  refine ⟨by decide, ?_⟩
  obtain ⟨u, r, c, _, _, ho⟩ := CreateOrder_stored Scenario.env (Scenario.store 9.99 1 5)
    (some "u1") (.ok Scenario.req) (by decide)
  have hsub : (CreateOrder Scenario.env (Scenario.store 9.99 1 5) (some "u1")
      (.ok Scenario.req)).2.orders.map (fun o => o.Subtotal) = [9.99] := by decide!
  rw [ho] at hsub
  have hs : (newOrder Scenario.env u r
      { toCart := c, Items := preloadItems (Scenario.store 9.99 1 5) c.ID }).Subtotal = 9.99 := by
    simpa [Scenario.store] using hsub
  have htax : (newOrder Scenario.env u r
      { toCart := c, Items := preloadItems (Scenario.store 9.99 1 5) c.ID }).Tax =
      (newOrder Scenario.env u r
      { toCart := c, Items := preloadItems (Scenario.store 9.99 1 5) c.ID }).Subtotal * 0.08 := by
    simp [newOrder, Order.BeforeCreate, orderTax]
  have hr : round2 ((9.99 : ℚ) * 0.08) = 0.80 := by
    unfold round2
    norm_num [round_eq]
  refine ⟨_, by simpa [Scenario.store] using ho, hs, ?_, ?_, ?_⟩
  · rw [htax, hs]; norm_num
  · rw [hs, hr]
  · rw [htax, hs, hr]; norm_num

/-- C2 (amended): the tax a successful CreateOrder stores is the product subtotal * 0.08
of line 105, taken as it is: no rounding to two decimal places is applied to it. -/
theorem createOrder_tax (env : Env) (db : DB) (userID : Option String)
    (req : Except String CreateOrderRequest)
    (h : (CreateOrder env db userID req).1.status = 201) :
    ∃ o, (CreateOrder env db userID req).2.orders = db.orders ++ [o] ∧
      o.Tax = orderTax o.Subtotal ∧ o.Tax = o.Subtotal * 0.08 := by
  obtain ⟨u, r, c, _, _, ho⟩ := CreateOrder_stored env db userID req h
  have htax : (newOrder env u r { toCart := c, Items := preloadItems db c.ID }).Tax =
      (newOrder env u r { toCart := c, Items := preloadItems db c.ID }).Subtotal * 0.08 := by
    simp [newOrder, Order.BeforeCreate, orderTax]
  exact ⟨_, ho, htax, htax⟩

theorem createOrder_tax_witness :
    ((CreateOrder Scenario.env (Scenario.store 10 2 5) (some "u1") (.ok Scenario.req)).1.status = 201 ∧
    ∃ o, (CreateOrder Scenario.env (Scenario.store 10 2 5) (some "u1") (.ok Scenario.req)).2.orders
        = (Scenario.store 10 2 5).orders ++ [o] ∧
      o.Tax = orderTax o.Subtotal ∧ o.Tax = o.Subtotal * 0.08) ∧
    (CreateOrder Scenario.env (Scenario.store 10 2 5) (some "u1") (.ok Scenario.req)).2.orders.map
      (fun o => (o.Subtotal, o.Tax)) = [(20, 1.6)] ∧
    (CreateOrder Scenario.env (Scenario.store 9.99 1 5) (some "u1") (.ok Scenario.req)).2.orders.map
      (fun o => (o.Subtotal, o.Tax)) = [(9.99, 0.7992)] :=
  ⟨⟨by decide, createOrder_tax _ _ _ _ (by decide)⟩, by decide!, by decide!⟩

/-- C3: the shipping fee a successful CreateOrder stores is 9.99 when the subtotal is below
100 and 0 when the subtotal is 100 or more; the total is subtotal + subtotal * 0.08 + shipping. -/
theorem createOrder_shipping (env : Env) (db : DB) (userID : Option String)
    (req : Except String CreateOrderRequest)
    (h : (CreateOrder env db userID req).1.status = 201) :
    ∃ o, (CreateOrder env db userID req).2.orders = db.orders ++ [o] ∧
      (o.Subtotal < 100 → o.Shipping = 9.99) ∧
      (100 ≤ o.Subtotal → o.Shipping = 0) ∧
      o.Total = o.Subtotal + o.Subtotal * 0.08 + o.Shipping := by
  obtain ⟨u, r, c, _, _, _, _, _, _, _, hdb⟩ := CreateOrder_inv env db userID req h
  refine ⟨newOrder env u r { toCart := c, Items := preloadItems db c.ID }, ?_, ?_, ?_, ?_⟩
  · rw [hdb, committed_orders]
  · intro hlt
    simp only [newOrder, Order.BeforeCreate] at hlt ⊢
    simp only [if_true] at hlt ⊢
    simp [orderShipping, hlt]
  · intro hge
    simp only [newOrder, Order.BeforeCreate] at hge ⊢
    simp only [if_true] at hge ⊢
    simp only [orderShipping, not_lt.mpr hge, if_false]
    norm_num
  · simp [newOrder, Order.BeforeCreate, orderTax]

theorem createOrder_shipping_witness :
    ((CreateOrder Scenario.env (Scenario.store 150 1 5) (some "u1") (.ok Scenario.req)).1.status = 201 ∧
     ∃ o, (CreateOrder Scenario.env (Scenario.store 150 1 5) (some "u1") (.ok Scenario.req)).2.orders
        = (Scenario.store 150 1 5).orders ++ [o] ∧
      (o.Subtotal < 100 → o.Shipping = 9.99) ∧
      (100 ≤ o.Subtotal → o.Shipping = 0) ∧
      o.Total = o.Subtotal + o.Subtotal * 0.08 + o.Shipping) ∧
    (CreateOrder Scenario.env (Scenario.store 150 1 5) (some "u1") (.ok Scenario.req)).2.orders.map
      (fun o => (o.Subtotal, o.Shipping, o.Total)) = [(150, 0, 162)] ∧
    (CreateOrder Scenario.env (Scenario.store 100 1 5) (some "u1") (.ok Scenario.req)).2.orders.map
      (fun o => (o.Subtotal, o.Shipping, o.Total)) = [(100, 0, 108)] ∧
    (CreateOrder Scenario.env (Scenario.store 99.99 1 5) (some "u1") (.ok Scenario.req)).2.orders.map
      (fun o => (o.Subtotal, o.Shipping)) = [(99.99, 9.99)] :=
  ⟨⟨by decide, createOrder_shipping _ _ _ _ (by decide)⟩, by decide!, by decide!, by decide!⟩

/-- C4 (code defect): when CreateOrder succeeds, the store holds one more order, pending with
payment pending; every product's stock is lowered by the quantity the cart lines request of
it (by exactly the line's quantity when no two lines share a product, and not at all for a
product of no line); the cart row has TotalAmount 0 and TotalItems 0.  The cart is not
emptied: the cart value saved after the deletion of its lines still carries the preloaded
lines, and the save writes them back, so that with unique cart item keys the cart item table
holds the other carts' rows followed by the very lines the cart had. -/
theorem createOrder_effects (env : Env) (db : DB) (userID : Option String)
    (req : Except String CreateOrderRequest)
    (h : (CreateOrder env db userID req).1.status = 201) :
    ∃ u c o, userID = some u ∧ db.carts.find? (fun c => c.UserID = some u) = some c ∧
      (CreateOrder env db userID req).2.orders = db.orders ++ [o] ∧
      o.UserID = u ∧ o.Status = OrderStatusPending ∧ o.PaymentStatus = PaymentStatusPending ∧
      (∀ pid, stockOf (CreateOrder env db userID req).2 pid =
        (stockOf db pid).map (fun s => s - lineQuantity (preloadItems db c.ID) pid)) ∧
      (((preloadItems db c.ID).map (fun it => it.ProductID)).Nodup →
        ∀ it ∈ preloadItems db c.ID, ∃ s, stockOf db it.ProductID = some s ∧
          stockOf (CreateOrder env db userID req).2 it.ProductID = some (s - it.Quantity)) ∧
      (∀ pid, (∀ it ∈ preloadItems db c.ID, it.ProductID ≠ pid) →
        stockOf (CreateOrder env db userID req).2 pid = stockOf db pid) ∧
      ((db.cartItems.map (fun it => it.ID)).Nodup →
        (CreateOrder env db userID req).2.cartItems =
          db.cartItems.filter (fun it => ¬ it.CartID = c.ID) ++ cartLines db c.ID) ∧
      (∃ c1 ∈ (CreateOrder env db userID req).2.carts, c1.ID = c.ID) ∧
      (∀ c1 ∈ (CreateOrder env db userID req).2.carts, c1.ID = c.ID →
        c1.TotalAmount = 0 ∧ c1.TotalItems = 0) := by
  obtain ⟨u, r, c, hu, _, _, hc, _, hstock, _, hdb⟩ := CreateOrder_inv env db userID req h
  have hmem : c ∈ db.carts := List.mem_of_find?_eq_some hc
  have hids : ∀ it ∈ preloadItems db c.ID, it.Product.ID = it.ProductID :=
    fun it hit => (preloadItems_product db c.ID it hit (hstock it hit)).1
  have hstk : ∀ pid, stockOf (CreateOrder env db userID req).2 pid =
      (stockOf db pid).map (fun s => s - lineQuantity (preloadItems db c.ID) pid) := by
    intro pid
    rw [hdb, stockOf_committed, requested_eq_lineQuantity _ _ hids]
  refine ⟨u, c, newOrder env u r { toCart := c, Items := preloadItems db c.ID }, hu, hc, ?_,
    (newOrder_fields _ _ _ _).2.1, (newOrder_fields _ _ _ _).2.2.1,
    (newOrder_fields _ _ _ _).2.2.2.1, hstk, ?_, ?_, ?_, ?_, ?_⟩
  · rw [hdb, committed_orders]
  · intro hnd it hit
    have hfound := (preloadItems_product db c.ID it hit (hstock it hit)).2.1
    refine ⟨it.Product.StockQuantity, by simp [stockOf, hfound], ?_⟩
    rw [hstk, lineQuantity_of_nodup _ hnd it hit]
    simp [stockOf, hfound]
  · intro pid hpid
    rw [hstk, lineQuantity_of_not_mem _ _ hpid]
    cases stockOf db pid <;> simp
  · intro hnd
    rw [hdb, committed_cartItems_of_nodup _ _ _ _ _ hnd]
  · rw [hdb, committed_carts _ _ _ _ _ hmem]
    exact ⟨_, List.mem_map.mpr ⟨c, hmem, rfl⟩, by simp⟩
  · intro c1 hc1 hid
    rw [hdb, committed_carts _ _ _ _ _ hmem] at hc1
    obtain ⟨c0, _, rfl⟩ := List.mem_map.mp hc1
    by_cases h0 : c0.ID = c.ID
    · simp [h0]
    · simp only [h0, if_false] at hid

theorem createOrder_effects_witness :
    ((CreateOrder Scenario.env (Scenario.store 10 2 5) (some "u1") (.ok Scenario.req)).1.status = 201 ∧
     ∃ u c o, some "u1" = some u ∧
      (Scenario.store 10 2 5).carts.find? (fun c => c.UserID = some u) = some c ∧
      (CreateOrder Scenario.env (Scenario.store 10 2 5) (some "u1") (.ok Scenario.req)).2.orders
        = (Scenario.store 10 2 5).orders ++ [o] ∧
      o.UserID = u ∧ o.Status = OrderStatusPending ∧ o.PaymentStatus = PaymentStatusPending ∧
      (∀ pid, stockOf (CreateOrder Scenario.env (Scenario.store 10 2 5) (some "u1")
          (.ok Scenario.req)).2 pid =
        (stockOf (Scenario.store 10 2 5) pid).map
          (fun s => s - lineQuantity (preloadItems (Scenario.store 10 2 5) c.ID) pid)) ∧
      (((preloadItems (Scenario.store 10 2 5) c.ID).map (fun it => it.ProductID)).Nodup →
        ∀ it ∈ preloadItems (Scenario.store 10 2 5) c.ID, ∃ s,
          stockOf (Scenario.store 10 2 5) it.ProductID = some s ∧
          stockOf (CreateOrder Scenario.env (Scenario.store 10 2 5) (some "u1")
            (.ok Scenario.req)).2 it.ProductID = some (s - it.Quantity)) ∧
      (∀ pid, (∀ it ∈ preloadItems (Scenario.store 10 2 5) c.ID, it.ProductID ≠ pid) →
        stockOf (CreateOrder Scenario.env (Scenario.store 10 2 5) (some "u1")
          (.ok Scenario.req)).2 pid = stockOf (Scenario.store 10 2 5) pid) ∧
      (((Scenario.store 10 2 5).cartItems.map (fun it => it.ID)).Nodup →
        (CreateOrder Scenario.env (Scenario.store 10 2 5) (some "u1")
          (.ok Scenario.req)).2.cartItems =
          (Scenario.store 10 2 5).cartItems.filter (fun it => ¬ it.CartID = c.ID) ++
            cartLines (Scenario.store 10 2 5) c.ID) ∧
      (∃ c1 ∈ (CreateOrder Scenario.env (Scenario.store 10 2 5) (some "u1")
          (.ok Scenario.req)).2.carts, c1.ID = c.ID) ∧
      (∀ c1 ∈ (CreateOrder Scenario.env (Scenario.store 10 2 5) (some "u1")
          (.ok Scenario.req)).2.carts, c1.ID = c.ID → c1.TotalAmount = 0 ∧ c1.TotalItems = 0)) ∧
    (CreateOrder Scenario.env (Scenario.store 10 2 5) (some "u1") (.ok Scenario.req)).2.orders.map
      (fun o => (o.Subtotal, o.Tax, o.Shipping, o.Total)) = [(20, 1.60, 9.99, 31.59)] ∧
    stockOf (Scenario.store 10 2 5) "p1" = some 5 ∧
    stockOf (CreateOrder Scenario.env (Scenario.store 10 2 5) (some "u1") (.ok Scenario.req)).2 "p1"
      = some 3 ∧
    (CreateOrder Scenario.env (Scenario.store 10 2 5) (some "u1") (.ok Scenario.req)).2.cartItems
      = (Scenario.store 10 2 5).cartItems ∧
    ((CreateOrder Scenario.env (Scenario.store 10 2 5) (some "u1") (.ok Scenario.req)).2.cartItems.map
      (fun it => (it.CartID, it.ProductID, it.Quantity))) = [("c1", "p1", 2)] ∧
    (CreateOrder Scenario.env (Scenario.store 10 2 5) (some "u1") (.ok Scenario.req)).2.carts
      = [{ ID := "c1", UserID := some "u1", TotalAmount := 0, TotalItems := 0 }] ∧
    (ClearCart Scenario.cartEnv (Scenario.store 10 2 5) (some "u1")).1.status = 200 ∧
    (ClearCart Scenario.cartEnv (Scenario.store 10 2 5) (some "u1")).2.cartItems = [] :=
  ⟨⟨by decide, createOrder_effects _ _ _ _ (by decide)⟩, by decide!, by decide, by decide,
    by decide!, by decide!, by decide!, by decide, by decide⟩

/-- C5: when a store call inside the transaction of CreateOrder fails (order insert, an
order-item insert, a stock decrement, the cart-item deletion, the cart-totals reset or the
commit), the handler answers 500 and the persisted state is the state before the call. -/
theorem createOrder_atomic (env : Env) (db : DB) (userID : Option String)
    (req : Except String CreateOrderRequest) (u : String) (r : CreateOrderRequest)
    (cart : LoadedCart) (step : TxStep)
    (hprep : prepareOrder env db userID req = .ok (u, r, cart))
    (hrun : step.inRun cart.Items.length)
    (hfail : env.failsAt step = true) :
    (CreateOrder env db userID req).1.status = 500 ∧
    (CreateOrder env db userID req).1.error = "Database error" ∧
    (CreateOrder env db userID req).2 = db := by
  have hco : CreateOrder env db userID req = createOrderTx env db u r cart := by
    simp only [CreateOrder, hprep]
  rw [hco]
  rcases createOrderTx_cases env db u r cart with h | h
  · exfalso
    obtain ⟨h1, h2, h3, h4, h5⟩ := h.1
    cases step with
    | orderInsert => simp [Env.failsAt, h1] at hfail
    | orderItemInsert i => simp [Env.failsAt, (h2 i hrun).1] at hfail
    | stockDecrement i => simp [Env.failsAt, (h2 i hrun).2] at hfail
    | cartItemsDelete => simp [Env.failsAt, h3] at hfail
    | cartTotalsReset => simp [Env.failsAt, h4] at hfail
    | commit => simp [Env.failsAt, h5] at hfail
  · exact h.2

theorem createOrder_atomic_witness :
    (CreateOrder (Scenario.envFailing .cartItemsDelete) (Scenario.store 10 2 5) (some "u1")
        (.ok Scenario.req)).1.status = 500 ∧
    (CreateOrder (Scenario.envFailing .cartItemsDelete) (Scenario.store 10 2 5) (some "u1")
        (.ok Scenario.req)).1.error = "Database error" ∧
    (CreateOrder (Scenario.envFailing .cartItemsDelete) (Scenario.store 10 2 5) (some "u1")
        (.ok Scenario.req)).2 = Scenario.store 10 2 5 :=
  createOrder_atomic (Scenario.envFailing .cartItemsDelete) (Scenario.store 10 2 5) (some "u1")
    (.ok Scenario.req) "u1" Scenario.req
    { toCart := { ID := "c1", UserID := some "u1", TotalAmount := 10 * (2 : ℚ), TotalItems := 2 },
      Items := preloadItems (Scenario.store 10 2 5) "c1" }
    .cartItemsDelete rfl (by simp [TxStep.inRun]) rfl

/-- C6 (as stated) fails: the decrement of a line of quantity 2 on a stored stock of 1 is
not rejected and stores -1; and CreateOrder on a cart with two lines of quantity 1 for a
product with stock 1 answers 201 and leaves the stock at -1. -/
theorem stock_decrement_not_conditional :
    (∃ db1, createOrderItems Scenario.env "o1"
        [{ ID := "ci1", CartID := "c1", ProductID := "p1", Quantity := 2, Price := 10,
           Product := { ID := "p1", Name := "Resin", Price := 10, InStock := true,
                        StockQuantity := 5 } }]
        0 (Scenario.store 10 2 1) = .ok db1 ∧
      stockOf (Scenario.store 10 2 1) "p1" = some 1 ∧ stockOf db1 "p1" = some (-1)) ∧
    (CreateOrder Scenario.env (Scenario.doubled 1 1) (some "u1") (.ok Scenario.req)).1.status = 201 ∧
    stockOf (Scenario.doubled 1 1) "p1" = some 1 ∧
    stockOf (CreateOrder Scenario.env (Scenario.doubled 1 1) (some "u1") (.ok Scenario.req)).2 "p1"
      = some (-1) :=
  ⟨⟨_, rfl, by decide, by decide⟩, by decide, by decide, by decide⟩

/-- C7 (code defect): with stock 1 and two carts each asking for 1, the schedule in which
both handlers validate before either transaction runs makes both requests answer 201 and
leaves the stock at -1; served one after the other, the second request is rejected. -/
theorem createOrder_interleaved_oversells :
    stockOf (Scenario.contended 1 1 1) "p1" = some 1 ∧
    (CreateOrderInterleaved Scenario.env Scenario.env2 (Scenario.contended 1 1 1)
      (some "u1") (.ok Scenario.req) (some "u2") (.ok Scenario.req)).1.status = 201 ∧
    (CreateOrderInterleaved Scenario.env Scenario.env2 (Scenario.contended 1 1 1)
      (some "u1") (.ok Scenario.req) (some "u2") (.ok Scenario.req)).2.1.status = 201 ∧
    stockOf (CreateOrderInterleaved Scenario.env Scenario.env2 (Scenario.contended 1 1 1)
      (some "u1") (.ok Scenario.req) (some "u2") (.ok Scenario.req)).2.2 "p1" = some (-1) ∧
    (CreateOrder Scenario.env2
      (CreateOrder Scenario.env (Scenario.contended 1 1 1) (some "u1") (.ok Scenario.req)).2
      (some "u2") (.ok Scenario.req)).1.status = 400 :=
  ⟨by decide, by decide, by decide, by decide, by decide⟩

/-- C6 (amended): the stock decrement of CreateOrder is guarded by a check made before the
transaction, on the product rows loaded with the cart.  A cart with a line whose loaded
product is not in stock or has less stock than the line's quantity gets 400 Insufficient
stock and nothing is written.  When CreateOrder succeeds on a cart without two lines for
one product, every line found at least its quantity in stock, and the stock of its product
is lowered by exactly that quantity and stays non-negative. -/
theorem stock_checked_before_write (env : Env) (db : DB) :
    (∀ (u : String) (r : CreateOrderRequest) (c : Cart),
      env.fetchCartFails = false →
      db.carts.find? (fun c => c.UserID = some u) = some c →
      (∃ it ∈ preloadItems db c.ID, short it) →
      (CreateOrder env db (some u) (.ok r)).1.status = 400 ∧
      (CreateOrder env db (some u) (.ok r)).1.error = "Insufficient stock" ∧
      (CreateOrder env db (some u) (.ok r)).2 = db) ∧
    (∀ (u : String) (r : CreateOrderRequest) (c : Cart),
      db.carts.find? (fun c => c.UserID = some u) = some c →
      (CreateOrder env db (some u) (.ok r)).1.status = 201 →
      ((preloadItems db c.ID).map (fun it => it.ProductID)).Nodup →
      ∀ it ∈ preloadItems db c.ID, ∃ s, stockOf db it.ProductID = some s ∧
        it.Quantity ≤ s ∧ 0 ≤ s - it.Quantity ∧
        stockOf (CreateOrder env db (some u) (.ok r)).2 it.ProductID = some (s - it.Quantity)) := by
  constructor
  · intro u r c hf hc ⟨it, hit, hshort⟩
    rw [CreateOrder_found env db u r c hf hc]
    have h0 : ¬ (preloadItems db c.ID).length = 0 := by
      intro h
      rw [List.length_eq_zero] at h
      rw [h] at hit
      cases hit
    simp only [h0, if_false]
    cases hv : validateStock (preloadItems db c.ID) with
    | none => exact absurd hshort ((validateStock_none _).mp hv it hit)
    | some resp =>
      obtain ⟨_, x, _, _, _, _, hr⟩ := (validateStock_some _ _).mp hv
      simp [hr, stockError, Response.fail]
  · intro u r c hc hok hnd it hit
    obtain ⟨u1, r1, c1, hu, hr, _, hc1, _, hstock, _, hdb⟩ :=
      CreateOrder_inv env db (some u) (.ok r) hok
    cases hu
    cases hr
    rw [hc] at hc1
    cases hc1
    have hns := hstock it hit
    obtain ⟨hid, hfound, _⟩ := preloadItems_product db c.ID it hit hns
    have hids : ∀ x ∈ preloadItems db c.ID, x.Product.ID = x.ProductID :=
      fun x hx => (preloadItems_product db c.ID x hx (hstock x hx)).1
    have hle : it.Quantity ≤ it.Product.StockQuantity := by
      simp only [short, not_or, not_lt] at hns
      exact hns.2
    refine ⟨it.Product.StockQuantity, by simp [stockOf, hfound], hle, by omega, ?_⟩
    rw [hdb, stockOf_committed, requested_eq_lineQuantity _ _ hids,
      lineQuantity_of_nodup _ hnd it hit]
    simp [stockOf, hfound]

theorem stock_checked_before_write_witness :
    ((CreateOrder Scenario.env (Scenario.store 10 2 1) (some "u1") (.ok Scenario.req)).1.status = 400 ∧
     (CreateOrder Scenario.env (Scenario.store 10 2 1) (some "u1") (.ok Scenario.req)).1.error
        = "Insufficient stock" ∧
     (CreateOrder Scenario.env (Scenario.store 10 2 1) (some "u1") (.ok Scenario.req)).2
        = Scenario.store 10 2 1) ∧
    (∀ it ∈ preloadItems (Scenario.store 10 2 5) "c1", ∃ s,
        stockOf (Scenario.store 10 2 5) it.ProductID = some s ∧
        it.Quantity ≤ s ∧ 0 ≤ s - it.Quantity ∧
        stockOf (CreateOrder Scenario.env (Scenario.store 10 2 5) (some "u1")
          (.ok Scenario.req)).2 it.ProductID = some (s - it.Quantity)) :=
  ⟨(stock_checked_before_write Scenario.env (Scenario.store 10 2 1)).1 "u1" Scenario.req
      { ID := "c1", UserID := some "u1", TotalAmount := 10 * (2 : ℚ), TotalItems := 2 } rfl rfl
      ⟨{ ID := "ci1", CartID := "c1", ProductID := "p1", Quantity := 2, Price := 10,
         Product := { ID := "p1", Name := "Resin", Price := 10, InStock := true,
                      StockQuantity := 1 } }, by decide, by decide⟩,
   (stock_checked_before_write Scenario.env (Scenario.store 10 2 5)).2 "u1" Scenario.req
      { ID := "c1", UserID := some "u1", TotalAmount := 10 * (2 : ℚ), TotalItems := 2 } rfl
      (by decide) (by decide)⟩

theorem createOrderTx_error (env : Env) (db : DB) (u : String) (r : CreateOrderRequest)
    (cart : LoadedCart) :
    (createOrderTx env db u r cart).1.error = "" ∨
    (createOrderTx env db u r cart).1.error = "Database error" := by
  unfold createOrderTx
  cases env.createOrderFails with
  | true => right; rfl
  | false =>
    simp only [Bool.false_eq_true, if_false]
    generalize createOrderItems env _ cart.Items 0 _ = res
    cases res with
    | error msg => right; rfl
    | ok cur =>
      cases env.deleteCartItemsFails with
      | true => right; rfl
      | false =>
        cases env.saveCartFails with
        | true => right; rfl
        | false =>
          cases env.commitFails with
          | true => right; rfl
          | false => left; rfl

/-- C8: for an authenticated request on an existing cart, CreateOrder answers 400
"Insufficient stock" exactly when the cart is non-empty and some line's product is not
marked in stock or has less stock than the line's quantity; the response is then the one
naming the product of the first such line, and the store is unchanged. -/
theorem createOrder_insufficient_stock (env : Env) (db : DB) (u : String)
    (r : CreateOrderRequest) (c : Cart)
    (hf : env.fetchCartFails = false)
    (hc : db.carts.find? (fun c => c.UserID = some u) = some c) :
    (((CreateOrder env db (some u) (.ok r)).1.status = 400 ∧
        (CreateOrder env db (some u) (.ok r)).1.error = "Insufficient stock") ↔
      (preloadItems db c.ID ≠ [] ∧
        ∃ it ∈ preloadItems db c.ID,
          it.Product.InStock = false ∨ it.Product.StockQuantity < it.Quantity)) ∧
    ((CreateOrder env db (some u) (.ok r)).1.error = "Insufficient stock" →
      (∃ pre it post, preloadItems db c.ID = pre ++ it :: post ∧
        (∀ x ∈ pre, ¬ (x.Product.InStock = false ∨ x.Product.StockQuantity < x.Quantity)) ∧
        (it.Product.InStock = false ∨ it.Product.StockQuantity < it.Quantity) ∧
        (CreateOrder env db (some u) (.ok r)).1.message =
          "Product " ++ it.Product.Name ++ " is out of stock or insufficient quantity available") ∧
      (CreateOrder env db (some u) (.ok r)).2 = db) := by
  rw [CreateOrder_found env db u r c hf hc]
  by_cases h0 : (preloadItems db c.ID).length = 0
  · have hnil : preloadItems db c.ID = [] := List.length_eq_zero.mp h0
    simp only [h0, if_true]
    simp [hnil, Response.fail]
  · have hne : preloadItems db c.ID ≠ [] := fun h => h0 (List.length_eq_zero.mpr h)
    simp only [h0, if_false]
    cases hv : validateStock (preloadItems db c.ID) with
    | some resp =>
      obtain ⟨pre, it, post, hsplit, hpre, hshort, hr⟩ := (validateStock_some _ _).mp hv
      have hmem : it ∈ preloadItems db c.ID := by
        rw [hsplit]; simp
      refine ⟨?_, ?_⟩
      · constructor
        · intro _
          exact ⟨hne, it, hmem, hshort⟩
        · intro _
          simp [hr, stockError, Response.fail]
      · intro _
        exact ⟨⟨pre, it, post, hsplit, hpre, hshort, by simp [hr, stockError, Response.fail]⟩, rfl⟩
    | none =>
      have hgood := (validateStock_none _).mp hv
      simp only
      rcases createOrderTx_cases env db u r
        { toCart := c, Items := preloadItems db c.ID } with hh | hh
      · refine ⟨?_, ?_⟩
        · constructor
          · intro h
            rw [hh.2.1] at h
            exact absurd h.1 (by decide)
          · rintro ⟨_, it, hit, hs⟩
            exact absurd hs (hgood it hit)
        · intro h
          rcases createOrderTx_error env db u r
            { toCart := c, Items := preloadItems db c.ID } with he | he
          · rw [he] at h; exact absurd h (by decide)
          · rw [he] at h; exact absurd h (by decide)
      · refine ⟨?_, ?_⟩
        · constructor
          · intro h
            rw [hh.2.1] at h
            exact absurd h.1 (by decide)
          · rintro ⟨_, it, hit, hs⟩
            exact absurd hs (hgood it hit)
        · intro h
          rw [hh.2.2.1] at h
          exact absurd h (by decide)

theorem createOrder_insufficient_stock_witness :
    ((((CreateOrder Scenario.env (Scenario.store 10 2 1) (some "u1") (.ok Scenario.req)).1.status = 400 ∧
        (CreateOrder Scenario.env (Scenario.store 10 2 1) (some "u1") (.ok Scenario.req)).1.error
          = "Insufficient stock") ↔
      (preloadItems (Scenario.store 10 2 1) "c1" ≠ [] ∧
        ∃ it ∈ preloadItems (Scenario.store 10 2 1) "c1",
          it.Product.InStock = false ∨ it.Product.StockQuantity < it.Quantity)) ∧
    ((CreateOrder Scenario.env (Scenario.store 10 2 1) (some "u1") (.ok Scenario.req)).1.error
        = "Insufficient stock" →
      (∃ pre it post, preloadItems (Scenario.store 10 2 1) "c1" = pre ++ it :: post ∧
        (∀ x ∈ pre, ¬ (x.Product.InStock = false ∨ x.Product.StockQuantity < x.Quantity)) ∧
        (it.Product.InStock = false ∨ it.Product.StockQuantity < it.Quantity) ∧
        (CreateOrder Scenario.env (Scenario.store 10 2 1) (some "u1") (.ok Scenario.req)).1.message =
          "Product " ++ it.Product.Name ++ " is out of stock or insufficient quantity available") ∧
      (CreateOrder Scenario.env (Scenario.store 10 2 1) (some "u1") (.ok Scenario.req)).2
        = Scenario.store 10 2 1)) ∧
    (CreateOrder Scenario.env (Scenario.store 10 2 1) (some "u1") (.ok Scenario.req)).1 =
      Response.fail 400 "Insufficient stock"
        "Product Resin is out of stock or insufficient quantity available" :=
  ⟨createOrder_insufficient_stock Scenario.env (Scenario.store 10 2 1) "u1" Scenario.req
      { ID := "c1", UserID := some "u1", TotalAmount := 10 * (2 : ℚ), TotalItems := 2 } rfl rfl,
    by decide⟩

/-- C9: for an authenticated request of a user whose cart exists and has no line,
CreateOrder answers 400 "Empty cart" and the store (orders, order items, stock, cart and
cart items) is unchanged. -/
theorem createOrder_empty_cart (env : Env) (db : DB) (u : String) (r : CreateOrderRequest)
    (c : Cart)
    (hf : env.fetchCartFails = false)
    (hc : db.carts.find? (fun c => c.UserID = some u) = some c)
    (hempty : db.cartItems.filter (fun it => it.CartID = c.ID) = []) :
    (CreateOrder env db (some u) (.ok r)).1 =
      Response.fail 400 "Empty cart" "Cannot create order from empty cart" ∧
    (CreateOrder env db (some u) (.ok r)).2 = db := by
  rw [CreateOrder_found env db u r c hf hc]
  have h0 : (preloadItems db c.ID).length = 0 := by
    simp [preloadItems, hempty]
  simp only [h0, if_true, and_self]

theorem createOrder_empty_cart_witness :
    (CreateOrder Scenario.env Scenario.emptyCart (some "u1") (.ok Scenario.req)).1 =
      Response.fail 400 "Empty cart" "Cannot create order from empty cart" ∧
    (CreateOrder Scenario.env Scenario.emptyCart (some "u1") (.ok Scenario.req)).2
      = Scenario.emptyCart :=
  createOrder_empty_cart Scenario.env Scenario.emptyCart "u1" Scenario.req
    { ID := "c1", UserID := some "u1", TotalAmount := 0, TotalItems := 0 } rfl rfl rfl

theorem CartInvariant.except {db : DB} (h : CartInvariant db) (cid : String) :
    CartInvariantExcept db cid :=
  { itemKeys := h.itemKeys
    owned := fun it hit => Or.inr (h.owned it hit)
    totals := fun c hc _ => h.totals c hc }

theorem wrapInt64_zero : wrapInt64 0 = 0 := by decide

theorem wrapInt64_add_left (a b : Int) : wrapInt64 (wrapInt64 a + b) = wrapInt64 (a + b) := by
  unfold wrapInt64
  omega

theorem foldl_totals_from (items : List CartItem) (a : ℚ) (n : Int) :
    items.foldl
      (fun acc item =>
        (acc.1 + item.Price * (item.Quantity : ℚ), wrapInt64 (acc.2 + item.Quantity)))
      (a, wrapInt64 n) = (a + linesAmount items, wrapInt64 (n + linesQuantity items)) := by
  induction items generalizing a n with
  | nil => simp [linesAmount, linesQuantity]
  | cons it rest ih =>
    simp only [List.foldl_cons, wrapInt64_add_left, ih]
    simp [linesAmount, linesQuantity, add_assoc]

theorem foldl_totals (items : List CartItem) :
    items.foldl
      (fun acc item =>
        (acc.1 + item.Price * (item.Quantity : ℚ), wrapInt64 (acc.2 + item.Quantity)))
      (0, 0) = (linesAmount items, wrapInt64 (linesQuantity items)) := by
  have h := foldl_totals_from items 0 0
  rw [wrapInt64_zero] at h
  simpa using h

theorem saveCart_carts (db : DB) (cart : Cart) :
    (∀ c ∈ (saveCart db cart).carts, (c.ID = cart.ID ∧ c = cart) ∨ (c.ID ≠ cart.ID ∧ c ∈ db.carts)) ∧
    cart ∈ (saveCart db cart).carts ∧
    (∀ c ∈ db.carts, ∃ c1 ∈ (saveCart db cart).carts, c1.ID = c.ID) ∧
    (saveCart db cart).cartItems = db.cartItems ∧
    (saveCart db cart).products = db.products ∧
    (saveCart db cart).orders = db.orders ∧
    (saveCart db cart).orderItems = db.orderItems := by
  unfold saveCart
  by_cases hany : db.carts.any (fun c => decide (c.ID = cart.ID)) = true
  · simp only [hany, if_true]
    obtain ⟨c0, hc0, hid0⟩ := List.any_eq_true.mp hany
    have hid0 : c0.ID = cart.ID := by simpa using hid0
    refine ⟨?_, ?_, ?_, trivial, trivial, trivial, trivial⟩
    · intro c hc
      obtain ⟨c1, hc1, rfl⟩ := List.mem_map.mp hc
      by_cases h : c1.ID = cart.ID
      · left; simp [h]
      · right; simp [h, hc1]
    · exact List.mem_map.mpr ⟨c0, hc0, by simp [hid0]⟩
    · intro c hc
      by_cases h : c.ID = cart.ID
      · exact ⟨cart, List.mem_map.mpr ⟨c, hc, by simp [h]⟩, h.symm⟩
      · exact ⟨c, List.mem_map.mpr ⟨c, hc, by simp [h]⟩, rfl⟩
  · have hnone : ∀ c ∈ db.carts, c.ID ≠ cart.ID := by
      intro c hc he
      exact hany (List.any_eq_true.mpr ⟨c, hc, by simpa using he⟩)
    simp only [hany, if_false]
    refine ⟨?_, by simp, ?_, by simp, by simp, by simp, by simp⟩
    · intro c hc
      rcases List.mem_append.mp hc with h | h
      · right; exact ⟨hnone c h, h⟩
      · left
        have : c = cart := by simpa using h
        simp [this]
    · intro c hc
      exact ⟨c, List.mem_append.mpr (Or.inl hc), rfl⟩

theorem cartLines_saveCart (db : DB) (cart : Cart) (cid : String) :
    cartLines (saveCart db cart) cid = cartLines db cid := by
  unfold cartLines
  rw [(saveCart_carts db cart).2.2.2.1]

/-- Recomputing the totals of the cart `cart.ID` restores the invariant. -/
theorem updateCartTotals_invariant (env : CartEnv) (db : DB) (cart : Cart)
    (hfind : env.findItemsFails = false) (hsave : env.saveCartFails = false)
    (h : CartInvariantExcept db cart.ID) :
    CartInvariant (updateCartTotals env db cart).2 := by
  simp only [updateCartTotals, hfind, hsave, Bool.false_eq_true, if_false, foldl_totals, zero_add]
  set cart1 : Cart := { cart with TotalAmount := linesAmount (db.cartItems.filter
      (fun it => decide (it.CartID = cart.ID))), TotalItems := wrapInt64 (linesQuantity
      (db.cartItems.filter (fun it => decide (it.CartID = cart.ID)))) } with hcart1
  have hid : cart1.ID = cart.ID := rfl
  obtain ⟨hcarts, hmem, hkeep, hitems, _, _, _⟩ := saveCart_carts db cart1
  refine ⟨?_, ?_, ?_⟩
  · rw [hitems]; exact h.itemKeys
  · intro it hit
    rw [hitems] at hit
    rcases h.owned it hit with hc | ⟨c, hc, hcid⟩
    · exact ⟨cart1, hmem, by rw [hid, hc]⟩
    · obtain ⟨c1, hc1, hc1id⟩ := hkeep c hc
      exact ⟨c1, hc1, by rw [hc1id, hcid]⟩
  · intro c hc
    unfold totalsAgree
    rw [cartLines_saveCart]
    rcases hcarts c hc with ⟨_, rfl⟩ | ⟨hne, hin⟩
    · exact ⟨rfl, rfl⟩
    · exact h.totals c hin (by rw [← hid]; exact hne)

theorem except_of_items (db db1 : DB) (cid : String) (h : CartInvariantExcept db cid)
    (hcarts : db1.carts = db.carts)
    (hkeys : (db1.cartItems.map (fun it => it.ID)).Nodup)
    (hmem : ∀ it ∈ db1.cartItems, it.CartID = cid ∨ it ∈ db.cartItems)
    (hlines : ∀ c, c ≠ cid → cartLines db1 c = cartLines db c) :
    CartInvariantExcept db1 cid := by
  refine ⟨hkeys, ?_, ?_⟩
  · intro it hit
    rcases hmem it hit with h1 | h1
    · exact Or.inl h1
    · rw [hcarts]; exact h.owned it h1
  · intro c hc hne
    rw [hcarts] at hc
    have := h.totals c hc hne
    unfold totalsAgree at this ⊢
    rw [hlines c.ID hne]
    exact this

theorem filter_map_other (l : List CartItem) (f : CartItem → CartItem) (cid c : String)
    (hc : c ≠ cid)
    (hf : ∀ it ∈ l, f it = it ∨ (it.CartID = cid ∧ (f it).CartID = cid)) :
    (l.map f).filter (fun it => decide (it.CartID = c)) =
      l.filter (fun it => decide (it.CartID = c)) := by
  induction l with
  | nil => rfl
  | cons x rest ih =>
    have ih1 := ih (fun it hit => hf it (List.mem_cons_of_mem _ hit))
    rcases hf x (List.mem_cons_self _ _) with hx | ⟨hx1, hx2⟩
    · simp only [List.map_cons, hx, List.filter_cons, ih1]
    · have h1 : ¬ x.CartID = c := fun e => hc (e.symm.trans hx1)
      have h2 : ¬ (f x).CartID = c := fun e => hc (e.symm.trans hx2)
      simp [List.filter_cons, h1, h2, ih1]

theorem filter_filter_other (l : List CartItem) (q : CartItem → Bool) (cid c : String)
    (hc : c ≠ cid) (hq : ∀ it ∈ l, q it = true ∨ it.CartID = cid) :
    (l.filter q).filter (fun it => decide (it.CartID = c)) =
      l.filter (fun it => decide (it.CartID = c)) := by
  induction l with
  | nil => rfl
  | cons x rest ih =>
    have ih1 := ih (fun it hit => hq it (List.mem_cons_of_mem _ hit))
    rcases hq x (List.mem_cons_self _ _) with hx | hx
    · simp [List.filter_cons, hx, ih1]
    · have h1 : ¬ x.CartID = c := fun e => hc (e.symm.trans hx)
      by_cases hqx : q x = true
      · simp [List.filter_cons, hqx, h1, ih1]
      · simp [List.filter_cons, hqx, h1, ih1]

theorem createCartItem_except (fails : Bool) (db : DB) (item : CartItem) (cid : String)
    (hcid : item.CartID = cid) (h : CartInvariantExcept db cid) :
    CartInvariantExcept (createCartItem fails db item) cid := by
  unfold createCartItem
  by_cases hc : (fails || db.cartItems.any (fun it => decide (it.ID = item.ID))) = true
  · simp only [hc, if_true]; exact h
  · have hnot : ∀ it ∈ db.cartItems, it.ID ≠ item.ID := by
      intro it hit he
      apply hc
      simp only [Bool.or_eq_true, List.any_eq_true, decide_eq_true_eq]
      exact Or.inr ⟨it, hit, he⟩
    simp only [hc, if_false]
    refine except_of_items db _ cid h ?_ ?_ ?_ ?_
    · rfl
    · show ((db.cartItems ++ [item]).map (fun it => it.ID)).Nodup
      simp only [List.map_append, List.map_cons, List.map_nil]
      refine List.Nodup.append h.itemKeys (List.nodup_singleton _) ?_
      intro k hk1 hk2
      obtain ⟨it, hit, rfl⟩ := List.mem_map.mp hk1
      have : it.ID = item.ID := by simpa using hk2
      exact hnot it hit this
    · intro it hit
      rcases List.mem_append.mp hit with h1 | h1
      · exact Or.inr h1
      · left
        have : it = item := by simpa using h1
        rw [this, hcid]
    · intro c hne
      have h1 : ¬ item.CartID = c := fun e => hne (e.symm.trans hcid)
      simp [cartLines, List.filter_append, List.filter_cons, h1]

theorem saveCartItem_except (db : DB) (e item : CartItem) (cid : String)
    (he : e ∈ db.cartItems) (hecid : e.CartID = cid) (hid : item.ID = e.ID)
    (hcid : item.CartID = cid) (h : CartInvariantExcept db cid) :
    CartInvariantExcept (saveCartItem db item) cid := by
  have hany : db.cartItems.any (fun it => decide (it.ID = item.ID)) = true :=
    List.any_eq_true.mpr ⟨e, he, by simp [hid]⟩
  have huniq : ∀ it ∈ db.cartItems, it.ID = item.ID → it = e := by
    intro it hit hi
    exact List.inj_on_of_nodup_map h.itemKeys hit he (hi.trans hid)
  simp only [saveCartItem, hany, if_true]
  refine except_of_items db _ cid h ?_ ?_ ?_ ?_
  · rfl
  · have : (db.cartItems.map (fun it => if it.ID = item.ID then item else it)).map
        (fun it => it.ID) = db.cartItems.map (fun it => it.ID) := by
      rw [List.map_map]
      apply List.map_congr_left
      intro it _
      by_cases hi : it.ID = item.ID <;> simp [hi]
    show ((db.cartItems.map (fun it => if it.ID = item.ID then item else it)).map
        (fun it => it.ID)).Nodup
    rw [this]; exact h.itemKeys
  · intro it hit
    obtain ⟨it0, hit0, rfl⟩ := List.mem_map.mp hit
    by_cases hi : it0.ID = item.ID
    · left; simp [hi, hcid]
    · right; simp [hi, hit0]
  · intro c hne
    unfold cartLines
    apply filter_map_other db.cartItems _ cid c hne
    intro it hit
    by_cases hi : it.ID = item.ID
    · right
      have := huniq it hit hi
      simp only [hi, if_true]
      exact ⟨by rw [this, hecid], hcid⟩
    · left; simp [hi]

theorem deleteCartItem_except (db : DB) (e : CartItem) (cid : String)
    (he : e ∈ db.cartItems) (hecid : e.CartID = cid) (h : CartInvariantExcept db cid) :
    CartInvariantExcept (deleteCartItem db e.ID) cid := by
  have huniq : ∀ it ∈ db.cartItems, it.ID = e.ID → it = e := by
    intro it hit hi
    exact List.inj_on_of_nodup_map h.itemKeys hit he hi
  unfold deleteCartItem
  refine except_of_items db _ cid h ?_ ?_ ?_ ?_
  · rfl
  · exact List.Nodup.sublist (List.Sublist.map _ (List.filter_sublist _)) h.itemKeys
  · intro it hit
    exact Or.inr (List.mem_filter.mp hit).1
  · intro c hne
    unfold cartLines
    apply filter_filter_other db.cartItems _ cid c hne
    intro it hit
    by_cases hi : it.ID = e.ID
    · right; rw [huniq it hit hi, hecid]
    · left; simp [hi]

theorem deleteCartItems_except (db : DB) (cid : String) (h : CartInvariantExcept db cid) :
    CartInvariantExcept (deleteCartItems db cid) cid := by
  unfold deleteCartItems
  refine except_of_items db _ cid h ?_ ?_ ?_ ?_
  · rfl
  · exact List.Nodup.sublist (List.Sublist.map _ (List.filter_sublist _)) h.itemKeys
  · intro it hit
    exact Or.inr (List.mem_filter.mp hit).1
  · intro c hne
    unfold cartLines
    apply filter_filter_other db.cartItems _ cid c hne
    intro it _
    by_cases hi : it.CartID = cid
    · right; exact hi
    · left; simp [hi]

theorem createCart_invariant (fails : Bool) (db : DB) (cart : Cart)
    (hzero : cart.TotalAmount = 0 ∧ cart.TotalItems = 0) (h : CartInvariant db) :
    CartInvariant (createCart fails db cart) := by
  unfold createCart
  by_cases hc : (fails || db.carts.any (fun c => decide (c.ID = cart.ID))) = true
  · simp only [hc, if_true]; exact h
  · have hnot : ∀ c ∈ db.carts, c.ID ≠ cart.ID := by
      intro c hcm he
      apply hc
      simp only [Bool.or_eq_true, List.any_eq_true, decide_eq_true_eq]
      exact Or.inr ⟨c, hcm, he⟩
    simp only [hc, if_false]
    refine ⟨h.itemKeys, ?_, ?_⟩
    · intro it hit
      obtain ⟨c, hcm, hcid⟩ := h.owned it hit
      exact ⟨c, List.mem_append.mpr (Or.inl hcm), hcid⟩
    · intro c hcm
      rcases List.mem_append.mp hcm with h1 | h1
      · exact h.totals c h1
      · have hce : c = cart := by simpa using h1
        subst hce
        have hnil : cartLines db c.ID = [] := by
          unfold cartLines
          simp only [List.filter_eq_nil_iff, decide_eq_true_eq]
          intro it hit hcid
          obtain ⟨c0, hc0, hc0id⟩ := h.owned it hit
          exact hnot c0 hc0 (hc0id.trans hcid)
        unfold totalsAgree
        show c.TotalAmount = linesAmount (cartLines db c.ID) ∧
          c.TotalItems = wrapInt64 (linesQuantity (cartLines db c.ID))
        rw [hnil, hzero.1, hzero.2]
        simp [linesAmount, linesQuantity, wrapInt64_zero]

theorem cartUpdated_invariant (env : CartEnv) (db : DB) (cart : Cart) (message : String)
    (hfind : env.findItemsFails = false) (hsave : env.saveCartFails = false)
    (h : CartInvariantExcept db cart.ID) :
    CartInvariant (cartUpdated env db cart message).2 :=
  updateCartTotals_invariant env db cart hfind hsave h

theorem find_cartItem (db : DB) (cid pid : String) (e : CartItem)
    (h : db.cartItems.find? (fun it => it.CartID = cid ∧ it.ProductID = pid) = some e) :
    e ∈ db.cartItems ∧ e.CartID = cid ∧ e.ProductID = pid := by
  have h1 := List.mem_of_find?_eq_some h
  have h2 := List.find?_some h
  simp only [decide_eq_true_eq] at h2
  exact ⟨h1, h2.1, h2.2⟩

theorem AddToCart_invariant (env : CartEnv) (db : DB) (userID : Option String)
    (req : Except String AddToCartRequest)
    (hfind : env.findItemsFails = false) (hsave : env.saveCartFails = false)
    (h : CartInvariant db) :
    CartInvariant (AddToCart env db userID req).2 := by
  unfold AddToCart
  cases userID with
  | none => exact h
  | some u =>
    cases req with
    | error e => exact h
    | ok r =>
      simp only
      split
      · exact h
      · split
        · exact h
        · rename_i product hprod
          split
          · exact h
          · split
            · exact h
            · cases hcart : db.carts.find? (fun c => decide (c.UserID = some u)) with
              | some cart =>
                simp only
                split
                · exact h
                · split
                  · rename_i existing hex
                    obtain ⟨hmem, hcid, _⟩ := find_cartItem db cart.ID r.ProductID existing hex
                    split
                    · exact h
                    · apply cartUpdated_invariant env _ cart _ hfind hsave
                      split
                      · exact h.except _
                      · exact saveCartItem_except db existing _ cart.ID hmem hcid rfl hcid
                          (h.except _)
                  · apply cartUpdated_invariant env _ cart _ hfind hsave
                    apply createCartItem_except _ _ _ _ _ (h.except _)
                    simp [CartItem.BeforeCreate]
              | none =>
                simp only
                have hzero : ∀ c0 : Cart, c0.TotalAmount = 0 ∧ c0.TotalItems = 0 →
                    (Cart.BeforeCreate env.cartUUID c0).TotalAmount = 0 ∧
                    (Cart.BeforeCreate env.cartUUID c0).TotalItems = 0 := by
                  intro c0 hc0
                  unfold Cart.BeforeCreate
                  split <;> exact hc0
                have h1 := createCart_invariant env.createCartFails db _
                  (hzero ⟨"", some u, 0, 0⟩ ⟨rfl, rfl⟩) h
                split
                · exact h1
                · split
                  · rename_i existing hex
                    obtain ⟨hmem, hcid, _⟩ := find_cartItem _ _ r.ProductID existing hex
                    split
                    · exact h1
                    · apply cartUpdated_invariant env _ _ _ hfind hsave
                      split
                      · exact h1.except _
                      · exact saveCartItem_except _ existing _ _ hmem hcid rfl hcid
                          (h1.except _)
                  · apply cartUpdated_invariant env _ _ _ hfind hsave
                    apply createCartItem_except _ _ _ _ _ (h1.except _)
                    simp [CartItem.BeforeCreate]

theorem findCartItem_ok (env : CartEnv) (db : DB) (u pid : String) (cart : Cart)
    (e : CartItem) (h : findCartItem env db u pid = .ok (cart, e)) :
    e ∈ db.cartItems ∧ e.CartID = cart.ID := by
  unfold findCartItem at h
  split at h
  · cases h
  · split at h
    · cases h
    · split at h
      · cases h
      · split at h
        · cases h
        · rename_i c _ _ _ e1 hex
          obtain ⟨hmem, hcid, _⟩ := find_cartItem db c.ID pid e1 hex
          simp only [Except.ok.injEq, Prod.mk.injEq] at h
          rw [← h.1, ← h.2]
          exact ⟨hmem, hcid⟩

theorem UpdateCart_invariant (env : CartEnv) (db : DB) (userID : Option String)
    (req : Except String UpdateCartRequest)
    (hfind : env.findItemsFails = false) (hsave : env.saveCartFails = false)
    (h : CartInvariant db) :
    CartInvariant (UpdateCart env db userID req).2 := by
  unfold UpdateCart
  cases userID with
  | none => exact h
  | some u =>
    cases req with
    | error e => exact h
    | ok r =>
      simp only
      cases hf : findCartItem env db u r.ProductID with
      | error resp => exact h
      | ok p =>
        obtain ⟨cart, item⟩ := p
        obtain ⟨hmem, hcid⟩ := findCartItem_ok env db u r.ProductID cart item hf
        simp only
        split
        · apply cartUpdated_invariant env _ cart _ hfind hsave
          split
          · exact h.except _
          · exact deleteCartItem_except db item cart.ID hmem hcid (h.except _)
        · split
          · exact h
          · split
            · exact h
            · split
              · exact h
              · apply cartUpdated_invariant env _ cart _ hfind hsave
                split
                · exact h.except _
                · exact saveCartItem_except db item _ cart.ID hmem hcid rfl hcid (h.except _)

theorem RemoveFromCart_invariant (env : CartEnv) (db : DB) (userID : Option String)
    (productID : String)
    (hfind : env.findItemsFails = false) (hsave : env.saveCartFails = false)
    (h : CartInvariant db) :
    CartInvariant (RemoveFromCart env db userID productID).2 := by
  unfold RemoveFromCart
  cases userID with
  | none => exact h
  | some u =>
    simp only
    cases hf : findCartItem env db u productID with
    | error resp => exact h
    | ok p =>
      obtain ⟨cart, item⟩ := p
      obtain ⟨hmem, hcid⟩ := findCartItem_ok env db u productID cart item hf
      simp only
      split
      · exact h
      · apply cartUpdated_invariant env _ cart _ hfind hsave
        exact deleteCartItem_except db item cart.ID hmem hcid (h.except _)

theorem saveCart_invariant (db : DB) (cart : Cart) (h : CartInvariantExcept db cart.ID)
    (hagree : totalsAgree db cart) : CartInvariant (saveCart db cart) := by
  obtain ⟨hcarts, hmem, hkeep, hitems, _, _, _⟩ := saveCart_carts db cart
  refine ⟨?_, ?_, ?_⟩
  · rw [hitems]; exact h.itemKeys
  · intro it hit
    rw [hitems] at hit
    rcases h.owned it hit with hc | ⟨c, hc, hcid⟩
    · exact ⟨cart, hmem, hc.symm⟩
    · obtain ⟨c1, hc1, hc1id⟩ := hkeep c hc
      exact ⟨c1, hc1, by rw [hc1id, hcid]⟩
  · intro c hc
    unfold totalsAgree
    rw [cartLines_saveCart]
    rcases hcarts c hc with ⟨_, rfl⟩ | ⟨hne, hin⟩
    · exact hagree
    · exact h.totals c hin hne

theorem ClearCart_invariant (env : CartEnv) (db : DB) (userID : Option String)
    (hsave : env.saveCartFails = false) (h : CartInvariant db) :
    CartInvariant (ClearCart env db userID).2 := by
  unfold ClearCart
  cases userID with
  | none => exact h
  | some u =>
    simp only
    split
    · exact h
    · split
      · exact h
      · rename_i cart _
        split
        · exact h
        · simp only [hsave, Bool.false_eq_true, if_false]
          apply saveCart_invariant
          · exact deleteCartItems_except db cart.ID (h.except _)
          · have hnil : cartLines (deleteCartItems db cart.ID) cart.ID = [] := by
              simp [cartLines, deleteCartItems, List.filter_filter]
            unfold totalsAgree
            show (0 : ℚ) = linesAmount (cartLines (deleteCartItems db cart.ID) cart.ID) ∧
              (0 : Int) = wrapInt64 (linesQuantity (cartLines (deleteCartItems db cart.ID) cart.ID))
            rw [hnil]
            simp [linesAmount, linesQuantity, wrapInt64_zero]

theorem CartReachable.invariant {db : DB} (h : CartReachable db) : CartInvariant db := by
  induction h with
  | init db hitems hcarts =>
    refine ⟨by simp [hitems], by simp [hitems], ?_⟩
    intro c hc
    have := hcarts c hc
    simp [totalsAgree, cartLines, hitems, linesAmount, linesQuantity, this.1, this.2,
      wrapInt64_zero]
  | step db env op _ hfind hsave ih =>
    cases op with
    | add userID req => exact AddToCart_invariant env db userID req hfind hsave ih
    | update userID req => exact UpdateCart_invariant env db userID req hfind hsave ih
    | remove userID productID => exact RemoveFromCart_invariant env db userID productID hfind hsave ih
    | clear userID => exact ClearCart_invariant env db userID hsave ih

/-- In the runs in which the totals write-back succeeds, every cart's cached TotalAmount is
the sum over its lines of price-at-add times quantity and its TotalItems the sum of the
quantities as an `int`; the subtotal an order created there stores is that sum of amounts. -/
theorem CartReachable.totals_written (db : DB) (h : CartReachable db) :
    (∀ c ∈ db.carts,
      c.TotalAmount = ((cartLines db c.ID).map (fun it => it.Price * (it.Quantity : ℚ))).sum ∧
      c.TotalItems = wrapInt64 ((cartLines db c.ID).map (fun it => it.Quantity)).sum) ∧
    (∀ env userID req, (CreateOrder env db userID req).1.status = 201 →
      ∃ u c o, userID = some u ∧ db.carts.find? (fun c => c.UserID = some u) = some c ∧
        (CreateOrder env db userID req).2.orders = db.orders ++ [o] ∧
        o.Subtotal = ((cartLines db c.ID).map (fun it => it.Price * (it.Quantity : ℚ))).sum) := by
  have hinv := h.invariant
  refine ⟨fun c hc => hinv.totals c hc, ?_⟩
  intro env userID req hok
  obtain ⟨u, r, c, hu, _, _, hc, _, _, _, hdb⟩ := CreateOrder_inv env db userID req hok
  refine ⟨u, c, newOrder env u r { toCart := c, Items := preloadItems db c.ID }, hu, hc, ?_, ?_⟩
  · rw [hdb, committed_orders]
  · rw [(newOrder_fields _ _ _ _).2.2.2.2.1]
    exact (hinv.totals c (List.mem_of_find?_eq_some hc)).1

/-- C10 (code defect): user u1 adds 2 units of p1 (price 10) to an empty cart in a run in
which the store rejects the `Save(cart)` of `updateCartTotals`, whose error is dropped.
AddToCart answers 200 and the line is stored, worth 20, while the cart row keeps TotalAmount 0
and TotalItems 0; the CreateOrder that follows answers 201 and stores subtotal 0 for order
items that total 20.  In the run in which that `Save` succeeds the totals are 20 and 2. -/
theorem cart_totals_stale :
    (AddToCart Scenario.cartEnvStale Scenario.catalog (some "u1")
      (.ok { ProductID := "p1", Quantity := 2 })).1.status = 200 ∧
    Scenario.stale = (AddToCart Scenario.cartEnvStale Scenario.catalog (some "u1")
      (.ok { ProductID := "p1", Quantity := 2 })).2 ∧
    Scenario.stale.cartItems =
      [{ ID := "line-91ab", CartID := "cart-6d2f", ProductID := "p1", Quantity := 2, Price := 10 }] ∧
    Scenario.stale.carts =
      [{ ID := "cart-6d2f", UserID := some "u1", TotalAmount := 0, TotalItems := 0 }] ∧
    linesAmount (cartLines Scenario.stale "cart-6d2f") = 20 ∧
    linesQuantity (cartLines Scenario.stale "cart-6d2f") = 2 ∧
    (CreateOrder Scenario.env Scenario.stale (some "u1") (.ok Scenario.req)).1.status = 201 ∧
    (CreateOrder Scenario.env Scenario.stale (some "u1") (.ok Scenario.req)).2.orders.map
      (fun o => o.Subtotal) = [0] ∧
    (CreateOrder Scenario.env Scenario.stale (some "u1") (.ok Scenario.req)).2.orderItems.map
      (fun oi => oi.Total) = [20] ∧
    (AddToCart Scenario.cartEnv Scenario.catalog (some "u1")
      (.ok { ProductID := "p1", Quantity := 2 })).2.carts =
      [{ ID := "cart-6d2f", UserID := some "u1", TotalAmount := 20, TotalItems := 2 }] :=
  ⟨by decide, rfl, by decide!, by decide!, by decide!, by decide!, by decide!, by decide!,
    by decide!, by decide!⟩

theorem itemsResult_orderItems (env : Env) (orderID : String) (items : List LoadedCartItem) :
    ∀ (i : Nat) (db : DB),
      (itemsResult env orderID items i db).orderItems =
        db.orderItems ++ orderItemsFrom env orderID items i := by
  induction items with
  | nil => intro i db; simp [itemsResult, orderItemsFrom]
  | cons it rest ih =>
    intro i db
    simp only [itemsResult, orderItemsFrom]
    rw [ih]
    simp [updateStockQuantity]

theorem committed_orderItems (env : Env) (db : DB) (u : String) (r : CreateOrderRequest)
    (cart : LoadedCart) :
    (committed env db u r cart).orderItems =
      db.orderItems ++ orderItemsFrom env (newOrder env u r cart).ID cart.Items 0 := by
  unfold committed
  rw [(saveLoadedCart_frame _ _).2.2.2]
  simp [deleteCartItems, itemsResult_orderItems]

theorem orderItemsFrom_fields (env : Env) (orderID : String) (items : List LoadedCartItem) :
    ∀ i : Nat,
      (orderItemsFrom env orderID items i).map
          (fun oi => (oi.OrderID, oi.ProductID, oi.Quantity, oi.Price, oi.Total)) =
        items.map (fun it => (orderID, it.ProductID, it.Quantity, it.Price,
          (it.Quantity : ℚ) * it.Price)) := by
  induction items with
  | nil => intro i; rfl
  | cons it rest ih =>
    intro i
    simp only [orderItemsFrom, List.map_cons, ih]
    congr 1

theorem orderItemsFrom_ids (env : Env) (orderID : String) (items : List LoadedCartItem) :
    ∀ i : Nat, ∀ oi ∈ orderItemsFrom env orderID items i, oi.OrderID = orderID := by
  intro i oi hoi
  have h := orderItemsFrom_fields env orderID items i
  have h1 : (oi.OrderID, oi.ProductID, oi.Quantity, oi.Price, oi.Total) ∈
      (orderItemsFrom env orderID items i).map
        (fun oi => (oi.OrderID, oi.ProductID, oi.Quantity, oi.Price, oi.Total)) :=
    List.mem_map.mpr ⟨oi, hoi, rfl⟩
  rw [h] at h1
  obtain ⟨it, _, hit⟩ := List.mem_map.mp h1
  simp only [Prod.mk.injEq] at hit
  exact hit.1.symm

/-- C11 (as stated) fails: in the store `Scenario.stale` the cart of user u1 has one line of
2 units at price 10 and a cached TotalAmount of 0.  CreateOrder answers 201 and creates the
one order item, of line total 20, while the order's subtotal is the cached 0: the line
totals do not sum to the subtotal. -/
theorem createOrder_items_exceed_subtotal :
    Scenario.stale.cartItems.map (fun it => (it.CartID, it.ProductID, it.Quantity, it.Price)) =
      [("cart-6d2f", "p1", 2, 10)] ∧
    Scenario.stale.carts.map (fun c => (c.ID, c.UserID, c.TotalAmount)) =
      [("cart-6d2f", some "u1", 0)] ∧
    (CreateOrder Scenario.env Scenario.stale (some "u1") (.ok Scenario.req)).1.status = 201 ∧
    (CreateOrder Scenario.env Scenario.stale (some "u1") (.ok Scenario.req)).2.orderItems.map
      (fun oi => (oi.OrderID, oi.ProductID, oi.Quantity, oi.Price, oi.Total)) =
      [("0b7e3c52-order", "p1", 2, 10, 20)] ∧
    (CreateOrder Scenario.env Scenario.stale (some "u1") (.ok Scenario.req)).2.orders.map
      (fun o => (o.ID, o.Subtotal)) = [("0b7e3c52-order", 0)] ∧
    ((CreateOrder Scenario.env Scenario.stale (some "u1") (.ok Scenario.req)).2.orderItems.map
      (fun oi => oi.Total)).sum ≠
    ((CreateOrder Scenario.env Scenario.stale (some "u1") (.ok Scenario.req)).2.orders.map
      (fun o => o.Subtotal)).sum :=
  ⟨by decide!, by decide!, by decide!, by decide!, by decide!, by decide!⟩

/-- C11 (amended): a successful CreateOrder appends one order item per cart line, in the
order of the lines, each with the new order's id, the line's productID and quantity, the
line's price as unit price and quantity times that price as line total; the line totals sum
to the sum over the lines of price times quantity; the order's subtotal is the cart's cached
TotalAmount, so that the line totals sum to the subtotal when that cached total agrees with
the cart's lines. -/
theorem createOrder_items (env : Env) (db : DB) (userID : Option String)
    (req : Except String CreateOrderRequest)
    (h : (CreateOrder env db userID req).1.status = 201) :
    ∃ u c o created, userID = some u ∧
      db.carts.find? (fun c => c.UserID = some u) = some c ∧
      (CreateOrder env db userID req).2.orders = db.orders ++ [o] ∧
      (CreateOrder env db userID req).2.orderItems = db.orderItems ++ created ∧
      created.length = (cartLines db c.ID).length ∧
      created.map (fun oi => (oi.OrderID, oi.ProductID, oi.Quantity, oi.Price, oi.Total)) =
        (cartLines db c.ID).map (fun it => (o.ID, it.ProductID, it.Quantity, it.Price,
          (it.Quantity : ℚ) * it.Price)) ∧
      (created.map (fun oi => oi.Total)).sum =
        ((cartLines db c.ID).map (fun it => it.Price * (it.Quantity : ℚ))).sum ∧
      o.Subtotal = c.TotalAmount ∧
      (c.TotalAmount = ((cartLines db c.ID).map (fun it => it.Price * (it.Quantity : ℚ))).sum →
        (created.map (fun oi => oi.Total)).sum = o.Subtotal) := by
  obtain ⟨u, r, c, hu, _, _, hc, _, _, _, hdb⟩ := CreateOrder_inv env db userID req h
  have hfields := orderItemsFrom_fields env
    (newOrder env u r { toCart := c, Items := preloadItems db c.ID }).ID (preloadItems db c.ID) 0
  have hrows := preloadItems_rows db c.ID
  have hfields2 : (orderItemsFrom env
      (newOrder env u r { toCart := c, Items := preloadItems db c.ID }).ID
      (preloadItems db c.ID) 0).map
        (fun oi => (oi.OrderID, oi.ProductID, oi.Quantity, oi.Price, oi.Total)) =
      (cartLines db c.ID).map (fun it =>
        ((newOrder env u r { toCart := c, Items := preloadItems db c.ID }).ID, it.ProductID,
          it.Quantity, it.Price, (it.Quantity : ℚ) * it.Price)) := by
    rw [hfields, ← hrows, List.map_map]
    rfl
  have hsum : ((orderItemsFrom env
      (newOrder env u r { toCart := c, Items := preloadItems db c.ID }).ID
      (preloadItems db c.ID) 0).map (fun oi => oi.Total)).sum =
      ((cartLines db c.ID).map (fun it => it.Price * (it.Quantity : ℚ))).sum := by
    have := congrArg (List.map (fun t : String × String × Int × ℚ × ℚ => t.2.2.2.2)) hfields2
    simp only [List.map_map] at this
    have e1 : ((fun t : String × String × Int × ℚ × ℚ => t.2.2.2.2) ∘
        fun oi : OrderItem => (oi.OrderID, oi.ProductID, oi.Quantity, oi.Price, oi.Total)) =
        fun oi => oi.Total := rfl
    rw [e1] at this
    rw [this]
    congr 1
    apply List.map_congr_left
    intro it _
    simp [mul_comm]
  refine ⟨u, c, newOrder env u r { toCart := c, Items := preloadItems db c.ID }, _, hu, hc,
    ?_, ?_, ?_, hfields2, hsum, (newOrder_fields _ _ _ _).2.2.2.2.1, ?_⟩
  · rw [hdb, committed_orders]
  · rw [hdb, committed_orderItems]
  · have := congrArg List.length hfields2
    simpa using this
  · intro hagree
    rw [hsum, (newOrder_fields _ _ _ _).2.2.2.2.1]
    exact hagree.symm

theorem createOrder_items_witness :
    ((CreateOrder Scenario.env Scenario.repriced (some "u1") (.ok Scenario.req)).1.status = 201 ∧
     ∃ u c o created, some "u1" = some u ∧
      Scenario.repriced.carts.find? (fun c => c.UserID = some u) = some c ∧
      (CreateOrder Scenario.env Scenario.repriced (some "u1") (.ok Scenario.req)).2.orders
        = Scenario.repriced.orders ++ [o] ∧
      (CreateOrder Scenario.env Scenario.repriced (some "u1") (.ok Scenario.req)).2.orderItems
        = Scenario.repriced.orderItems ++ created ∧
      created.length = (cartLines Scenario.repriced c.ID).length ∧
      created.map (fun oi => (oi.OrderID, oi.ProductID, oi.Quantity, oi.Price, oi.Total)) =
        (cartLines Scenario.repriced c.ID).map (fun it => (o.ID, it.ProductID, it.Quantity,
          it.Price, (it.Quantity : ℚ) * it.Price)) ∧
      (created.map (fun oi => oi.Total)).sum =
        ((cartLines Scenario.repriced c.ID).map (fun it => it.Price * (it.Quantity : ℚ))).sum ∧
      o.Subtotal = c.TotalAmount ∧
      (c.TotalAmount =
          ((cartLines Scenario.repriced c.ID).map (fun it => it.Price * (it.Quantity : ℚ))).sum →
        (created.map (fun oi => oi.Total)).sum = o.Subtotal)) ∧
    (CreateOrder Scenario.env Scenario.repriced (some "u1") (.ok Scenario.req)).2.orderItems =
      [{ ID := "item-0", OrderID := "0b7e3c52-order", ProductID := "p1", Quantity := 2,
         Price := 10, Total := 20 }] ∧
    (CreateOrder Scenario.env Scenario.repriced (some "u1") (.ok Scenario.req)).2.orders.map
      (fun o => (o.ID, o.Subtotal)) = [("0b7e3c52-order", 20)] :=
  ⟨⟨by decide, createOrder_items _ _ _ _ (by decide)⟩, by decide!, by decide!⟩

theorem restoreStock_eq (env : OrderEnv) (items : List LoadedOrderItem) :
    ∀ (i : Nat) (db db1 : DB),
      restoreStock env items i db = some db1 ↔
        (∀ k, k < items.length → env.restoreStockFails (i + k) = false) ∧
        db1 = restoreResult items db := by
  induction items with
  | nil =>
    intro i db db1
    simp only [restoreStock, restoreResult, List.length_nil, Nat.not_lt_zero, false_imp_iff,
      implies_true, true_and, Option.some.injEq]
    exact eq_comm
  | cons it rest ih =>
    intro i db db1
    simp only [restoreStock, restoreResult, List.length_cons]
    cases h1 : env.restoreStockFails i with
    | true =>
      simp only [if_true]
      constructor
      · intro h; cases h
      · intro h
        have := h.1 0 (Nat.succ_pos _)
        simp [h1] at this
    | false =>
      simp only [Bool.false_eq_true, if_false]
      rw [ih]
      constructor
      · rintro ⟨hk, hdb⟩
        refine ⟨?_, hdb⟩
        intro k hk1
        cases k with
        | zero => exact h1
        | succ k =>
          have := hk k (Nat.lt_of_succ_lt_succ hk1)
          simpa [Nat.add_assoc, Nat.add_comm 1 k] using this
      · rintro ⟨hk, hdb⟩
        refine ⟨?_, hdb⟩
        intro k hk1
        have := hk (k + 1) (Nat.succ_lt_succ hk1)
        simpa [Nat.add_assoc, Nat.add_comm 1 k] using this

theorem restoreResult_frame (items : List LoadedOrderItem) :
    ∀ db : DB,
      (restoreResult items db).carts = db.carts ∧
      (restoreResult items db).cartItems = db.cartItems ∧
      (restoreResult items db).orders = db.orders ∧
      (restoreResult items db).orderItems = db.orderItems := by
  induction items with
  | nil => intro db; simp [restoreResult]
  | cons it rest ih =>
    intro db
    simp only [restoreResult]
    have := ih (updateStockQuantity db it.Product.ID it.Quantity)
    simpa [updateStockQuantity] using this

theorem restoreResult_products (items : List LoadedOrderItem) :
    ∀ db : DB,
      (restoreResult items db).products =
        db.products.map (fun p =>
          { p with StockQuantity := p.StockQuantity + restored items p.ID }) := by
  induction items with
  | nil =>
    intro db
    simp [restoreResult, restored]
  | cons it rest ih =>
    intro db
    simp only [restoreResult]
    rw [ih]
    simp only [updateStockQuantity, List.map_map]
    apply List.map_congr_left
    intro p _
    by_cases h : p.ID = it.Product.ID
    · simp [restored, List.filter_cons, h]
      ring
    · have h' : ¬ it.Product.ID = p.ID := fun e => h e.symm
      simp [restored, List.filter_cons, h, h']

theorem saveOrder_frame (db : DB) (order : Order) :
    (saveOrder db order).products = db.products ∧
    (saveOrder db order).carts = db.carts ∧
    (saveOrder db order).cartItems = db.cartItems ∧
    (saveOrder db order).orderItems = db.orderItems := by
  unfold saveOrder
  split <;> simp

theorem saveOrder_orders (db : DB) (order : Order) (hmem : ∃ o ∈ db.orders, o.ID = order.ID) :
    (saveOrder db order).orders =
      db.orders.map (fun o => if o.ID = order.ID then order else o) := by
  have hany : db.orders.any (fun o => decide (o.ID = order.ID)) = true := by
    obtain ⟨o, ho, hid⟩ := hmem
    exact List.any_eq_true.mpr ⟨o, ho, by simpa using hid⟩
  simp only [saveOrder, hany, if_true]

theorem CancelOrder_found (env : OrderEnv) (db : DB) (u : String) (isAdmin : Bool)
    (orderID : String) (row : Order)
    (hf : env.fetchOrderFails = false)
    (hfind : db.orders.find? (fun o => (isAdmin ∨ o.UserID = u) ∧ o.ID = orderID) = some row) :
    (((row.Status = OrderStatusShipped ∨ row.Status = OrderStatusDelivered) →
        CancelOrder env db (some u) isAdmin orderID =
          (Response.fail 400 "Cannot cancel order"
            "Order has already been shipped or delivered", db)) ∧
     (row.Status = OrderStatusCancelled →
        CancelOrder env db (some u) isAdmin orderID =
          (Response.fail 400 "Order already cancelled"
            "This order has already been cancelled", db))) ∧
    (¬ (row.Status = OrderStatusShipped ∨ row.Status = OrderStatusDelivered) →
      ¬ row.Status = OrderStatusCancelled →
      (env.noFaults (preloadOrderItems db row.ID).length ∧
        CancelOrder env db (some u) isAdmin orderID =
          ({ status := 200, success := true, error := "",
             message := "Order cancelled successfully",
             data := some { row with Status := OrderStatusCancelled } }, cancelled db row)) ∨
      (¬ env.noFaults (preloadOrderItems db row.ID).length ∧
        (CancelOrder env db (some u) isAdmin orderID).1.status = 500 ∧
        (CancelOrder env db (some u) isAdmin orderID).2 = db)) := by
  have key := restoreStock_eq env (preloadOrderItems db row.ID) 0 db
  refine ⟨⟨?_, ?_⟩, ?_⟩
  · intro hs
    simp only [CancelOrder, hf, hfind, Bool.false_eq_true, if_false, hs, if_true]
  · intro hs
    have hne : ¬ (row.Status = OrderStatusShipped ∨ row.Status = OrderStatusDelivered) := by
      rw [hs]; decide
    simp only [CancelOrder, hf, hfind, Bool.false_eq_true, if_false, hs, if_true]
    rw [if_neg (by decide)]
  · intro hs1 hs2
    simp only [CancelOrder, hf, hfind, Bool.false_eq_true, if_false, hs1, hs2, DB.Begin,
      OrderEnv.noFaults, cancelled]
    cases hres : restoreStock env (preloadOrderItems db row.ID) 0 db with
    | none =>
      right
      refine ⟨?_, by simp [Response.fail, Tx.Rollback]⟩
      intro h
      have := (key (restoreResult (preloadOrderItems db row.ID) db)).mpr
        ⟨by simpa using h.1, rfl⟩
      rw [hres] at this
      cases this
    | some cur =>
      have hk := (key cur).mp hres
      cases h3 : env.saveOrderFails with
      | true => right; simp [Response.fail, Tx.Rollback]
      | false =>
        cases h4 : env.commitFails with
        | true => right; simp [Response.fail, Tx.Commit]
        | false =>
          left
          refine ⟨⟨by simpa using hk.1, rfl, rfl⟩, ?_⟩
          simp [Tx.Commit, hk.2]

/-- C12: for an order the requester is entitled to (the row the owner-or-admin query
returns), CancelOrder answers 400 and leaves the store unchanged when the status is
shipped, delivered or cancelled; it never answers 200 for such a status; and when no store
call fails and the status is one of the six known values, it answers 200 exactly when the
status is pending, confirmed or processing. -/
theorem cancelOrder_cancellable (env : OrderEnv) (db : DB) (u : String) (isAdmin : Bool)
    (orderID : String) (row : Order)
    (hf : env.fetchOrderFails = false)
    (hfind : db.orders.find? (fun o => (isAdmin ∨ o.UserID = u) ∧ o.ID = orderID) = some row) :
    ((row.Status = OrderStatusShipped ∨ row.Status = OrderStatusDelivered ∨
        row.Status = OrderStatusCancelled) →
      (CancelOrder env db (some u) isAdmin orderID).1.status = 400 ∧
      ((CancelOrder env db (some u) isAdmin orderID).1.error = "Cannot cancel order" ∨
       (CancelOrder env db (some u) isAdmin orderID).1.error = "Order already cancelled") ∧
      (CancelOrder env db (some u) isAdmin orderID).2 = db) ∧
    ((CancelOrder env db (some u) isAdmin orderID).1.status = 200 →
      row.Status ≠ OrderStatusShipped ∧ row.Status ≠ OrderStatusDelivered ∧
      row.Status ≠ OrderStatusCancelled) ∧
    (row.Status ∈ validStatuses → env.noFaults (preloadOrderItems db row.ID).length →
      ((CancelOrder env db (some u) isAdmin orderID).1.status = 200 ↔
        (row.Status = OrderStatusPending ∨ row.Status = OrderStatusConfirmed ∨
          row.Status = OrderStatusProcessing))) := by
  obtain ⟨⟨hship, hcanc⟩, htx⟩ := CancelOrder_found env db u isAdmin orderID row hf hfind
  have hfail : (row.Status = OrderStatusShipped ∨ row.Status = OrderStatusDelivered ∨
        row.Status = OrderStatusCancelled) →
      (CancelOrder env db (some u) isAdmin orderID).1.status = 400 ∧
      ((CancelOrder env db (some u) isAdmin orderID).1.error = "Cannot cancel order" ∨
       (CancelOrder env db (some u) isAdmin orderID).1.error = "Order already cancelled") ∧
      (CancelOrder env db (some u) isAdmin orderID).2 = db := by
    intro hs
    rcases hs with hs | hs | hs
    · rw [hship (Or.inl hs)]; exact ⟨rfl, Or.inl rfl, rfl⟩
    · rw [hship (Or.inr hs)]; exact ⟨rfl, Or.inl rfl, rfl⟩
    · rw [hcanc hs]; exact ⟨rfl, Or.inr rfl, rfl⟩
  have h200 : (CancelOrder env db (some u) isAdmin orderID).1.status = 200 →
      row.Status ≠ OrderStatusShipped ∧ row.Status ≠ OrderStatusDelivered ∧
      row.Status ≠ OrderStatusCancelled := by
    intro h
    refine ⟨?_, ?_, ?_⟩ <;> intro hs
    · have := (hfail (Or.inl hs)).1
      rw [h] at this; cases this
    · have := (hfail (Or.inr (Or.inl hs))).1
      rw [h] at this; cases this
    · have := (hfail (Or.inr (Or.inr hs))).1
      rw [h] at this; cases this
  refine ⟨hfail, h200, ?_⟩
  intro hvalid hok
  constructor
  · intro h
    obtain ⟨h1, h2, h3⟩ := h200 h
    simp only [validStatuses, List.mem_cons, List.mem_singleton, List.not_mem_nil,
      or_false] at hvalid
    rcases hvalid with hv | hv | hv | hv | hv | hv
    · exact Or.inl hv
    · exact Or.inr (Or.inl hv)
    · exact Or.inr (Or.inr hv)
    · exact absurd hv h1
    · exact absurd hv h2
    · exact absurd hv h3
  · intro hs
    have hs1 : ¬ (row.Status = OrderStatusShipped ∨ row.Status = OrderStatusDelivered) := by
      rcases hs with hs | hs | hs <;> rw [hs] <;> decide
    have hs2 : ¬ row.Status = OrderStatusCancelled := by
      rcases hs with hs | hs | hs <;> rw [hs] <;> decide
    rcases htx hs1 hs2 with h | h
    · rw [h.2]
    · exact absurd hok h.1

theorem cancelOrder_cancellable_witness :
    ((CancelOrder Scenario.orderEnv (Scenario.orderedWith "shipped") (some "u1") false
        "0b7e3c52-order").1.status = 400 ∧
      ((CancelOrder Scenario.orderEnv (Scenario.orderedWith "shipped") (some "u1") false
        "0b7e3c52-order").1.error = "Cannot cancel order" ∨
       (CancelOrder Scenario.orderEnv (Scenario.orderedWith "shipped") (some "u1") false
        "0b7e3c52-order").1.error = "Order already cancelled") ∧
      (CancelOrder Scenario.orderEnv (Scenario.orderedWith "shipped") (some "u1") false
        "0b7e3c52-order").2 = Scenario.orderedWith "shipped") ∧
    (CancelOrder Scenario.orderEnv (Scenario.orderedWith "processing") (some "u1") false
        "0b7e3c52-order").1.status = 200 ∧
    (Scenario.orderedWith "shipped").orders = [Scenario.orderRow "shipped"] :=
  ⟨(cancelOrder_cancellable Scenario.orderEnv (Scenario.orderedWith "shipped") "u1" false
      "0b7e3c52-order" (Scenario.orderRow "shipped") rfl (by decide!)).1 (Or.inl rfl),
   ((cancelOrder_cancellable Scenario.orderEnv (Scenario.orderedWith "processing") "u1" false
      "0b7e3c52-order" (Scenario.orderRow "processing") rfl (by decide!)).2.2 (by decide)
      ⟨fun _ _ => rfl, rfl, rfl⟩).mpr (Or.inr (Or.inr rfl)),
   by decide!⟩

theorem CancelOrder_inv (env : OrderEnv) (db : DB) (userID : Option String) (isAdmin : Bool)
    (orderID : String) (h : (CancelOrder env db userID isAdmin orderID).1.status = 200) :
    ∃ u row, userID = some u ∧ env.fetchOrderFails = false ∧
      db.orders.find? (fun o => (isAdmin ∨ o.UserID = u) ∧ o.ID = orderID) = some row ∧
      ¬ (row.Status = OrderStatusShipped ∨ row.Status = OrderStatusDelivered) ∧
      ¬ row.Status = OrderStatusCancelled ∧
      env.noFaults (preloadOrderItems db row.ID).length ∧
      (CancelOrder env db userID isAdmin orderID).2 = cancelled db row := by
  cases userID with
  | none => simp [CancelOrder, Response.fail] at h
  | some u =>
    cases hf : env.fetchOrderFails with
    | true => simp [CancelOrder, hf, Response.fail] at h
    | false =>
      cases hfind : db.orders.find? (fun o => (isAdmin ∨ o.UserID = u) ∧ o.ID = orderID) with
      | none =>
        simp only [CancelOrder, hf, hfind, Bool.false_eq_true, if_false, Response.fail] at h
        exact absurd h (by decide)
      | some row =>
        obtain ⟨⟨hship, hcanc⟩, htx⟩ := CancelOrder_found env db u isAdmin orderID row hf hfind
        by_cases hs1 : row.Status = OrderStatusShipped ∨ row.Status = OrderStatusDelivered
        · rw [hship hs1] at h; simp [Response.fail] at h
        · by_cases hs2 : row.Status = OrderStatusCancelled
          · rw [hcanc hs2] at h; simp [Response.fail] at h
          · rcases htx hs1 hs2 with hh | hh
            · exact ⟨u, row, rfl, rfl, hfind, hs1, hs2, hh.1, by rw [hh.2]⟩
            · rw [hh.2.1] at h; cases h

theorem preloadProduct_map (db db1 : DB) (f : Product → Product)
    (hprod : db1.products = db.products.map f) (hf : ∀ p, (f p).ID = p.ID)
    (pid : String) (p : Product)
    (hp : db.products.find? (fun p => p.ID = pid) = some p) :
    preloadProduct db1 pid = f p := by
  unfold preloadProduct
  rw [hprod]
  simp only [List.find?_map]
  have : ((fun p : Product => decide (p.ID = pid)) ∘ f) = fun p : Product => decide (p.ID = pid) := by
    funext q
    simp [hf q]
  rw [this, hp]
  rfl

theorem restored_orderItemsFrom (env : Env) (orderID : String) (load : String → Product)
    (items : List LoadedCartItem) (pid : String)
    (hload : ∀ it ∈ items, (load it.ProductID).ID = it.Product.ID) :
    ∀ i : Nat,
      restored ((orderItemsFrom env orderID items i).map
        (fun oi => { toOrderItem := oi, Product := load oi.ProductID })) pid =
      requested items pid := by
  induction items with
  | nil => intro i; rfl
  | cons it rest ih =>
    intro i
    have ih1 := ih (fun x hx => hload x (List.mem_cons_of_mem _ hx)) (i + 1)
    have h0 := hload it (List.mem_cons_self _ _)
    unfold restored requested at ih1 ⊢
    simp only [orderItemsFrom, List.map_cons, List.filter_cons]
    have hq : (OrderItem.BeforeCreate (env.orderItemUUID i)
        { ID := "", OrderID := orderID, ProductID := it.ProductID,
          Quantity := it.Quantity, Price := it.Price,
          Total := it.Price * (it.Quantity : ℚ) }).Quantity = it.Quantity := rfl
    have hp : (OrderItem.BeforeCreate (env.orderItemUUID i)
        { ID := "", OrderID := orderID, ProductID := it.ProductID,
          Quantity := it.Quantity, Price := it.Price,
          Total := it.Price * (it.Quantity : ℚ) }).ProductID = it.ProductID := rfl
    by_cases hpid : it.Product.ID = pid
    · simp only [hp, h0, hpid, decide_True, if_true, List.map_cons, List.sum_cons, hq, ih1]
    · simp only [hp, h0, hpid, decide_False, Bool.false_eq_true, if_false, ih1]

theorem find?_append_fresh {α : Type} (p : α → Bool) (l : List α) (n : α)
    (hl : ∀ x ∈ l, p x = false) : (l ++ [n]).find? p = [n].find? p := by
  have : l.find? p = none := by
    rw [List.find?_eq_none]
    intro x hx
    simp [hl x hx]
  simp [List.find?_append, this]

/-- C13: when CreateOrder succeeds with an order id no stored order or order item carries
yet, and CancelOrder on that id (by the owner or by an administrator) then succeeds, the
product table (so every product's stock quantity) is the one before CreateOrder, and the
created order is stored with status cancelled. -/
theorem create_then_cancel (env : Env) (cenv : OrderEnv) (db : DB) (userID : Option String)
    (req : Except String CreateOrderRequest) (canceller : Option String) (isAdmin : Bool)
    (hfresh : ∀ o ∈ db.orders, o.ID ≠ env.orderUUID)
    (hfreshItems : ∀ oi ∈ db.orderItems, oi.OrderID ≠ env.orderUUID)
    (hcreate : (CreateOrder env db userID req).1.status = 201)
    (hcancel : (CancelOrder cenv (CreateOrder env db userID req).2 canceller isAdmin
      env.orderUUID).1.status = 200) :
    (CancelOrder cenv (CreateOrder env db userID req).2 canceller isAdmin env.orderUUID).2.products
      = db.products ∧
    (∀ pid, stockOf (CancelOrder cenv (CreateOrder env db userID req).2 canceller isAdmin
      env.orderUUID).2 pid = stockOf db pid) ∧
    ∃ o, (CancelOrder cenv (CreateOrder env db userID req).2 canceller isAdmin
        env.orderUUID).2.orders = db.orders ++ [o] ∧
      o.ID = env.orderUUID ∧ o.Status = OrderStatusCancelled := by
  obtain ⟨u, r, c, hu, _, _, hc, _, hstock, _, hdb⟩ := CreateOrder_inv env db userID req hcreate
  obtain ⟨u1, row, hu1, _, hfind, _, _, _, hfinal⟩ :=
    CancelOrder_inv cenv _ canceller isAdmin env.orderUUID hcancel
  rw [hfinal]
  rw [hdb] at hfind ⊢
  set cart : LoadedCart := { toCart := c, Items := preloadItems db c.ID } with hcart
  set db1 := committed env db u r cart with hdb1
  have hnid : (newOrder env u r cart).ID = env.orderUUID := (newOrder_fields _ _ _ _).1
  -- the order found is the one just created
  have hrow : row = newOrder env u r cart := by
    rw [committed_orders, find?_append_fresh] at hfind
    · simp only [List.find?_cons, List.find?_nil] at hfind
      split at hfind
      · exact (Option.some.inj hfind).symm
      · cases hfind
    · intro o ho
      simp [hfresh o ho]
  have hrid : row.ID = env.orderUUID := by rw [hrow, hnid]
  -- its items are the ones just created
  have hitems : preloadOrderItems db1 row.ID =
      (orderItemsFrom env env.orderUUID cart.Items 0).map
        (fun oi => { toOrderItem := oi, Product := preloadProduct db1 oi.ProductID }) := by
    unfold preloadOrderItems
    rw [hrid, hdb1, committed_orderItems, hnid, List.filter_append]
    have h1 : db.orderItems.filter (fun oi => decide (oi.OrderID = env.orderUUID)) = [] := by
      simp only [List.filter_eq_nil_iff, decide_eq_true_eq]
      exact hfreshItems
    have h2 : (orderItemsFrom env env.orderUUID cart.Items 0).filter
        (fun oi => decide (oi.OrderID = env.orderUUID)) =
        orderItemsFrom env env.orderUUID cart.Items 0 := by
      rw [List.filter_eq_self]
      intro oi hoi
      simpa using orderItemsFrom_ids env env.orderUUID cart.Items 0 oi hoi
    rw [h1, h2, List.nil_append]
  -- every line's product is found again, under the same id
  have hload : ∀ it ∈ cart.Items, (preloadProduct db1 it.ProductID).ID = it.Product.ID := by
    intro it hit
    obtain ⟨hid, hfound, _⟩ := preloadItems_product db c.ID it hit (hstock it hit)
    rw [preloadProduct_map db db1 _ (committed_products env db u r cart) (fun _ => rfl)
      it.ProductID it.Product hfound]
  have hprod : (cancelled db1 row).products = db.products := by
    unfold cancelled
    rw [(saveOrder_frame _ _).1, restoreResult_products, hitems, hdb1, committed_products,
      List.map_map]
    conv_rhs => rw [← List.map_id db.products]
    apply List.map_congr_left
    intro p _
    simp only [Function.comp_apply, id_eq]
    rw [restored_orderItemsFrom env env.orderUUID (preloadProduct db1) cart.Items p.ID hload 0]
    cases p
    simp
  refine ⟨hprod, ?_, ?_⟩
  · intro pid
    unfold stockOf
    rw [hprod]
  · refine ⟨{ row with Status := OrderStatusCancelled }, ?_, hrid, rfl⟩
    unfold cancelled
    rw [saveOrder_orders]
    · rw [(restoreResult_frame _ _).2.2.1, hdb1, committed_orders, List.map_append]
      congr 1
      · conv_rhs => rw [← List.map_id db.orders]
        apply List.map_congr_left
        intro o ho
        have : ¬ o.ID = row.ID := by rw [hrid]; exact hfresh o ho
        simp [this]
      · simp [hrow]
    · rw [(restoreResult_frame _ _).2.2.1, hdb1, committed_orders]
      exact ⟨newOrder env u r cart, by simp, by rw [hrow]⟩

theorem create_then_cancel_witness :
    ((CancelOrder Scenario.orderEnv
        (CreateOrder Scenario.env (Scenario.store 10 2 5) (some "u1") (.ok Scenario.req)).2
        (some "u1") false Scenario.env.orderUUID).2.products = (Scenario.store 10 2 5).products ∧
     (∀ pid, stockOf (CancelOrder Scenario.orderEnv
        (CreateOrder Scenario.env (Scenario.store 10 2 5) (some "u1") (.ok Scenario.req)).2
        (some "u1") false Scenario.env.orderUUID).2 pid = stockOf (Scenario.store 10 2 5) pid) ∧
     ∃ o, (CancelOrder Scenario.orderEnv
        (CreateOrder Scenario.env (Scenario.store 10 2 5) (some "u1") (.ok Scenario.req)).2
        (some "u1") false Scenario.env.orderUUID).2.orders = (Scenario.store 10 2 5).orders ++ [o] ∧
      o.ID = Scenario.env.orderUUID ∧ o.Status = OrderStatusCancelled) ∧
    stockOf (Scenario.store 10 2 5) "p1" = some 5 ∧
    stockOf (CreateOrder Scenario.env (Scenario.store 10 2 5) (some "u1")
      (.ok Scenario.req)).2 "p1" = some 3 ∧
    stockOf (CancelOrder Scenario.orderEnv
        (CreateOrder Scenario.env (Scenario.store 10 2 5) (some "u1") (.ok Scenario.req)).2
        (some "u1") false Scenario.env.orderUUID).2 "p1" = some 5 :=
  ⟨create_then_cancel Scenario.env Scenario.orderEnv (Scenario.store 10 2 5) (some "u1")
      (.ok Scenario.req) (some "u1") false (by simp [Scenario.store]) (by simp [Scenario.store])
      (by decide) (by decide),
    by decide, by decide, by decide⟩

/-- C14 (as stated) fails: user u2, who is neither the owner of u1's order nor an
administrator, gets 404 "Order not found" from CancelOrder, not 403 Forbidden. -/
theorem cancelOrder_other_user_not_forbidden :
    (Scenario.ordered.orders.map (fun o => (o.ID, o.UserID, o.Status))
      = [("0b7e3c52-order", "u1", "pending")]) ∧
    (CancelOrder Scenario.orderEnv Scenario.ordered (some "u2") false "0b7e3c52-order").1 =
      Response.fail 404 "Order not found" "The requested order does not exist" ∧
    (CancelOrder Scenario.orderEnv Scenario.ordered (some "u2") false "0b7e3c52-order").1.status
      ≠ 403 :=
  ⟨by decide, by decide, by decide⟩

/-- C14 (amended): for every order id and every authenticated requester who is not an
administrator and owns no order with that id, CancelOrder fails with 404 "Order not found"
(500 when the order query itself fails) and the store, so the order's status and all
product stock, is unchanged. -/
theorem cancelOrder_other_user (env : OrderEnv) (db : DB) (u : String) (orderID : String)
    (hother : ∀ o ∈ db.orders, o.ID = orderID → o.UserID ≠ u) :
    (env.fetchOrderFails = false →
      (CancelOrder env db (some u) false orderID).1 =
        Response.fail 404 "Order not found" "The requested order does not exist") ∧
    ((CancelOrder env db (some u) false orderID).1.status = 404 ∨
      (CancelOrder env db (some u) false orderID).1.status = 500) ∧
    (CancelOrder env db (some u) false orderID).2 = db := by
  have hnone : db.orders.find?
      (fun o => decide (((false : Bool) = true ∨ o.UserID = u) ∧ o.ID = orderID)) = none := by
    rw [List.find?_eq_none]
    intro o ho
    simp only [Bool.false_eq_true, false_or, decide_eq_true_eq, not_and]
    intro hu hid
    exact hother o ho hid hu
  cases hf : env.fetchOrderFails with
  | true => simp [CancelOrder, hf, Response.fail]
  | false =>
    simp only [CancelOrder, hf, hnone]
    simp [Response.fail]

theorem cancelOrder_other_user_witness :
    (Scenario.orderEnv.fetchOrderFails = false →
      (CancelOrder Scenario.orderEnv Scenario.ordered (some "u2") false "0b7e3c52-order").1 =
        Response.fail 404 "Order not found" "The requested order does not exist") ∧
    ((CancelOrder Scenario.orderEnv Scenario.ordered (some "u2") false "0b7e3c52-order").1.status
        = 404 ∨
      (CancelOrder Scenario.orderEnv Scenario.ordered (some "u2") false "0b7e3c52-order").1.status
        = 500) ∧
    (CancelOrder Scenario.orderEnv Scenario.ordered (some "u2") false "0b7e3c52-order").2
      = Scenario.ordered :=
  cancelOrder_other_user Scenario.orderEnv Scenario.ordered "u2" "0b7e3c52-order" (by decide)

theorem mem_validStatuses (s : String) :
    s ∈ validStatuses ↔
      (s = "pending" ∨ s = "confirmed" ∨ s = "processing" ∨ s = "shipped" ∨
        s = "delivered" ∨ s = "cancelled") := by
  simp [validStatuses, OrderStatusPending, OrderStatusConfirmed, OrderStatusProcessing,
    OrderStatusShipped, OrderStatusDelivered, OrderStatusCancelled]

theorem validStatuses_any (s : String) :
    validStatuses.any (fun x => decide (x = s)) = decide (s ∈ validStatuses) := by
  rw [Bool.eq_iff_iff]
  simp only [List.any_eq_true, decide_eq_true_eq]
  constructor
  · rintro ⟨x, hx, rfl⟩; exact hx
  · intro h; exact ⟨s, h, rfl⟩

/-- C15: for a bound status string s, UpdateOrderStatus answers 400 "Invalid status"
exactly when s is not one of pending, confirmed, processing, shipped, delivered,
cancelled, and the store is then unchanged; for one of the six values, an existing order
and no failing store call it answers 200 and every order row with that id is stored with
status s and all other fields as before, whatever the status was. -/
theorem updateOrderStatus_valid (env : OrderEnv) (db : DB) (orderID : String) (s : String) :
    (((UpdateOrderStatus env db orderID (.ok s)).1.status = 400 ∧
        (UpdateOrderStatus env db orderID (.ok s)).1.error = "Invalid status") ↔
      ¬ (s = "pending" ∨ s = "confirmed" ∨ s = "processing" ∨ s = "shipped" ∨
        s = "delivered" ∨ s = "cancelled")) ∧
    ((UpdateOrderStatus env db orderID (.ok s)).1.status = 400 →
      (UpdateOrderStatus env db orderID (.ok s)).2 = db) ∧
    (∀ order, (s = "pending" ∨ s = "confirmed" ∨ s = "processing" ∨ s = "shipped" ∨
        s = "delivered" ∨ s = "cancelled") →
      env.fetchOrderFails = false → env.saveOrderFails = false →
      db.orders.find? (fun o => o.ID = orderID) = some order →
      (UpdateOrderStatus env db orderID (.ok s)).1.status = 200 ∧
      (UpdateOrderStatus env db orderID (.ok s)).2.orders =
        db.orders.map (fun o => if o.ID = orderID then { order with Status := s } else o) ∧
      (∀ o ∈ (UpdateOrderStatus env db orderID (.ok s)).2.orders, o.ID = orderID →
        o = { order with Status := s })) := by
  rw [← mem_validStatuses]
  by_cases hv : s ∈ validStatuses
  · have hany : validStatuses.any (fun x => decide (x = s)) = true := by
      rw [validStatuses_any]; simpa using hv
    refine ⟨?_, ?_, ?_⟩
    · constructor
      · intro h
        exfalso
        have he := h.2
        simp only [UpdateOrderStatus, hany, Bool.not_true, Bool.false_eq_true, if_false] at he
        revert he
        split
        · simp [Response.fail]
        · split
          · simp [Response.fail]
          · split <;> simp [Response.fail]
      · intro h; exact absurd hv h
    · intro h
      simp only [UpdateOrderStatus, hany, Bool.not_true, Bool.false_eq_true, if_false] at h ⊢
      revert h
      split
      · simp
      · split
        · simp
        · split
          · simp
          · simp
    · intro order _ hf hsave hfind
      have hid : order.ID = orderID := by simpa using List.find?_some hfind
      subst hid
      have hmem : ∃ o ∈ db.orders, o.ID = ({ order with Status := s } : Order).ID :=
        ⟨order, List.mem_of_find?_eq_some hfind, rfl⟩
      have hsaved := saveOrder_orders db { order with Status := s } hmem
      simp only [UpdateOrderStatus, hany, Bool.not_true, Bool.false_eq_true, if_false, hf,
        hsave, hfind]
      refine ⟨trivial, hsaved, ?_⟩
      intro o ho hoid
      rw [hsaved] at ho
      obtain ⟨o1, _, rfl⟩ := List.mem_map.mp ho
      by_cases h1 : o1.ID = order.ID
      · simp [h1]
      · simp only [h1, if_false] at hoid
  · have hany : validStatuses.any (fun x => decide (x = s)) = false := by
      rw [validStatuses_any]; simpa using hv
    refine ⟨?_, ?_, ?_⟩
    · simp [UpdateOrderStatus, hany, Response.fail, hv]
    · intro _
      simp [UpdateOrderStatus, hany]
    · intro order h
      exact absurd h hv

theorem updateOrderStatus_valid_witness :
    (UpdateOrderStatus Scenario.orderEnv (Scenario.orderedWith "delivered") "0b7e3c52-order"
        (.ok "pending")).1.status = 200 ∧
    (UpdateOrderStatus Scenario.orderEnv (Scenario.orderedWith "delivered") "0b7e3c52-order"
        (.ok "pending")).2.orders =
      (Scenario.orderedWith "delivered").orders.map
        (fun o => if o.ID = "0b7e3c52-order" then
          { Scenario.orderRow "delivered" with Status := "pending" } else o) ∧
    (∀ o ∈ (UpdateOrderStatus Scenario.orderEnv (Scenario.orderedWith "delivered")
        "0b7e3c52-order" (.ok "pending")).2.orders, o.ID = "0b7e3c52-order" →
        o = { Scenario.orderRow "delivered" with Status := "pending" }) :=
  (updateOrderStatus_valid Scenario.orderEnv (Scenario.orderedWith "delivered")
    "0b7e3c52-order" "pending").2.2 (Scenario.orderRow "delivered") (Or.inl rfl) rfl rfl
    (by decide!)

theorem adminRoute_runs {α : Type} (parse : String → TokenResult) (authHeader token : String)
    (claims : Claims) (handler : Context → α)
    (hne : authHeader ≠ "") (hsplit : authHeader.splitOn " " = ["Bearer", token])
    (hvalid : parse token = .valid claims) :
    adminRoute parse authHeader handler =
      .ok (handler { userID := some claims.UserID, userEmail := some claims.Email,
                     isAdmin := some claims.IsAdmin }) := by
  simp [adminRoute, adminGroup, runMiddleware, AuthRequired, hne, hsplit, hvalid, Context.empty]

/-- C16 (code defect): the admin route group installs `AuthRequired` only.  A valid token
of the non-admin user u2 passes it, so `PUT /admin/orders/:id/status` runs
UpdateOrderStatus and sets u1's order to delivered; had the group also installed
`AdminRequired`, the same request would have been aborted with 403. -/
theorem admin_routes_open_to_non_admin :
    adminGroup = [Middleware.authRequired] ∧
    Scenario.parse "tok-u2" =
      .valid { UserID := "u2", Email := "u2@example.org", IsAdmin := false } ∧
    (Scenario.ordered.orders.map (fun o => (o.ID, o.UserID, o.Status))
      = [("0b7e3c52-order", "u1", "pending")]) ∧
    handled (adminRoute Scenario.parse "Bearer tok-u2"
        (fun _ => UpdateOrderStatus Scenario.orderEnv Scenario.ordered "0b7e3c52-order"
          (.ok "delivered"))) =
      some (UpdateOrderStatus Scenario.orderEnv Scenario.ordered "0b7e3c52-order"
        (.ok "delivered")) ∧
    (UpdateOrderStatus Scenario.orderEnv Scenario.ordered "0b7e3c52-order"
      (.ok "delivered")).1.status = 200 ∧
    ((UpdateOrderStatus Scenario.orderEnv Scenario.ordered "0b7e3c52-order"
      (.ok "delivered")).2.orders.map (fun o => (o.ID, o.UserID, o.Status))
      = [("0b7e3c52-order", "u1", "delivered")]) ∧
    aborted (runMiddleware Scenario.parse "Bearer tok-u2"
        [Middleware.authRequired, Middleware.adminRequired] Context.empty) =
      some (Response.fail 403 "Forbidden" "Admin access required") :=
  ⟨rfl, by decide, by decide, by decide!, by decide, by decide, by decide!⟩

theorem fetchOwnOrder_ok (db : DB) (u orderID : String) (order : Order)
    (hfind : db.orders.find? (fun o => o.UserID = u ∧ o.ID = orderID) = some order) :
    fetchOwnOrder false db u orderID = .ok order := by
  simp only [fetchOwnOrder, Bool.false_eq_true, if_false, hfind]

theorem ConfirmPayment_found (env : PayEnv) (db : DB) (u : String)
    (req : ConfirmPaymentRequest) (order : Order) (pi : PaymentIntent)
    (hf : env.fetchOrderFails = false)
    (hfind : db.orders.find? (fun o => o.UserID = u ∧ o.ID = req.OrderID) = some order)
    (hget : env.getIntent req.PaymentIntentID = .ok pi) :
    (pi.Status ≠ "succeeded" →
      ConfirmPayment env db (some u) (.ok req) =
        (Response.fail 400 "Payment not completed"
          "Payment has not been completed successfully", db)) ∧
    (pi.Status = "succeeded" → env.saveOrderFails = false →
      ConfirmPayment env db (some u) (.ok req) =
        ({ status := 200, success := true, error := "",
           message := "Payment confirmed successfully", data := some order.paid },
          saveOrder db order.paid)) ∧
    (pi.Status = "succeeded" → env.saveOrderFails = true →
      ConfirmPayment env db (some u) (.ok req) =
        (Response.fail 500 "Database error" "Failed to update order payment status", db)) := by
  have hfetch := fetchOwnOrder_ok db u req.OrderID order hfind
  refine ⟨?_, ?_, ?_⟩
  · intro hs
    simp only [ConfirmPayment, hf, hfetch, hget, ne_eq, hs, not_false_eq_true, if_true]
  · intro hs hsave
    simp only [ConfirmPayment, hf, hfetch, hget, ne_eq, hs, not_true_eq_false, if_false, hsave,
      Bool.false_eq_true, Order.paid]
  · intro hs hsave
    simp only [ConfirmPayment, hf, hfetch, hget, ne_eq, hs, not_true_eq_false, if_false, hsave,
      if_true]

/-- C17: for an order the caller owns and a payment intent the processor answers for,
ConfirmPayment answers 400 "Payment not completed" and leaves the store unchanged when
the processor's status is anything but "succeeded"; when it is "succeeded" and the store
write succeeds it answers 200 and every order row with that id is stored with
paymentStatus paid and status confirmed; so it answers 200 exactly when the status is
"succeeded". -/
theorem confirmPayment_succeeded (env : PayEnv) (db : DB) (u : String)
    (req : ConfirmPaymentRequest) (order : Order) (pi : PaymentIntent)
    (hf : env.fetchOrderFails = false)
    (hfind : db.orders.find? (fun o => o.UserID = u ∧ o.ID = req.OrderID) = some order)
    (hget : env.getIntent req.PaymentIntentID = .ok pi) :
    (pi.Status ≠ "succeeded" →
      (ConfirmPayment env db (some u) (.ok req)).1 =
        Response.fail 400 "Payment not completed"
          "Payment has not been completed successfully" ∧
      (ConfirmPayment env db (some u) (.ok req)).2 = db) ∧
    (pi.Status = "succeeded" → env.saveOrderFails = false →
      (ConfirmPayment env db (some u) (.ok req)).1.status = 200 ∧
      (ConfirmPayment env db (some u) (.ok req)).2.orders =
        db.orders.map (fun o => if o.ID = req.OrderID then order.paid else o) ∧
      (∀ o ∈ (ConfirmPayment env db (some u) (.ok req)).2.orders, o.ID = req.OrderID →
        o.PaymentStatus = PaymentStatusPaid ∧ o.Status = OrderStatusConfirmed)) ∧
    (env.saveOrderFails = false →
      ((ConfirmPayment env db (some u) (.ok req)).1.status = 200 ↔ pi.Status = "succeeded")) := by
  obtain ⟨hno, hyes, _⟩ := ConfirmPayment_found env db u req order pi hf hfind hget
  have hid : order.ID = req.OrderID := by
    have := List.find?_some hfind
    simp only [decide_eq_true_eq] at this
    exact this.2
  have hpid : order.paid.ID = req.OrderID := hid
  have hsaved := saveOrder_orders db order.paid ⟨order, List.mem_of_find?_eq_some hfind, rfl⟩
  rw [hpid] at hsaved
  refine ⟨?_, ?_, ?_⟩
  · intro hs
    rw [hno hs]
    exact ⟨rfl, rfl⟩
  · intro hs hsave
    have hdb : (ConfirmPayment env db (some u) (.ok req)).2 = saveOrder db order.paid := by
      rw [hyes hs hsave]
    refine ⟨by rw [hyes hs hsave], by rw [hdb, hsaved], ?_⟩
    intro o ho hoid
    rw [hdb, hsaved] at ho
    obtain ⟨o1, _, rfl⟩ := List.mem_map.mp ho
    by_cases h1 : o1.ID = req.OrderID
    · simp only [h1, if_true]
      exact ⟨rfl, rfl⟩
    · simp only [h1, if_false] at hoid
  · intro hsave
    constructor
    · intro h200
      by_contra hs
      rw [hno hs] at h200
      simp [Response.fail] at h200
    · intro hs
      rw [hyes hs hsave]

theorem confirmPayment_succeeded_witness :
    ((ConfirmPayment Scenario.payEnv Scenario.ordered (some "u1")
        (.ok { PaymentIntentID := "pi_open", OrderID := "0b7e3c52-order" })).1 =
        Response.fail 400 "Payment not completed"
          "Payment has not been completed successfully" ∧
      (ConfirmPayment Scenario.payEnv Scenario.ordered (some "u1")
        (.ok { PaymentIntentID := "pi_open", OrderID := "0b7e3c52-order" })).2
        = Scenario.ordered) ∧
    (ConfirmPayment Scenario.payEnv Scenario.ordered (some "u1")
        (.ok { PaymentIntentID := "pi_paid", OrderID := "0b7e3c52-order" })).1.status = 200 ∧
    Scenario.ordered.orders.map (fun o => (o.PaymentStatus, o.Status)) = [("pending", "pending")] ∧
    Scenario.paid.orders.map (fun o => (o.PaymentStatus, o.Status)) = [("paid", "confirmed")] :=
  ⟨(confirmPayment_succeeded Scenario.payEnv Scenario.ordered "u1"
      { PaymentIntentID := "pi_open", OrderID := "0b7e3c52-order" } (Scenario.orderRow "pending")
      { ID := "pi_open", ClientSecret := "pi_open_secret", Status := "processing" }
      rfl (by decide!) rfl).1 (by decide),
   ((confirmPayment_succeeded Scenario.payEnv Scenario.ordered "u1"
      { PaymentIntentID := "pi_paid", OrderID := "0b7e3c52-order" } (Scenario.orderRow "pending")
      { ID := "pi_paid", ClientSecret := "pi_paid_secret", Status := "succeeded" }
      rfl (by decide!) rfl).2.2 rfl).mpr rfl,
   by decide, by decide⟩

theorem CreatePaymentIntent_found (env : PayEnv) (db : DB) (u : String)
    (req : CreatePaymentIntentRequest) (order : Order)
    (hf : env.fetchOrderFails = false)
    (hfind : db.orders.find? (fun o => o.UserID = u ∧ o.ID = req.OrderID) = some order)
    (hpay : order.PaymentStatus ≠ PaymentStatusPaid) :
    (CreatePaymentIntent env db (some u) (.ok req)).2.2 =
      [{ Amount := toInt64 (order.Total * 100), Currency := "usd",
         Metadata := [("order_id", order.ID), ("user_id", u)] }] := by
  have hfetch := fetchOwnOrder_ok db u req.OrderID order hfind
  simp only [CreatePaymentIntent, hf, hfetch, hpay, if_false]
  split <;> rfl

/-- C18 (code defect): the order of a cart of one item priced 9.99 has total 20.7792;
CreatePaymentIntent requests 2077 minor units for it, the truncation of 2077.92, whereas
the total rounded to the nearest cent is 2078. -/
theorem paymentIntent_amount_truncated :
    Scenario.ordered999.orders.map (fun o => (o.ID, o.UserID, o.Total))
      = [("0b7e3c52-order", "u1", 20.7792)] ∧
    (CreatePaymentIntent Scenario.payEnv Scenario.ordered999 (some "u1")
      (.ok { OrderID := "0b7e3c52-order" })).1.status = 200 ∧
    (CreatePaymentIntent Scenario.payEnv Scenario.ordered999 (some "u1")
      (.ok { OrderID := "0b7e3c52-order" })).2.2 =
      [{ Amount := 2077, Currency := "usd",
         Metadata := [("order_id", "0b7e3c52-order"), ("user_id", "u1")] }] ∧
    round ((20.7792 : ℚ) * 100) = 2078 := by
  refine ⟨by decide!, by decide!, by decide!, ?_⟩
  norm_num [round_eq]

/-- C19: for an order the caller owns whose paymentStatus is paid, CreatePaymentIntent
answers 400 "Order already paid", requests no intent from the processor and leaves the
store unchanged. -/
theorem createPaymentIntent_already_paid (env : PayEnv) (db : DB) (u : String)
    (req : CreatePaymentIntentRequest) (order : Order)
    (hf : env.fetchOrderFails = false)
    (hfind : db.orders.find? (fun o => o.UserID = u ∧ o.ID = req.OrderID) = some order)
    (hpaid : order.PaymentStatus = PaymentStatusPaid) :
    CreatePaymentIntent env db (some u) (.ok req) =
      (IntentResponse.fail 400 "Order already paid" "This order has already been paid", db, []) := by
  have hfetch := fetchOwnOrder_ok db u req.OrderID order hfind
  simp only [CreatePaymentIntent, hf, hfetch, hpaid, if_true]

theorem createPaymentIntent_already_paid_witness :
    CreatePaymentIntent Scenario.payEnv Scenario.paid (some "u1")
        (.ok { OrderID := "0b7e3c52-order" }) =
      (IntentResponse.fail 400 "Order already paid" "This order has already been paid",
        Scenario.paid, []) ∧
    Scenario.paid.orders.map (fun o => (o.ID, o.PaymentStatus, o.PaymentIntentID))
      = [("0b7e3c52-order", "paid", "")] :=
  ⟨createPaymentIntent_already_paid Scenario.payEnv Scenario.paid "u1"
      { OrderID := "0b7e3c52-order" } (Scenario.orderRow "pending").paid rfl (by decide!) rfl,
    by decide⟩

/-- C20 (code defect): when the store rejects the write of the intent reference,
CreatePaymentIntent still answers 200 with the intent's id and client secret, while the
order's stored reference stays empty; ConfirmPayment, in the same situation, answers 500. -/
theorem createPaymentIntent_unsaved_reference :
    (CreatePaymentIntent Scenario.payEnvSaveFails Scenario.ordered (some "u1")
      (.ok { OrderID := "0b7e3c52-order" })).1 =
      { status := 200, success := true, error := "", message := "",
        clientSecret := some "pi_1_secret", paymentIntentId := some "pi_1" } ∧
    (CreatePaymentIntent Scenario.payEnvSaveFails Scenario.ordered (some "u1")
      (.ok { OrderID := "0b7e3c52-order" })).2.1.orders.map
        (fun o => (o.ID, o.PaymentIntentID)) = [("0b7e3c52-order", "")] ∧
    (CreatePaymentIntent Scenario.payEnv Scenario.ordered (some "u1")
      (.ok { OrderID := "0b7e3c52-order" })).2.1.orders.map
        (fun o => (o.ID, o.PaymentIntentID)) = [("0b7e3c52-order", "pi_1")] ∧
    (ConfirmPayment Scenario.payEnvSaveFails Scenario.ordered (some "u1")
      (.ok { PaymentIntentID := "pi_paid", OrderID := "0b7e3c52-order" })).1.status = 500 :=
  ⟨by decide, by decide, by decide, by decide⟩

/-! ## Lemmas on the order number and on GetAllOrders -/

theorem String.length_eq_data (s : String) : s.length = s.data.length := rfl

theorem generateOrderNumber_data (date uuid : String) :
    (generateOrderNumber date uuid).data =
      ['B', 'I', 'Z', 'O', 'E', '-'] ++ date.data ++ ['-'] ++ uuid.data.take 8 := by
  unfold generateOrderNumber
  simp only [String.data_append, String.data_take]

theorem generateOrderNumber_length (date uuid : String) (hdate : date.data.length = 8)
    (huuid : 8 ≤ uuid.data.length) : (generateOrderNumber date uuid).data.length = 23 := by
  rw [generateOrderNumber_data]
  simp only [List.length_append, List.length_take, hdate, List.length_cons, List.length_nil]
  omega

theorem chars_of_length_eight (l : List Char) (h : l.length = 8) :
    ∃ d1 d2 d3 d4 d5 d6 d7 d8, l = [d1, d2, d3, d4, d5, d6, d7, d8] := by
  match l, h with
  | [d1, d2, d3, d4, d5, d6, d7, d8], _ => exact ⟨d1, d2, d3, d4, d5, d6, d7, d8, rfl⟩

theorem generateOrderNumber_format (date uuid : String)
    (hdate : date.data.length = 8) (hdigits : ∀ c ∈ date.data, c.isDigit = true)
    (huuid : 8 ≤ uuid.data.length) (hhex : ∀ c ∈ uuid.data.take 8, hexDigit c = true) :
    orderNumberFormat (generateOrderNumber date uuid) := by
  refine ⟨generateOrderNumber_length date uuid hdate huuid, ?_⟩
  rw [generateOrderNumber_data]
  obtain ⟨d1, d2, d3, d4, d5, d6, d7, d8, hd⟩ := chars_of_length_eight date.data hdate
  rw [hd] at hdigits ⊢
  refine ⟨rfl, ?_, rfl, ?_⟩
  · intro c hc
    exact hdigits c (by simpa using hc)
  · intro c hc
    exact hhex c (by simpa using hc)

theorem Order.BeforeCreate_number (idUUID date uuid : String) (o : Order) :
    (o.OrderNumber = "" →
      (Order.BeforeCreate idUUID date uuid o).OrderNumber = generateOrderNumber date uuid) ∧
    (o.OrderNumber ≠ "" → (Order.BeforeCreate idUUID date uuid o).OrderNumber = o.OrderNumber) := by
  unfold Order.BeforeCreate
  constructor
  · intro h
    by_cases hid : o.ID = "" <;> simp [hid, h]
  · intro h
    by_cases hid : o.ID = "" <;> simp [hid, h]

/-- C25: for a creation date written as eight decimal digits and a UUID string whose first
eight characters are hexadecimal, the generated order number is `BIZOE-`, the date, a hyphen
and the first eight characters of the UUID, 23 characters in all, in the format
PREFIX-YYYYMMDD-XXXXXXXX; `Order.BeforeCreate` stores it when the order has no number and
leaves a number the caller supplied unchanged. -/
theorem orderNumber_format (date uuid idUUID : String) (o : Order)
    (hdate : date.data.length = 8) (hdigits : ∀ c ∈ date.data, c.isDigit = true)
    (huuid : 8 ≤ uuid.data.length) (hhex : ∀ c ∈ uuid.data.take 8, hexDigit c = true) :
    (generateOrderNumber date uuid).data =
      ['B', 'I', 'Z', 'O', 'E', '-'] ++ date.data ++ ['-'] ++ uuid.data.take 8 ∧
    (uuid.data.take 8).length = 8 ∧
    (generateOrderNumber date uuid).length = 23 ∧
    orderNumberFormat (generateOrderNumber date uuid) ∧
    (o.OrderNumber = "" →
      (Order.BeforeCreate idUUID date uuid o).OrderNumber = generateOrderNumber date uuid) ∧
    (o.OrderNumber ≠ "" → (Order.BeforeCreate idUUID date uuid o).OrderNumber = o.OrderNumber) :=
  ⟨generateOrderNumber_data date uuid,
   by rw [List.length_take]; omega,
   (String.length_eq_data _).trans (generateOrderNumber_length date uuid hdate huuid),
   generateOrderNumber_format date uuid hdate hdigits huuid hhex,
   Order.BeforeCreate_number idUUID date uuid o⟩

theorem orderNumber_format_witness :
    ((generateOrderNumber "20240131" "4f9a1d2e-8c3b-4e5f-a1b2-c3d4e5f6a7b8").data =
      ['B', 'I', 'Z', 'O', 'E', '-'] ++ "20240131".data ++ ['-'] ++
        "4f9a1d2e-8c3b-4e5f-a1b2-c3d4e5f6a7b8".data.take 8 ∧
    ("4f9a1d2e-8c3b-4e5f-a1b2-c3d4e5f6a7b8".data.take 8).length = 8 ∧
    (generateOrderNumber "20240131" "4f9a1d2e-8c3b-4e5f-a1b2-c3d4e5f6a7b8").length = 23 ∧
    orderNumberFormat (generateOrderNumber "20240131" "4f9a1d2e-8c3b-4e5f-a1b2-c3d4e5f6a7b8") ∧
    ((Scenario.orderRow "pending").OrderNumber = "" →
      (Order.BeforeCreate "id-1" "20240131" "4f9a1d2e-8c3b-4e5f-a1b2-c3d4e5f6a7b8"
        (Scenario.orderRow "pending")).OrderNumber =
        generateOrderNumber "20240131" "4f9a1d2e-8c3b-4e5f-a1b2-c3d4e5f6a7b8") ∧
    ((Scenario.orderRow "pending").OrderNumber ≠ "" →
      (Order.BeforeCreate "id-1" "20240131" "4f9a1d2e-8c3b-4e5f-a1b2-c3d4e5f6a7b8"
        (Scenario.orderRow "pending")).OrderNumber = (Scenario.orderRow "pending").OrderNumber)) ∧
    generateOrderNumber "20240131" "4f9a1d2e-8c3b-4e5f-a1b2-c3d4e5f6a7b8"
      = "BIZOE-20240131-4f9a1d2e" ∧
    (Scenario.ordered.orders.map (fun o => o.OrderNumber)) = ["BIZOE-20240131-4f9a1d2e"] :=
  ⟨orderNumber_format "20240131" "4f9a1d2e-8c3b-4e5f-a1b2-c3d4e5f6a7b8" "id-1"
      (Scenario.orderRow "pending") (by decide) (by decide) (by decide) (by decide),
    by decide, by decide!⟩

theorem wrapInt64_of_range (x : Int) (h1 : - 2 ^ 63 ≤ x) (h2 : x < 2 ^ 63) : wrapInt64 x = x := by
  unfold wrapInt64
  rw [Int.emod_eq_of_lt (by omega) (by omega)]
  omega

theorem wrapInt64_sub_one (x : Int) : wrapInt64 (wrapInt64 x - 1) = wrapInt64 (x - 1) := by
  unfold wrapInt64
  omega

theorem totalPages_eq (total limit : Int) (hlimit : 1 ≤ limit) (htotal : 0 ≤ total)
    (hrange : total + limit - 1 < 2 ^ 63) :
    totalPages total limit = .ok ((total + limit - 1) / limit) := by
  have hl : limit ≠ 0 := by omega
  have hq0 : 0 ≤ (total + limit - 1) / limit := Int.ediv_nonneg (by omega) (by omega)
  have hq1 : (total + limit - 1) / limit ≤ total + limit - 1 :=
    Int.ediv_le_self _ (by omega)
  unfold totalPages
  rw [if_neg hl, wrapInt64_sub_one,
    wrapInt64_of_range (total + limit - 1) (by omega) (by omega),
    Int.tdiv_eq_ediv (by omega) (by omega),
    wrapInt64_of_range _ (le_trans (by norm_num) hq0) (lt_of_le_of_lt hq1 hrange)]

theorem ceil_div_eq (total limit : Int) (hlimit : 1 ≤ limit) :
    ⌈(total : ℚ) / (limit : ℚ)⌉ = (total + limit - 1) / limit := by
  have hpos : (0 : ℚ) < (limit : ℚ) := by exact_mod_cast (by omega : (0 : Int) < limit)
  have hmod := Int.emod_add_ediv (total + limit - 1) limit
  have hnn := Int.emod_nonneg (total + limit - 1) (by omega : limit ≠ 0)
  have hlt := Int.emod_lt_of_pos (total + limit - 1) (by omega : (0 : Int) < limit)
  set q := (total + limit - 1) / limit with hq
  set r := (total + limit - 1) % limit with hr
  rw [Int.ceil_eq_iff]
  constructor
  · rw [lt_div_iff₀ hpos]
    have : (q - 1) * limit < total := by nlinarith
    exact_mod_cast this
  · rw [div_le_iff₀ hpos]
    have : total ≤ q * limit := by nlinarith
    exact_mod_cast this

theorem GetAllOrders_run (env : ListEnv) (db : DB) (page limit : Option String) (status : String)
    (hcount : env.countFails = false) (hfind : env.findFails = false) :
    GetAllOrders env db page limit status =
      match totalPages ((db.orders.filter (fun o => status = "" ∨ o.Status = status)).length : Int)
          (Atoi (limit.getD "20")) with
      | .error e => .error e
      | .ok pages =>
        .ok { status := 200, success := true, error := "", message := "",
              data := env.window
                (wrapInt64 (wrapInt64 (Atoi (page.getD "1") - 1) * Atoi (limit.getD "20")))
                (Atoi (limit.getD "20"))
                (db.orders.filter (fun o => status = "" ∨ o.Status = status)).reverse,
              pagination := some { page := Atoi (page.getD "1"), limit := Atoi (limit.getD "20"),
                                   total := ((db.orders.filter
                                     (fun o => status = "" ∨ o.Status = status)).length : Int),
                                   totalPages := pages } } := by
  simp only [GetAllOrders, hcount, hfind, Bool.false_eq_true, if_false]

/-- C30 (code defect): when the `limit` query parameter parses to 0 (as `0` and every
non-numeric string do) and the two store calls succeed, GetAllOrders divides by zero and
ends in a run-time panic instead of a response; for a limit of at least 1 (and a count for
which total + limit - 1 fits an int64) it answers 200 with totalPages the ceiling of
total / limit. -/
theorem getAllOrders_pagination (env : ListEnv) (db : DB) (page limit : Option String)
    (status : String) (hcount : env.countFails = false) (hfind : env.findFails = false) :
    (Atoi (limit.getD "20") = 0 →
      panicOf (GetAllOrders env db page limit status) = some divideByZero ∧
      responseOf (GetAllOrders env db page limit status) = none) ∧
    (1 ≤ Atoi (limit.getD "20") →
      ((db.orders.filter (fun o => status = "" ∨ o.Status = status)).length : Int)
        + Atoi (limit.getD "20") - 1 < 2 ^ 63 →
      panicOf (GetAllOrders env db page limit status) = none ∧
      ∃ r p, GetAllOrders env db page limit status = .ok r ∧ r.status = 200 ∧
        r.pagination = some p ∧ p.limit = Atoi (limit.getD "20") ∧
        p.total = ((db.orders.filter (fun o => status = "" ∨ o.Status = status)).length : Int) ∧
        p.totalPages = ⌈(p.total : ℚ) / (p.limit : ℚ)⌉) := by
  rw [GetAllOrders_run env db page limit status hcount hfind]
  constructor
  · intro h0
    simp [totalPages, h0, panicOf, responseOf]
  · intro h1 hrange
    rw [totalPages_eq _ _ h1 (by positivity) hrange]
    refine ⟨rfl, _, _, rfl, rfl, rfl, rfl, rfl, ?_⟩
    exact (ceil_div_eq _ _ h1).symm

theorem getAllOrders_pagination_witness :
    (panicOf (GetAllOrders Scenario.listEnv Scenario.ordered (some "1") (some "0") "")
        = some divideByZero ∧
      responseOf (GetAllOrders Scenario.listEnv Scenario.ordered (some "1") (some "0") "") = none) ∧
    (panicOf (GetAllOrders Scenario.listEnv Scenario.ordered none none "") = none ∧
      ∃ r p, GetAllOrders Scenario.listEnv Scenario.ordered none none "" = .ok r ∧
        r.status = 200 ∧
        r.pagination = some p ∧ p.limit = Atoi ((none : Option String).getD "20") ∧
        p.total = ((Scenario.ordered.orders.filter
          (fun o => "" = "" ∨ o.Status = "")).length : Int) ∧
        p.totalPages = ⌈(p.total : ℚ) / (p.limit : ℚ)⌉) ∧
    Atoi "0" = 0 ∧ Atoi "abc" = 0 ∧ Atoi "" = 0 ∧ Atoi "20" = 20 ∧
    panicOf (GetAllOrders Scenario.listEnv Scenario.ordered (some "1") (some "0") "")
      = some "runtime error: integer divide by zero" ∧
    panicOf (GetAllOrders Scenario.listEnv Scenario.ordered none (some "abc") "")
      = some "runtime error: integer divide by zero" ∧
    (responseOf (GetAllOrders Scenario.listEnv Scenario.ordered none none "")).map
        (fun r => (r.status, r.pagination))
      = some (200, some { page := 1, limit := 20, total := 1, totalPages := 1 }) :=
  ⟨(getAllOrders_pagination Scenario.listEnv Scenario.ordered (some "1") (some "0") "" rfl rfl).1
      (by decide!),
    (getAllOrders_pagination Scenario.listEnv Scenario.ordered none none "" rfl rfl).2
      (by decide!) (by decide!),
    by decide!, by decide!, by decide!, by decide!, by decide!, by decide!, by decide!⟩

/-! ## Lemmas on the payment handlers -/

theorem CreatePaymentIntent_failed (env : PayEnv) (db : DB) (u : String)
    (req : CreatePaymentIntentRequest) (order : Order) (e : String)
    (hf : env.fetchOrderFails = false)
    (hfind : db.orders.find? (fun o => o.UserID = u ∧ o.ID = req.OrderID) = some order)
    (hpay : order.PaymentStatus ≠ PaymentStatusPaid)
    (hnew : env.newIntent (intentParams order u) = .error e) :
    CreatePaymentIntent env db (some u) (.ok req) =
      (IntentResponse.fail 500 "Payment error" "Failed to create payment intent", db,
        [intentParams order u]) := by
  unfold intentParams at hnew ⊢
  simp only [CreatePaymentIntent, hf, fetchOwnOrder_ok db u req.OrderID order hfind, hpay,
    if_false, hnew]

theorem ConfirmPayment_failed (env : PayEnv) (db : DB) (u : String)
    (req : ConfirmPaymentRequest) (order : Order) (e : String)
    (hf : env.fetchOrderFails = false)
    (hfind : db.orders.find? (fun o => o.UserID = u ∧ o.ID = req.OrderID) = some order)
    (hget : env.getIntent req.PaymentIntentID = .error e) :
    ConfirmPayment env db (some u) (.ok req) =
      (Response.fail 400 "Payment verification failed" "Failed to verify payment with Stripe",
        db) := by
  simp only [ConfirmPayment, hf, fetchOwnOrder_ok db u req.OrderID order hfind, hget]

/-- C21 (as stated) fails: the processor does not know the intent `pi_unknown`, the call
fails, and ConfirmPayment reports it with status 400 "Payment verification failed", not 502
or 500. -/
theorem confirmPayment_processor_failure_is_400 :
    errorOf (Scenario.payEnv.getIntent "pi_unknown") = some "No such payment_intent" ∧
    (ConfirmPayment Scenario.payEnv Scenario.ordered (some "u1")
      (.ok { PaymentIntentID := "pi_unknown", OrderID := "0b7e3c52-order" })).1 =
      Response.fail 400 "Payment verification failed" "Failed to verify payment with Stripe" ∧
    (ConfirmPayment Scenario.payEnv Scenario.ordered (some "u1")
      (.ok { PaymentIntentID := "pi_unknown", OrderID := "0b7e3c52-order" })).1.status ≠ 502 ∧
    (ConfirmPayment Scenario.payEnv Scenario.ordered (some "u1")
      (.ok { PaymentIntentID := "pi_unknown", OrderID := "0b7e3c52-order" })).1.status ≠ 500 := by
  refine ⟨by decide, by decide!, by decide!, by decide!⟩

/-- C21 (amended): when the call to the payment processor fails, CreatePaymentIntent answers
500 "Payment error" and ConfirmPayment answers 400 "Payment verification failed"; both
leave the store, so the order, unchanged. -/
theorem processor_failure_reported (env : PayEnv) (db : DB) (u : String) (order : Order)
    (e : String) (hf : env.fetchOrderFails = false) :
    (∀ req : CreatePaymentIntentRequest,
      db.orders.find? (fun o => o.UserID = u ∧ o.ID = req.OrderID) = some order →
      order.PaymentStatus ≠ PaymentStatusPaid →
      env.newIntent (intentParams order u) = .error e →
      (CreatePaymentIntent env db (some u) (.ok req)).1 =
        IntentResponse.fail 500 "Payment error" "Failed to create payment intent" ∧
      (CreatePaymentIntent env db (some u) (.ok req)).2.1 = db) ∧
    (∀ req : ConfirmPaymentRequest,
      db.orders.find? (fun o => o.UserID = u ∧ o.ID = req.OrderID) = some order →
      env.getIntent req.PaymentIntentID = .error e →
      (ConfirmPayment env db (some u) (.ok req)).1 =
        Response.fail 400 "Payment verification failed" "Failed to verify payment with Stripe" ∧
      (ConfirmPayment env db (some u) (.ok req)).2 = db) := by
  constructor
  · intro req hfind hpay hnew
    rw [CreatePaymentIntent_failed env db u req order e hf hfind hpay hnew]
    exact ⟨rfl, rfl⟩
  · intro req hfind hget
    rw [ConfirmPayment_failed env db u req order e hf hfind hget]
    exact ⟨rfl, rfl⟩

theorem processor_failure_reported_witness :
    ((CreatePaymentIntent Scenario.payEnvDown Scenario.ordered (some "u1")
        (.ok { OrderID := "0b7e3c52-order" })).1 =
        IntentResponse.fail 500 "Payment error" "Failed to create payment intent" ∧
      (CreatePaymentIntent Scenario.payEnvDown Scenario.ordered (some "u1")
        (.ok { OrderID := "0b7e3c52-order" })).2.1 = Scenario.ordered) ∧
    ((ConfirmPayment Scenario.payEnvDown Scenario.ordered (some "u1")
        (.ok { PaymentIntentID := "pi_1", OrderID := "0b7e3c52-order" })).1 =
        Response.fail 400 "Payment verification failed" "Failed to verify payment with Stripe" ∧
      (ConfirmPayment Scenario.payEnvDown Scenario.ordered (some "u1")
        (.ok { PaymentIntentID := "pi_1", OrderID := "0b7e3c52-order" })).2 = Scenario.ordered) :=
  ⟨(processor_failure_reported Scenario.payEnvDown Scenario.ordered "u1"
      (Scenario.orderRow "pending") "processor unreachable" rfl).1
      { OrderID := "0b7e3c52-order" } (by decide!) (by decide) rfl,
   (processor_failure_reported Scenario.payEnvDown Scenario.ordered "u1"
      (Scenario.orderRow "pending") "processor unreachable" rfl).2
      { PaymentIntentID := "pi_1", OrderID := "0b7e3c52-order" } (by decide!) rfl⟩

theorem ConfirmPayment_inv (env : PayEnv) (db : DB) (userID : Option String)
    (req : Except String ConfirmPaymentRequest)
    (h : (ConfirmPayment env db userID req).1.status = 200) :
    ∃ u r order pi, userID = some u ∧ req = .ok r ∧ env.fetchOrderFails = false ∧
      db.orders.find? (fun o => o.UserID = u ∧ o.ID = r.OrderID) = some order ∧
      env.getIntent r.PaymentIntentID = .ok pi ∧ pi.Status = "succeeded" ∧
      env.saveOrderFails = false ∧
      ConfirmPayment env db userID req =
        ({ status := 200, success := true, error := "",
           message := "Payment confirmed successfully", data := some order.paid },
          saveOrder db order.paid) := by
  cases userID with
  | none => simp [ConfirmPayment, Response.fail] at h
  | some u =>
    cases req with
    | error err => simp [ConfirmPayment, Response.fail] at h
    | ok r =>
      cases hf : env.fetchOrderFails with
      | true => simp [ConfirmPayment, fetchOwnOrder, hf, Response.fail] at h
      | false =>
        cases hfind : db.orders.find? (fun o => o.UserID = u ∧ o.ID = r.OrderID) with
        | none =>
          simp only [ConfirmPayment, fetchOwnOrder, hf, hfind] at h
          simp [Response.fail] at h
        | some order =>
          cases hget : env.getIntent r.PaymentIntentID with
          | error e =>
            rw [ConfirmPayment_failed env db u r order e hf hfind hget] at h
            simp [Response.fail] at h
          | ok pi =>
            obtain ⟨h1, h2, h3⟩ := ConfirmPayment_found env db u r order pi hf hfind hget
            by_cases hs : pi.Status = "succeeded"
            · cases hsave : env.saveOrderFails with
              | true =>
                rw [h3 hs hsave] at h
                simp [Response.fail] at h
              | false => exact ⟨u, r, order, pi, rfl, rfl, rfl, hfind, hget, hs, rfl, h2 hs hsave⟩
            · rw [h1 hs] at h
              simp [Response.fail] at h

theorem saveOrder_mem (db : DB) (order : Order) (hmem : ∃ o ∈ db.orders, o.ID = order.ID) :
    ∀ o ∈ (saveOrder db order).orders,
      (o.ID = order.ID → o = order) ∧ (o.ID ≠ order.ID → o ∈ db.orders) := by
  intro o ho
  rw [saveOrder_orders db order hmem] at ho
  obtain ⟨o1, ho1, rfl⟩ := List.mem_map.mp ho
  by_cases h1 : o1.ID = order.ID
  · rw [if_pos h1]
    exact ⟨fun _ => rfl, fun hne => absurd rfl hne⟩
  · rw [if_neg h1]
    exact ⟨fun he => absurd he h1, fun _ => ho1⟩

theorem find_ownOrder (db : DB) (u orderID : String) (order : Order)
    (h : db.orders.find? (fun o => o.UserID = u ∧ o.ID = orderID) = some order) :
    order ∈ db.orders ∧ order.UserID = u ∧ order.ID = orderID := by
  have h1 := List.mem_of_find?_eq_some h
  have h2 := List.find?_some h
  simp only [decide_eq_true_eq] at h2
  exact ⟨h1, h2.1, h2.2⟩

/-- C27: for an order the caller owns and any intent id the processor reports as
succeeded, ConfirmPayment (when its store write succeeds) answers 200 and stores the order
as paid and confirmed, with the stored intent reference left as it was; nothing relates the
confirmed intent to the order: not its id and the stored reference, not its amount, not its
metadata; and every succeeded intent gives the same outcome. -/
theorem confirmPayment_ignores_reference (env : PayEnv) (db : DB) (u : String)
    (req : ConfirmPaymentRequest) (order : Order) (pi : PaymentIntent)
    (hf : env.fetchOrderFails = false) (hsave : env.saveOrderFails = false)
    (hfind : db.orders.find? (fun o => o.UserID = u ∧ o.ID = req.OrderID) = some order)
    (hget : env.getIntent req.PaymentIntentID = .ok pi)
    (hs : pi.Status = "succeeded") :
    (ConfirmPayment env db (some u) (.ok req)).1.status = 200 ∧
    (ConfirmPayment env db (some u) (.ok req)).1.data = some order.paid ∧
    (∀ o ∈ (ConfirmPayment env db (some u) (.ok req)).2.orders, o.ID = req.OrderID →
      o.PaymentStatus = PaymentStatusPaid ∧ o.Status = OrderStatusConfirmed ∧
      o.PaymentIntentID = order.PaymentIntentID) ∧
    (∀ (req2 : ConfirmPaymentRequest) (pi2 : PaymentIntent), req2.OrderID = req.OrderID →
      env.getIntent req2.PaymentIntentID = .ok pi2 → pi2.Status = "succeeded" →
      ConfirmPayment env db (some u) (.ok req2) = ConfirmPayment env db (some u) (.ok req)) := by
  obtain ⟨hmem, _, hid⟩ := find_ownOrder db u req.OrderID order hfind
  have hrun := (ConfirmPayment_found env db u req order pi hf hfind hget).2.1 hs hsave
  refine ⟨by rw [hrun], by rw [hrun], ?_, ?_⟩
  · intro o ho hoid
    rw [hrun] at ho
    have := (saveOrder_mem db order.paid ⟨order, hmem, rfl⟩ o ho).1 (hoid.trans hid.symm)
    rw [this]
    exact ⟨rfl, rfl, rfl⟩
  · intro req2 pi2 hreq hget2 hs2
    rw [hrun, (ConfirmPayment_found env db u req2 order pi2 hf (by rw [hreq]; exact hfind)
      hget2).2.1 hs2 hsave]

theorem confirmPayment_ignores_reference_witness :
    ((ConfirmPayment Scenario.payEnvOther Scenario.intended (some "u1")
        (.ok { PaymentIntentID := "pi_other", OrderID := "0b7e3c52-order" })).1.status = 200 ∧
      (ConfirmPayment Scenario.payEnvOther Scenario.intended (some "u1")
        (.ok { PaymentIntentID := "pi_other", OrderID := "0b7e3c52-order" })).1.data
        = some Scenario.intendedRow.paid ∧
      (∀ o ∈ (ConfirmPayment Scenario.payEnvOther Scenario.intended (some "u1")
          (.ok { PaymentIntentID := "pi_other", OrderID := "0b7e3c52-order" })).2.orders,
        o.ID = "0b7e3c52-order" →
        o.PaymentStatus = PaymentStatusPaid ∧ o.Status = OrderStatusConfirmed ∧
        o.PaymentIntentID = Scenario.intendedRow.PaymentIntentID) ∧
      (∀ (req2 : ConfirmPaymentRequest) (pi2 : PaymentIntent),
        req2.OrderID = "0b7e3c52-order" →
        Scenario.payEnvOther.getIntent req2.PaymentIntentID = .ok pi2 →
        pi2.Status = "succeeded" →
        ConfirmPayment Scenario.payEnvOther Scenario.intended (some "u1") (.ok req2) =
          ConfirmPayment Scenario.payEnvOther Scenario.intended (some "u1")
            (.ok { PaymentIntentID := "pi_other", OrderID := "0b7e3c52-order" }))) ∧
    Scenario.intended.orders.map (fun o => (o.ID, o.PaymentIntentID, o.PaymentStatus, o.Status, o.Total))
      = [("0b7e3c52-order", "pi_1", "pending", "pending", 31.59)] ∧
    (ConfirmPayment Scenario.payEnvOther Scenario.intended (some "u1")
        (.ok { PaymentIntentID := "pi_other", OrderID := "0b7e3c52-order" })).2.orders.map
        (fun o => (o.ID, o.PaymentIntentID, o.PaymentStatus, o.Status))
      = [("0b7e3c52-order", "pi_1", "paid", "confirmed")] :=
  ⟨confirmPayment_ignores_reference Scenario.payEnvOther Scenario.intended "u1"
      { PaymentIntentID := "pi_other", OrderID := "0b7e3c52-order" } Scenario.intendedRow
      { ID := "pi_other", ClientSecret := "pi_other_secret", Status := "succeeded",
        Amount := 100, Metadata := [("order_id", "another-order"), ("user_id", "u2")] }
      rfl rfl (by decide!) rfl rfl,
    by decide!, by decide!⟩

/-- C28: a ConfirmPayment that answers 200 stores the order as confirmed and paid whatever
its status was before (cancelled, shipped and delivered included), and changes neither the
product table (so no stock quantity) nor the order items; a cancelled order whose stock was
restored thus becomes confirmed with its quantities not reserved again. -/
theorem confirmPayment_any_status (env : PayEnv) (db : DB) (userID : Option String)
    (req : Except String ConfirmPaymentRequest)
    (h : (ConfirmPayment env db userID req).1.status = 200) :
    ∃ u r order, userID = some u ∧ req = .ok r ∧
      db.orders.find? (fun o => o.UserID = u ∧ o.ID = r.OrderID) = some order ∧
      (ConfirmPayment env db userID req).1.data =
        some { order with PaymentStatus := PaymentStatusPaid, Status := OrderStatusConfirmed } ∧
      (∀ o ∈ (ConfirmPayment env db userID req).2.orders, o.ID = r.OrderID →
        o.Status = OrderStatusConfirmed ∧ o.PaymentStatus = PaymentStatusPaid) ∧
      (ConfirmPayment env db userID req).2.products = db.products ∧
      (∀ pid, stockOf (ConfirmPayment env db userID req).2 pid = stockOf db pid) ∧
      (ConfirmPayment env db userID req).2.orderItems = db.orderItems := by
  obtain ⟨u, r, order, pi, hu, hr, hf, hfind, hget, hs, hsave, hrun⟩ :=
    ConfirmPayment_inv env db userID req h
  obtain ⟨hmem, _, hid⟩ := find_ownOrder db u r.OrderID order hfind
  obtain ⟨hprod, _, _, hitems⟩ := saveOrder_frame db order.paid
  refine ⟨u, r, order, hu, hr, hfind, by rw [hrun]; rfl, ?_, by rw [hrun]; exact hprod, ?_,
    by rw [hrun]; exact hitems⟩
  · intro o ho hoid
    rw [hrun] at ho
    have := (saveOrder_mem db order.paid ⟨order, hmem, rfl⟩ o ho).1 (hoid.trans hid.symm)
    rw [this]
    exact ⟨rfl, rfl⟩
  · intro pid
    rw [hrun]
    unfold stockOf
    rw [show (saveOrder db order.paid).products = db.products from hprod]

theorem confirmPayment_any_status_witness :
    ((ConfirmPayment Scenario.payEnv Scenario.cancelledOrder (some "u1")
        (.ok { PaymentIntentID := "pi_paid", OrderID := "0b7e3c52-order" })).1.status = 200 ∧
    ∃ u r order, some "u1" = some u ∧
      (Except.ok { PaymentIntentID := "pi_paid", OrderID := "0b7e3c52-order" } :
        Except String ConfirmPaymentRequest) = .ok r ∧
      Scenario.cancelledOrder.orders.find? (fun o => o.UserID = u ∧ o.ID = r.OrderID) = some order ∧
      (ConfirmPayment Scenario.payEnv Scenario.cancelledOrder (some "u1")
        (.ok { PaymentIntentID := "pi_paid", OrderID := "0b7e3c52-order" })).1.data =
        some { order with PaymentStatus := PaymentStatusPaid, Status := OrderStatusConfirmed } ∧
      (∀ o ∈ (ConfirmPayment Scenario.payEnv Scenario.cancelledOrder (some "u1")
          (.ok { PaymentIntentID := "pi_paid", OrderID := "0b7e3c52-order" })).2.orders,
        o.ID = r.OrderID →
        o.Status = OrderStatusConfirmed ∧ o.PaymentStatus = PaymentStatusPaid) ∧
      (ConfirmPayment Scenario.payEnv Scenario.cancelledOrder (some "u1")
        (.ok { PaymentIntentID := "pi_paid", OrderID := "0b7e3c52-order" })).2.products
        = Scenario.cancelledOrder.products ∧
      (∀ pid, stockOf (ConfirmPayment Scenario.payEnv Scenario.cancelledOrder (some "u1")
          (.ok { PaymentIntentID := "pi_paid", OrderID := "0b7e3c52-order" })).2 pid
        = stockOf Scenario.cancelledOrder pid) ∧
      (ConfirmPayment Scenario.payEnv Scenario.cancelledOrder (some "u1")
        (.ok { PaymentIntentID := "pi_paid", OrderID := "0b7e3c52-order" })).2.orderItems
        = Scenario.cancelledOrder.orderItems) ∧
    stockOf (Scenario.store 10 2 5) "p1" = some 5 ∧
    stockOf Scenario.ordered "p1" = some 3 ∧
    stockOf Scenario.cancelledOrder "p1" = some 5 ∧
    Scenario.cancelledOrder.orders.map (fun o => (o.ID, o.Status, o.PaymentStatus))
      = [("0b7e3c52-order", "cancelled", "pending")] ∧
    (ConfirmPayment Scenario.payEnv Scenario.cancelledOrder (some "u1")
        (.ok { PaymentIntentID := "pi_paid", OrderID := "0b7e3c52-order" })).2.orders.map
        (fun o => (o.ID, o.Status, o.PaymentStatus))
      = [("0b7e3c52-order", "confirmed", "paid")] ∧
    (ConfirmPayment Scenario.payEnv Scenario.cancelledOrder (some "u1")
        (.ok { PaymentIntentID := "pi_paid", OrderID := "0b7e3c52-order" })).2.orderItems.map
        (fun oi => (oi.OrderID, oi.ProductID, oi.Quantity))
      = [("0b7e3c52-order", "p1", 2)] ∧
    stockOf (ConfirmPayment Scenario.payEnv Scenario.cancelledOrder (some "u1")
        (.ok { PaymentIntentID := "pi_paid", OrderID := "0b7e3c52-order" })).2 "p1" = some 5 ∧
    (ConfirmPayment Scenario.payEnv (Scenario.orderedWith "shipped") (some "u1")
        (.ok { PaymentIntentID := "pi_paid", OrderID := "0b7e3c52-order" })).2.orders.map
        (fun o => o.Status) = ["confirmed"] ∧
    (ConfirmPayment Scenario.payEnv (Scenario.orderedWith "delivered") (some "u1")
        (.ok { PaymentIntentID := "pi_paid", OrderID := "0b7e3c52-order" })).2.orders.map
        (fun o => o.Status) = ["confirmed"] :=
  ⟨⟨by decide!, confirmPayment_any_status Scenario.payEnv Scenario.cancelledOrder (some "u1")
      (.ok { PaymentIntentID := "pi_paid", OrderID := "0b7e3c52-order" }) (by decide!)⟩,
    by decide!, by decide!, by decide!, by decide!, by decide!, by decide!, by decide!,
    by decide!, by decide!⟩

/-- C29 (code defect): after CreateOrder reserved 2 units (stock 5 to 3) and CancelOrder
restored them (stock 5), UpdateOrderStatus sets the cancelled order back to pending and a
second CancelOrder answers 200 and restores the 2 units again: the stock is 7, above its
level before the order, and 4 units were added back for 2 reserved. -/
theorem cancel_after_reopen_restores_twice :
    stockOf (Scenario.store 10 2 5) "p1" = some 5 ∧
    stockOf Scenario.ordered "p1" = some 3 ∧
    Scenario.ordered.orderItems.map (fun oi => (oi.ProductID, oi.Quantity)) = [("p1", 2)] ∧
    (CancelOrder Scenario.orderEnv Scenario.ordered (some "u1") false
      "0b7e3c52-order").1.status = 200 ∧
    stockOf Scenario.cancelledOrder "p1" = some 5 ∧
    (CancelOrder Scenario.orderEnv Scenario.cancelledOrder (some "u1") false
      "0b7e3c52-order").1.status = 400 ∧
    (UpdateOrderStatus Scenario.orderEnv Scenario.cancelledOrder "0b7e3c52-order"
      (.ok "pending")).1.status = 200 ∧
    Scenario.reopened.orders.map (fun o => (o.ID, o.Status)) = [("0b7e3c52-order", "pending")] ∧
    stockOf Scenario.reopened "p1" = some 5 ∧
    (CancelOrder Scenario.orderEnv Scenario.reopened (some "u1") false
      "0b7e3c52-order").1.status = 200 ∧
    stockOf (CancelOrder Scenario.orderEnv Scenario.reopened (some "u1") false
      "0b7e3c52-order").2 "p1" = some 7 := by
  refine ⟨by decide!, by decide!, by decide!, by decide!, by decide!, by decide!, by decide!,
    by decide!, by decide!, by decide!, by decide!⟩

/-! ## Lemmas on the order table -/

theorem OrdersUpdated.same (db db1 : DB) (h : db1.orders = db.orders) : OrdersUpdated db db1 :=
  ⟨id, by rw [h, List.map_id], fun _ _ => ⟨rfl, Or.inl rfl⟩⟩

theorem OrdersUpdated.fixed {db db1 : DB} (h : OrdersUpdated db db1) :
    db1.orders.map Order.fixed = db.orders.map Order.fixed := by
  obtain ⟨f, hmap, hf⟩ := h
  rw [hmap, List.map_map]
  apply List.map_congr_left
  intro o ho
  exact (hf o ho).1

theorem saveOrder_updated (db db0 : DB) (row order : Order) (horders : db0.orders = db.orders)
    (hkeys : (db.orders.map (fun o => o.ID)).Nodup) (hrow : row ∈ db.orders)
    (hfix : order.fixed = row.fixed)
    (hpay : order.PaymentStatus = row.PaymentStatus ∨ order.PaymentStatus = PaymentStatusPaid) :
    OrdersUpdated db (saveOrder db0 order) := by
  have hid : order.ID = row.ID := congrArg OrderData.ID hfix
  refine ⟨fun o => if o.ID = order.ID then order else o, ?_, ?_⟩
  · rw [saveOrder_orders db0 order ⟨row, by rw [horders]; exact hrow, hid.symm⟩, horders]
  · intro o ho
    by_cases h1 : o.ID = order.ID
    · have hor : o = row := List.inj_on_of_nodup_map hkeys ho hrow (h1.trans hid)
      show (if o.ID = order.ID then order else o).fixed = o.fixed ∧
        ((if o.ID = order.ID then order else o).PaymentStatus = o.PaymentStatus ∨
          (if o.ID = order.ID then order else o).PaymentStatus = PaymentStatusPaid)
      rw [if_pos h1, hor]
      exact ⟨hfix, hpay⟩
    · show (if o.ID = order.ID then order else o).fixed = o.fixed ∧
        ((if o.ID = order.ID then order else o).PaymentStatus = o.PaymentStatus ∨
          (if o.ID = order.ID then order else o).PaymentStatus = PaymentStatusPaid)
      rw [if_neg h1]
      exact ⟨rfl, Or.inl rfl⟩

theorem CancelOrder_store (env : OrderEnv) (db : DB) (userID : Option String) (isAdmin : Bool)
    (orderID : String) :
    (CancelOrder env db userID isAdmin orderID).2 = db ∨
    ∃ u row, userID = some u ∧
      db.orders.find? (fun o => (isAdmin ∨ o.UserID = u) ∧ o.ID = orderID) = some row ∧
      (CancelOrder env db userID isAdmin orderID).2 = cancelled db row := by
  cases userID with
  | none => left; rfl
  | some u =>
    cases hf : env.fetchOrderFails with
    | true => left; simp only [CancelOrder, hf, if_true]
    | false =>
      cases hfind : db.orders.find? (fun o => (isAdmin ∨ o.UserID = u) ∧ o.ID = orderID) with
      | none => left; simp only [CancelOrder, hf, hfind]; rfl
      | some row =>
        obtain ⟨⟨h1, h2⟩, h3⟩ := CancelOrder_found env db u isAdmin orderID row hf hfind
        by_cases hs : row.Status = OrderStatusShipped ∨ row.Status = OrderStatusDelivered
        · left; rw [h1 hs]
        · by_cases hc : row.Status = OrderStatusCancelled
          · left; rw [h2 hc]
          · rcases h3 hs hc with ⟨_, hrun⟩ | ⟨_, _, hdb⟩
            · right; exact ⟨u, row, rfl, hfind, by rw [hrun]⟩
            · left; exact hdb

theorem UpdateOrderStatus_store (env : OrderEnv) (db : DB) (orderID : String)
    (updateData : Except String String) :
    (UpdateOrderStatus env db orderID updateData).2 = db ∨
    ∃ s order, updateData = .ok s ∧ db.orders.find? (fun o => o.ID = orderID) = some order ∧
      (UpdateOrderStatus env db orderID updateData).2 = saveOrder db { order with Status := s } := by
  unfold UpdateOrderStatus
  cases updateData with
  | error e => left; rfl
  | ok s =>
    simp only
    split
    · left; rfl
    · split
      · left; rfl
      · split
        · left; rfl
        · rename_i order hfind
          split
          · left; rfl
          · right; exact ⟨s, order, rfl, hfind, rfl⟩

theorem CreatePaymentIntent_store (env : PayEnv) (db : DB) (userID : Option String)
    (req : Except String CreatePaymentIntentRequest) :
    (CreatePaymentIntent env db userID req).2.1 = db ∨
    ∃ u r order ref, userID = some u ∧ req = .ok r ∧
      db.orders.find? (fun o => o.UserID = u ∧ o.ID = r.OrderID) = some order ∧
      (CreatePaymentIntent env db userID req).2.1 =
        saveOrder db { order with PaymentIntentID := ref } := by
  cases userID with
  | none => left; rfl
  | some u =>
    cases req with
    | error e => left; rfl
    | ok r =>
      cases hf : env.fetchOrderFails with
      | true => left; simp only [CreatePaymentIntent, fetchOwnOrder, hf, if_true]
      | false =>
        cases hfind : db.orders.find? (fun o => o.UserID = u ∧ o.ID = r.OrderID) with
        | none => left; simp only [CreatePaymentIntent, fetchOwnOrder, hf, hfind]; rfl
        | some order =>
          simp only [CreatePaymentIntent, hf, fetchOwnOrder_ok db u r.OrderID order hfind]
          split
          · left; rfl
          · split
            · left; rfl
            · rename_i pi _
              split
              · left; rfl
              · right; exact ⟨u, r, order, pi.ID, rfl, rfl, hfind, rfl⟩

theorem ConfirmPayment_store (env : PayEnv) (db : DB) (userID : Option String)
    (req : Except String ConfirmPaymentRequest) :
    (ConfirmPayment env db userID req).2 = db ∨
    ∃ u r order, userID = some u ∧ req = .ok r ∧
      db.orders.find? (fun o => o.UserID = u ∧ o.ID = r.OrderID) = some order ∧
      (ConfirmPayment env db userID req).2 = saveOrder db order.paid := by
  cases userID with
  | none => left; rfl
  | some u =>
    cases req with
    | error e => left; rfl
    | ok r =>
      cases hf : env.fetchOrderFails with
      | true => left; simp only [ConfirmPayment, fetchOwnOrder, hf, if_true]
      | false =>
        cases hfind : db.orders.find? (fun o => o.UserID = u ∧ o.ID = r.OrderID) with
        | none => left; simp only [ConfirmPayment, fetchOwnOrder, hf, hfind]; rfl
        | some order =>
          cases hget : env.getIntent r.PaymentIntentID with
          | error e => left; rw [ConfirmPayment_failed env db u r order e hf hfind hget]
          | ok pi =>
            obtain ⟨h1, h2, h3⟩ := ConfirmPayment_found env db u r order pi hf hfind hget
            by_cases hs : pi.Status = "succeeded"
            · cases hsave : env.saveOrderFails with
              | true => left; rw [h3 hs hsave]
              | false => right; exact ⟨u, r, order, rfl, rfl, hfind, by rw [h2 hs hsave]⟩
            · left; rw [h1 hs]

theorem CancelOrder_updates (env : OrderEnv) (db : DB) (userID : Option String)
    (isAdmin : Bool) (orderID : String) (hkeys : (db.orders.map (fun o => o.ID)).Nodup) :
    OrdersUpdated db (CancelOrder env db userID isAdmin orderID).2 ∧
    (CancelOrder env db userID isAdmin orderID).2.orderItems = db.orderItems ∧
    (CancelOrder env db userID isAdmin orderID).2.carts = db.carts ∧
    (CancelOrder env db userID isAdmin orderID).2.cartItems = db.cartItems := by
  rcases CancelOrder_store env db userID isAdmin orderID with h | ⟨u, row, _, hfind, h⟩
  · rw [h]; exact ⟨OrdersUpdated.same db db rfl, rfl, rfl, rfl⟩
  · rw [h]
    obtain ⟨hcarts, hcitems, horders, hitems⟩ :=
      restoreResult_frame (preloadOrderItems db row.ID) db
    obtain ⟨_, hc2, hci2, hitems2⟩ :=
      saveOrder_frame (restoreResult (preloadOrderItems db row.ID) db)
        { row with Status := OrderStatusCancelled }
    refine ⟨?_, ?_, ?_, ?_⟩
    · exact saveOrder_updated db _ row _ horders hkeys (List.mem_of_find?_eq_some hfind) rfl
        (Or.inl rfl)
    · exact hitems2.trans hitems
    · exact hc2.trans hcarts
    · exact hci2.trans hcitems

theorem UpdateOrderStatus_updates (env : OrderEnv) (db : DB) (orderID : String)
    (updateData : Except String String) (hkeys : (db.orders.map (fun o => o.ID)).Nodup) :
    OrdersUpdated db (UpdateOrderStatus env db orderID updateData).2 ∧
    (UpdateOrderStatus env db orderID updateData).2.orderItems = db.orderItems ∧
    (UpdateOrderStatus env db orderID updateData).2.products = db.products ∧
    (UpdateOrderStatus env db orderID updateData).2.carts = db.carts ∧
    (UpdateOrderStatus env db orderID updateData).2.cartItems = db.cartItems := by
  rcases UpdateOrderStatus_store env db orderID updateData with h | ⟨s, order, _, hfind, h⟩
  · rw [h]; exact ⟨OrdersUpdated.same db db rfl, rfl, rfl, rfl, rfl⟩
  · rw [h]
    obtain ⟨hp, hc, hci, hitems⟩ := saveOrder_frame db { order with Status := s }
    exact ⟨saveOrder_updated db db order _ rfl hkeys (List.mem_of_find?_eq_some hfind) rfl
      (Or.inl rfl), hitems, hp, hc, hci⟩

theorem CreatePaymentIntent_updates (env : PayEnv) (db : DB) (userID : Option String)
    (req : Except String CreatePaymentIntentRequest)
    (hkeys : (db.orders.map (fun o => o.ID)).Nodup) :
    OrdersUpdated db (CreatePaymentIntent env db userID req).2.1 ∧
    (CreatePaymentIntent env db userID req).2.1.orderItems = db.orderItems ∧
    (CreatePaymentIntent env db userID req).2.1.products = db.products ∧
    (CreatePaymentIntent env db userID req).2.1.carts = db.carts ∧
    (CreatePaymentIntent env db userID req).2.1.cartItems = db.cartItems := by
  rcases CreatePaymentIntent_store env db userID req with h | ⟨u, r, order, ref, _, _, hfind, h⟩
  · rw [h]; exact ⟨OrdersUpdated.same db db rfl, rfl, rfl, rfl, rfl⟩
  · rw [h]
    obtain ⟨hp, hc, hci, hitems⟩ := saveOrder_frame db { order with PaymentIntentID := ref }
    exact ⟨saveOrder_updated db db order _ rfl hkeys (List.mem_of_find?_eq_some hfind) rfl
      (Or.inl rfl), hitems, hp, hc, hci⟩

theorem ConfirmPayment_updates (env : PayEnv) (db : DB) (userID : Option String)
    (req : Except String ConfirmPaymentRequest)
    (hkeys : (db.orders.map (fun o => o.ID)).Nodup) :
    OrdersUpdated db (ConfirmPayment env db userID req).2 ∧
    (ConfirmPayment env db userID req).2.orderItems = db.orderItems ∧
    (ConfirmPayment env db userID req).2.products = db.products ∧
    (ConfirmPayment env db userID req).2.carts = db.carts ∧
    (ConfirmPayment env db userID req).2.cartItems = db.cartItems := by
  rcases ConfirmPayment_store env db userID req with h | ⟨u, r, order, _, _, hfind, h⟩
  · rw [h]; exact ⟨OrdersUpdated.same db db rfl, rfl, rfl, rfl, rfl⟩
  · rw [h]
    obtain ⟨hp, hc, hci, hitems⟩ := saveOrder_frame db order.paid
    exact ⟨saveOrder_updated db db order _ rfl hkeys (List.mem_of_find?_eq_some hfind) rfl
      (Or.inr rfl), hitems, hp, hc, hci⟩

/-- C22: in a store whose order ids are unique (the primary key), CancelOrder,
UpdateOrderStatus, CreatePaymentIntent and ConfirmPayment, whether they succeed or fail,
leave the order table with the same rows in the same order, each with its id, owner, order
number, addresses, payment method, subtotal, tax, shipping and total unchanged, and leave the
order items unchanged. -/
theorem order_data_immutable (db : DB) (hkeys : (db.orders.map (fun o => o.ID)).Nodup) :
    (∀ (env : OrderEnv) (userID : Option String) (isAdmin : Bool) (orderID : String),
      (CancelOrder env db userID isAdmin orderID).2.orders.map Order.fixed
        = db.orders.map Order.fixed ∧
      (CancelOrder env db userID isAdmin orderID).2.orderItems = db.orderItems) ∧
    (∀ (env : OrderEnv) (orderID : String) (updateData : Except String String),
      (UpdateOrderStatus env db orderID updateData).2.orders.map Order.fixed
        = db.orders.map Order.fixed ∧
      (UpdateOrderStatus env db orderID updateData).2.orderItems = db.orderItems) ∧
    (∀ (env : PayEnv) (userID : Option String) (req : Except String CreatePaymentIntentRequest),
      (CreatePaymentIntent env db userID req).2.1.orders.map Order.fixed
        = db.orders.map Order.fixed ∧
      (CreatePaymentIntent env db userID req).2.1.orderItems = db.orderItems) ∧
    (∀ (env : PayEnv) (userID : Option String) (req : Except String ConfirmPaymentRequest),
      (ConfirmPayment env db userID req).2.orders.map Order.fixed
        = db.orders.map Order.fixed ∧
      (ConfirmPayment env db userID req).2.orderItems = db.orderItems) := by
  refine ⟨?_, ?_, ?_, ?_⟩
  · intro env userID isAdmin orderID
    obtain ⟨h1, h2, _⟩ := CancelOrder_updates env db userID isAdmin orderID hkeys
    exact ⟨h1.fixed, h2⟩
  · intro env orderID updateData
    obtain ⟨h1, h2, _⟩ := UpdateOrderStatus_updates env db orderID updateData hkeys
    exact ⟨h1.fixed, h2⟩
  · intro env userID req
    obtain ⟨h1, h2, _⟩ := CreatePaymentIntent_updates env db userID req hkeys
    exact ⟨h1.fixed, h2⟩
  · intro env userID req
    obtain ⟨h1, h2, _⟩ := ConfirmPayment_updates env db userID req hkeys
    exact ⟨h1.fixed, h2⟩

theorem order_data_immutable_witness :
    ((∀ (env : OrderEnv) (userID : Option String) (isAdmin : Bool) (orderID : String),
      (CancelOrder env Scenario.ordered userID isAdmin orderID).2.orders.map Order.fixed
        = Scenario.ordered.orders.map Order.fixed ∧
      (CancelOrder env Scenario.ordered userID isAdmin orderID).2.orderItems
        = Scenario.ordered.orderItems) ∧
    (∀ (env : OrderEnv) (orderID : String) (updateData : Except String String),
      (UpdateOrderStatus env Scenario.ordered orderID updateData).2.orders.map Order.fixed
        = Scenario.ordered.orders.map Order.fixed ∧
      (UpdateOrderStatus env Scenario.ordered orderID updateData).2.orderItems
        = Scenario.ordered.orderItems) ∧
    (∀ (env : PayEnv) (userID : Option String) (req : Except String CreatePaymentIntentRequest),
      (CreatePaymentIntent env Scenario.ordered userID req).2.1.orders.map Order.fixed
        = Scenario.ordered.orders.map Order.fixed ∧
      (CreatePaymentIntent env Scenario.ordered userID req).2.1.orderItems
        = Scenario.ordered.orderItems) ∧
    (∀ (env : PayEnv) (userID : Option String) (req : Except String ConfirmPaymentRequest),
      (ConfirmPayment env Scenario.ordered userID req).2.orders.map Order.fixed
        = Scenario.ordered.orders.map Order.fixed ∧
      (ConfirmPayment env Scenario.ordered userID req).2.orderItems
        = Scenario.ordered.orderItems)) ∧
    Scenario.ordered.orders.map Order.fixed =
      [{ ID := "0b7e3c52-order", UserID := "u1", OrderNumber := "BIZOE-20240131-4f9a1d2e",
         ShippingAddress := Scenario.addr, BillingAddress := Scenario.addr,
         PaymentMethod := "card", Subtotal := 20, Tax := 1.6, Shipping := 9.99,
         Total := 31.59 }] ∧
    Scenario.paid.orders.map Order.fixed = Scenario.ordered.orders.map Order.fixed ∧
    Scenario.paid.orders.map (fun o => (o.Status, o.PaymentStatus)) = [("confirmed", "paid")] ∧
    Scenario.cancelledOrder.orders.map Order.fixed = Scenario.ordered.orders.map Order.fixed ∧
    Scenario.cancelledOrder.orderItems = Scenario.ordered.orderItems :=
  ⟨order_data_immutable Scenario.ordered (by decide!), by decide!, by decide!, by decide!,
    by decide!, by decide!⟩

theorem CreateOrder_orders (env : Env) (db : DB) (userID : Option String)
    (req : Except String CreateOrderRequest) :
    (CreateOrder env db userID req).2 = db ∨
    ∃ u r c, env.createOrderFails = false ∧
      db.carts.find? (fun c => c.UserID = some u) = some c ∧
      (CreateOrder env db userID req).2 =
        committed env db u r { toCart := c, Items := preloadItems db c.ID } := by
  by_cases h : (CreateOrder env db userID req).1.status = 201
  · obtain ⟨u, r, c, _, _, _, hc, _, _, hok, hrun⟩ := CreateOrder_inv env db userID req h
    exact Or.inr ⟨u, r, c, hok.1, hc, hrun⟩
  · exact Or.inl (CreateOrder_unchanged env db userID req h)

theorem OrdersUpdated.ids {db db1 : DB} (h : OrdersUpdated db db1) :
    db1.orders.map (fun o => o.ID) = db.orders.map (fun o => o.ID) := by
  have := congrArg (List.map OrderData.ID) h.fixed
  simpa [List.map_map, Function.comp, Order.fixed] using this

theorem OrdersUpdated.keeps_invariant {db db1 : DB} (h : OrdersUpdated db db1)
    (hinv : PaymentInvariant db) : PaymentInvariant db1 := by
  refine ⟨by rw [h.ids]; exact hinv.1, ?_⟩
  obtain ⟨f, hmap, hf⟩ := h
  intro o ho
  rw [hmap] at ho
  obtain ⟨o0, ho0, rfl⟩ := List.mem_map.mp ho
  rcases (hf o0 ho0).2 with h1 | h1
  · rw [h1]; exact hinv.2 o0 ho0
  · exact Or.inr h1

theorem OrderOp.run_updates (db : DB) (op : OrderOp)
    (hkeys : (db.orders.map (fun o => o.ID)).Nodup) :
    OrdersUpdated db (op.run db) ∨
    ∃ env u r c, op.keyed db = ((∃ o ∈ db.orders, o.ID = env.orderUUID) →
        env.createOrderFails = true) ∧ env.createOrderFails = false ∧
      (op.run db).orders =
        db.orders ++ [newOrder env u r { toCart := c, Items := preloadItems db c.ID }] := by
  cases op with
  | create env userID req =>
    rcases CreateOrder_orders env db userID req with h | ⟨u, r, c, hok, _, h⟩
    · left; exact OrdersUpdated.same db _ (by show (CreateOrder env db userID req).2.orders = _; rw [h])
    · right
      refine ⟨env, u, r, c, rfl, hok, ?_⟩
      show (CreateOrder env db userID req).2.orders = _
      rw [h, committed_orders]
  | cancel env userID isAdmin orderID =>
    left; exact (CancelOrder_updates env db userID isAdmin orderID hkeys).1
  | updateStatus env orderID updateData =>
    left; exact (UpdateOrderStatus_updates env db orderID updateData hkeys).1
  | createIntent env userID req =>
    left; exact (CreatePaymentIntent_updates env db userID req hkeys).1
  | confirm env userID req =>
    left; exact (ConfirmPayment_updates env db userID req hkeys).1

theorem OrderReachable.payment_invariant {db : DB} (h : OrderReachable db) : PaymentInvariant db := by
  induction h with
  | init db horders => exact ⟨by simp [horders], by simp [horders]⟩
  | step db op _ hkey ih =>
    rcases OrderOp.run_updates db op ih.1 with hup | ⟨env, u, r, c, hk, hok, hrun⟩
    · exact hup.keeps_invariant ih
    · rw [hk] at hkey
      have hfresh : ∀ o ∈ db.orders, o.ID ≠ env.orderUUID := by
        intro o ho he
        have := hkey ⟨o, ho, he⟩
        rw [hok] at this
        exact Bool.noConfusion this
      obtain ⟨hid, _, _, hpay, _⟩ := newOrder_fields env u r
        { toCart := c, Items := preloadItems db c.ID }
      refine ⟨?_, ?_⟩
      · rw [hrun, List.map_append]
        refine List.Nodup.append ih.1 (List.nodup_singleton _) ?_
        intro k hk1 hk2
        obtain ⟨o, ho, rfl⟩ := List.mem_map.mp hk1
        have : o.ID = env.orderUUID := by
          simp only [List.map_cons, List.map_nil, List.mem_singleton] at hk2
          rw [hk2, hid]
        exact hfresh o ho this
      · intro o ho
        rw [hrun] at ho
        rcases List.mem_append.mp ho with h1 | h1
        · exact ih.2 o h1
        · left
          have : o = newOrder env u r { toCart := c, Items := preloadItems db c.ID } := by
            simpa using h1
          rw [this, hpay]

/-- C23: in every store reachable from one without orders through CreateOrder, CancelOrder,
UpdateOrderStatus, CreatePaymentIntent and ConfirmPayment, each of these operations leaves
the stored orders in place, each with a payment status that is unchanged or changed along
pending to paid, pending to failed or paid to refunded, and adds at most orders whose
payment status is pending; a paid order is not pending afterwards. -/
theorem paymentStatus_transitions (db : DB) (h : OrderReachable db) (op : OrderOp) :
    ∃ (f : Order → Order) (added : List Order),
      (op.run db).orders = db.orders.map f ++ added ∧
      (∀ o ∈ db.orders, (f o).ID = o.ID ∧
        paymentStep o.PaymentStatus (f o).PaymentStatus ∧
        (o.PaymentStatus = PaymentStatusPaid → (f o).PaymentStatus ≠ PaymentStatusPending)) ∧
      (∀ o ∈ added, o.PaymentStatus = PaymentStatusPending) := by
  have hinv := h.payment_invariant
  rcases OrderOp.run_updates db op hinv.1 with ⟨f, hmap, hf⟩ | ⟨env, u, r, c, _, _, hrun⟩
  · refine ⟨f, [], by rw [hmap, List.append_nil], ?_, by simp⟩
    intro o ho
    obtain ⟨hfix, hpay⟩ := hf o ho
    refine ⟨congrArg OrderData.ID hfix, ?_, ?_⟩
    · rcases hpay with h1 | h1
      · exact Or.inl h1.symm
      · rcases hinv.2 o ho with h2 | h2
        · exact Or.inr (Or.inl ⟨h2, h1⟩)
        · exact Or.inl (h2.trans h1.symm)
    · intro hpaid
      rcases hpay with h1 | h1
      · rw [h1, hpaid]; decide
      · rw [h1]; decide
  · refine ⟨id, [newOrder env u r { toCart := c, Items := preloadItems db c.ID }],
      by rw [hrun, List.map_id], ?_, ?_⟩
    · intro o _
      exact ⟨rfl, Or.inl rfl, fun hp => by rw [id, hp]; decide⟩
    · intro o ho
      have : o = newOrder env u r { toCart := c, Items := preloadItems db c.ID } := by
        simpa using ho
      rw [this]
      exact (newOrder_fields env u r _).2.2.2.1

theorem Scenario.ordered_reachable : OrderReachable Scenario.ordered :=
  OrderReachable.step (Scenario.store 10 2 5)
    (.create Scenario.env (some "u1") (.ok Scenario.req))
    (OrderReachable.init _ rfl)
    (fun ⟨_, ho, _⟩ => absurd ho (List.not_mem_nil _))

theorem paymentStatus_transitions_witness :
    OrderReachable Scenario.ordered ∧
    (∃ (f : Order → Order) (added : List Order),
      ((OrderOp.confirm Scenario.payEnv (some "u1")
          (.ok { PaymentIntentID := "pi_paid", OrderID := "0b7e3c52-order" })).run
          Scenario.ordered).orders = Scenario.ordered.orders.map f ++ added ∧
      (∀ o ∈ Scenario.ordered.orders, (f o).ID = o.ID ∧
        paymentStep o.PaymentStatus (f o).PaymentStatus ∧
        (o.PaymentStatus = PaymentStatusPaid → (f o).PaymentStatus ≠ PaymentStatusPending)) ∧
      (∀ o ∈ added, o.PaymentStatus = PaymentStatusPending)) ∧
    Scenario.ordered.orders.map (fun o => (o.ID, o.PaymentStatus))
      = [("0b7e3c52-order", "pending")] ∧
    ((OrderOp.confirm Scenario.payEnv (some "u1")
        (.ok { PaymentIntentID := "pi_paid", OrderID := "0b7e3c52-order" })).run
        Scenario.ordered).orders.map (fun o => (o.ID, o.PaymentStatus))
      = [("0b7e3c52-order", "paid")] ∧
    ((OrderOp.updateStatus Scenario.orderEnv "0b7e3c52-order" (.ok "pending")).run
        Scenario.paid).orders.map (fun o => (o.ID, o.Status, o.PaymentStatus))
      = [("0b7e3c52-order", "pending", "paid")] ∧
    ((OrderOp.cancel Scenario.orderEnv (some "u1") false "0b7e3c52-order").run
        Scenario.paid).orders.map (fun o => (o.ID, o.Status, o.PaymentStatus))
      = [("0b7e3c52-order", "cancelled", "paid")] :=
  ⟨Scenario.ordered_reachable,
    paymentStatus_transitions Scenario.ordered Scenario.ordered_reachable
      (.confirm Scenario.payEnv (some "u1")
        (.ok { PaymentIntentID := "pi_paid", OrderID := "0b7e3c52-order" })),
    by decide!, by decide!, by decide!, by decide!⟩

/-! ## Lemmas on the cart lines and on stock -/

theorem Preserves.refl (db : DB) : Preserves db db := ⟨rfl, rfl, rfl, fun _ h => h⟩

theorem Preserves.trans {db db1 db2 : DB} (h1 : Preserves db db1) (h2 : Preserves db1 db2) :
    Preserves db db2 :=
  ⟨h2.1.trans h1.1, h2.2.1.trans h1.2.1, h2.2.2.1.trans h1.2.2.1,
   fun hs h => h2.2.2.2 (by unfold StockBelow; rw [h1.1]; exact hs) (h1.2.2.2 hs h)⟩

theorem Preserves.of_items_sublist (db db1 : DB) (hp : db1.products = db.products)
    (ho : db1.orders = db.orders) (hoi : db1.orderItems = db.orderItems)
    (hsub : db1.cartItems.Sublist db.cartItems) : Preserves db db1 := by
  refine ⟨hp, ho, hoi, fun _ h => ⟨?_, ?_, ?_, ?_⟩⟩
  · exact List.Nodup.sublist (List.Sublist.map _ hsub) h.itemKeys
  · exact fun it hit => h.quantity it (hsub.subset hit)
  · exact List.Nodup.sublist (List.Sublist.map _ hsub) h.distinct
  · exact fun it hit => h.bounded it (hsub.subset hit)

theorem Preserves.of_cartItems (db db1 : DB) (hp : db1.products = db.products)
    (ho : db1.orders = db.orders) (hoi : db1.orderItems = db.orderItems)
    (hitems : db1.cartItems = db.cartItems) : Preserves db db1 :=
  Preserves.of_items_sublist db db1 hp ho hoi (by rw [hitems])

theorem createCart_preserves (fails : Bool) (db : DB) (cart : Cart) :
    Preserves db (createCart fails db cart) := by
  unfold createCart
  split
  · exact Preserves.refl db
  · exact Preserves.of_cartItems db _ rfl rfl rfl rfl

theorem saveCart_preserves (db : DB) (cart : Cart) : Preserves db (saveCart db cart) := by
  obtain ⟨_, _, _, hitems, hp, ho, hoi⟩ := saveCart_carts db cart
  exact Preserves.of_cartItems db _ hp ho hoi hitems

theorem cartUpdated_preserves (env : CartEnv) (db : DB) (cart : Cart) (message : String) :
    Preserves db (cartUpdated env db cart message).2 := by
  show Preserves db (updateCartTotals env db cart).2
  unfold updateCartTotals
  simp only
  split
  · exact Preserves.refl db
  · exact saveCart_preserves db _

theorem deleteCartItem_preserves (db : DB) (itemID : String) :
    Preserves db (deleteCartItem db itemID) :=
  Preserves.of_items_sublist db _ rfl rfl rfl (List.filter_sublist _)

theorem deleteCartItems_preserves (db : DB) (cartID : String) :
    Preserves db (deleteCartItems db cartID) :=
  Preserves.of_items_sublist db _ rfl rfl rfl (List.filter_sublist _)

theorem createCartItem_preserves (fails : Bool) (db : DB) (item : CartItem)
    (hq : 1 ≤ item.Quantity) (hb : StockBelow db → item.Quantity < 2 ^ 62)
    (hnew : db.cartItems.find?
      (fun it => it.CartID = item.CartID ∧ it.ProductID = item.ProductID) = none) :
    Preserves db (createCartItem fails db item) := by
  unfold createCartItem
  by_cases hc : (fails || db.cartItems.any (fun it => decide (it.ID = item.ID))) = true
  · simp only [hc, if_true]; exact Preserves.refl db
  · have hnot : ∀ it ∈ db.cartItems, it.ID ≠ item.ID := by
      intro it hit he
      apply hc
      simp only [Bool.or_eq_true, List.any_eq_true, decide_eq_true_eq]
      exact Or.inr ⟨it, hit, he⟩
    have hother : ∀ it ∈ db.cartItems,
        ¬ (it.CartID = item.CartID ∧ it.ProductID = item.ProductID) := by
      intro it hit
      have := List.find?_eq_none.mp hnew it hit
      simpa using this
    simp only [hc, if_false]
    refine ⟨rfl, rfl, rfl, fun hs h => ⟨?_, ?_, ?_, ?_⟩⟩
    · show ((db.cartItems ++ [item]).map (fun it => it.ID)).Nodup
      rw [List.map_append]
      refine List.Nodup.append h.itemKeys (List.nodup_singleton _) ?_
      intro k hk1 hk2
      obtain ⟨it, hit, rfl⟩ := List.mem_map.mp hk1
      have : it.ID = item.ID := by simpa using hk2
      exact hnot it hit this
    · intro it hit
      rcases List.mem_append.mp hit with h1 | h1
      · exact h.quantity it h1
      · have : it = item := by simpa using h1
        rw [this]; exact hq
    · show ((db.cartItems ++ [item]).map (fun it => (it.CartID, it.ProductID))).Nodup
      rw [List.map_append]
      refine List.Nodup.append h.distinct (List.nodup_singleton _) ?_
      intro k hk1 hk2
      obtain ⟨it, hit, rfl⟩ := List.mem_map.mp hk1
      have hpair : (it.CartID, it.ProductID) = (item.CartID, item.ProductID) := by
        simpa using hk2
      exact hother it hit ⟨congrArg Prod.fst hpair, congrArg Prod.snd hpair⟩
    · intro it hit
      rcases List.mem_append.mp hit with h1 | h1
      · exact h.bounded it h1
      · have : it = item := by simpa using h1
        rw [this]; exact hb hs

theorem saveCartItem_cartItems (db : DB) (e item : CartItem) (he : e ∈ db.cartItems)
    (hid : item.ID = e.ID) :
    (saveCartItem db item).cartItems =
      db.cartItems.map (fun it => if it.ID = e.ID then item else it) := by
  have hany : db.cartItems.any (fun it => decide (it.ID = item.ID)) = true :=
    List.any_eq_true.mpr ⟨e, he, by simp [hid]⟩
  simp only [saveCartItem, hany, if_true]
  rw [hid]

theorem saveCartItem_preserves (db : DB) (e item : CartItem) (he : e ∈ db.cartItems)
    (hid : item.ID = e.ID) (hcid : item.CartID = e.CartID) (hpid : item.ProductID = e.ProductID)
    (hq : StockBelow db → 1 ≤ e.Quantity → e.Quantity < 2 ^ 62 →
      1 ≤ item.Quantity ∧ item.Quantity < 2 ^ 62) :
    Preserves db (saveCartItem db item) := by
  have hitems := saveCartItem_cartItems db e item he hid
  have hrest : (saveCartItem db item).products = db.products ∧
      (saveCartItem db item).orders = db.orders ∧
      (saveCartItem db item).orderItems = db.orderItems := by
    unfold saveCartItem
    split <;> exact ⟨rfl, rfl, rfl⟩
  refine ⟨hrest.1, hrest.2.1, hrest.2.2, fun hs h => ?_⟩
  have hnew := hq hs (h.quantity e he) (h.bounded e he)
  have huniq : ∀ it ∈ db.cartItems, it.ID = e.ID → it = e := fun it hit hi =>
    List.inj_on_of_nodup_map h.itemKeys hit he hi
  refine ⟨?_, ?_, ?_, ?_⟩
  · rw [hitems, List.map_map]
    have : db.cartItems.map ((fun it => it.ID) ∘ fun it => if it.ID = e.ID then item else it)
        = db.cartItems.map (fun it => it.ID) := by
      apply List.map_congr_left
      intro it _
      by_cases hi : it.ID = e.ID <;> simp [hi, hid]
    rw [this]; exact h.itemKeys
  · intro it hit
    rw [hitems] at hit
    obtain ⟨it0, hit0, rfl⟩ := List.mem_map.mp hit
    by_cases hi : it0.ID = e.ID
    · rw [if_pos hi]; exact hnew.1
    · rw [if_neg hi]; exact h.quantity it0 hit0
  · rw [hitems, List.map_map]
    have : db.cartItems.map ((fun it => (it.CartID, it.ProductID)) ∘
          fun it => if it.ID = e.ID then item else it)
        = db.cartItems.map (fun it => (it.CartID, it.ProductID)) := by
      apply List.map_congr_left
      intro it hit
      by_cases hi : it.ID = e.ID
      · simp only [Function.comp, hi, if_true, hcid, hpid, huniq it hit hi]
      · simp [hi]
    rw [this]; exact h.distinct
  · intro it hit
    rw [hitems] at hit
    obtain ⟨it0, hit0, rfl⟩ := List.mem_map.mp hit
    by_cases hi : it0.ID = e.ID
    · rw [if_pos hi]; exact hnew.2
    · rw [if_neg hi]; exact h.bounded it0 hit0

theorem CartItem.BeforeCreate_fields (uuid : String) (ci : CartItem) :
    (CartItem.BeforeCreate uuid ci).CartID = ci.CartID ∧
    (CartItem.BeforeCreate uuid ci).ProductID = ci.ProductID ∧
    (CartItem.BeforeCreate uuid ci).Quantity = ci.Quantity := by
  unfold CartItem.BeforeCreate
  split <;> exact ⟨rfl, rfl, rfl⟩

theorem addLine_preserves (env : CartEnv) (db : DB) (cart : Cart) (r : AddToCartRequest)
    (product : Product) (hq : 1 ≤ r.Quantity) (hprod : product ∈ db.products)
    (hreq : r.Quantity ≤ product.StockQuantity) :
    Preserves db
      (match db.cartItems.find?
          (fun it : CartItem => it.CartID = cart.ID ∧ it.ProductID = r.ProductID) with
        | some existingItem =>
          if wrapInt64 (existingItem.Quantity + r.Quantity) > product.StockQuantity then
            (CartResponse.fail 400 "Insufficient stock"
              "Cannot add more items than available in stock", db)
          else
            cartUpdated env
              (if env.saveItemFails then db
                else saveCartItem db
                  { existingItem with
                    Quantity := wrapInt64 (existingItem.Quantity + r.Quantity) })
              cart "Item added to cart successfully"
        | none =>
          cartUpdated env
            (createCartItem env.createItemFails db
              (CartItem.BeforeCreate env.itemUUID
                { ID := "", CartID := cart.ID, ProductID := r.ProductID,
                  Quantity := r.Quantity, Price := product.Price }))
            cart "Item added to cart successfully").2 := by
  split
  · rename_i existing hex
    obtain ⟨hmem, _, _⟩ := find_cartItem db cart.ID r.ProductID existing hex
    split
    · exact Preserves.refl db
    · rename_i hfit
      refine Preserves.trans ?_ (cartUpdated_preserves env _ cart _)
      split
      · exact Preserves.refl db
      · refine saveCartItem_preserves db existing _ hmem rfl rfl rfl (fun hs h1 h2 => ?_)
        have hstk := hs product hprod
        have hw : wrapInt64 (existing.Quantity + r.Quantity) = existing.Quantity + r.Quantity :=
          wrapInt64_of_range _ (by omega) (by omega)
        rw [hw] at hfit
        show 1 ≤ wrapInt64 (existing.Quantity + r.Quantity) ∧
          wrapInt64 (existing.Quantity + r.Quantity) < 2 ^ 62
        rw [hw]
        constructor <;> omega
  · rename_i hnone
    refine Preserves.trans ?_ (cartUpdated_preserves env _ cart _)
    obtain ⟨h1, h2, h3⟩ := CartItem.BeforeCreate_fields env.itemUUID
      { ID := "", CartID := cart.ID, ProductID := r.ProductID,
        Quantity := r.Quantity, Price := product.Price }
    apply createCartItem_preserves
    · rw [h3]; exact hq
    · intro hs
      rw [h3]
      have hstk := hs product hprod
      show r.Quantity < 2 ^ 62
      omega
    · rw [h1, h2]; exact hnone

theorem AddToCart_preserves (env : CartEnv) (db : DB) (userID : Option String)
    (req : Except String AddToCartRequest) (hvalid : (CartOp.add userID req).valid) :
    Preserves db (AddToCart env db userID req).2 := by
  unfold AddToCart
  cases userID with
  | none => exact Preserves.refl db
  | some u =>
    cases req with
    | error e => exact Preserves.refl db
    | ok r =>
      have hq : 1 ≤ r.Quantity := hvalid
      simp only
      split
      · exact Preserves.refl db
      · split
        · exact Preserves.refl db
        · rename_i product hprod
          have hpmem : product ∈ db.products := List.mem_of_find?_eq_some hprod
          split
          · exact Preserves.refl db
          · rename_i hchk
            have hreq : r.Quantity ≤ product.StockQuantity := by
              simp only [Bool.or_eq_true, decide_eq_true_eq, not_or, not_lt] at hchk
              exact hchk.2
            split
            · exact Preserves.refl db
            · cases hcart : db.carts.find? (fun c => decide (c.UserID = some u)) with
              | some cart =>
                simp only
                split
                · exact Preserves.refl db
                · exact addLine_preserves env db cart r product hq hpmem hreq
              | none =>
                simp only
                have h1 := createCart_preserves env.createCartFails db
                  (Cart.BeforeCreate env.cartUUID
                    { ID := "", UserID := some u, TotalAmount := 0, TotalItems := 0 })
                split
                · exact h1
                · exact h1.trans (addLine_preserves env _ _ r product hq
                    (by rw [h1.1]; exact hpmem) hreq)

theorem UpdateCart_preserves (env : CartEnv) (db : DB) (userID : Option String)
    (req : Except String UpdateCartRequest) (hvalid : (CartOp.update userID req).valid) :
    Preserves db (UpdateCart env db userID req).2 := by
  unfold UpdateCart
  cases userID with
  | none => exact Preserves.refl db
  | some u =>
    cases req with
    | error e => exact Preserves.refl db
    | ok r =>
      have hq : 0 ≤ r.Quantity := hvalid
      simp only
      cases hf : findCartItem env db u r.ProductID with
      | error resp => exact Preserves.refl db
      | ok p =>
        obtain ⟨cart, item⟩ := p
        obtain ⟨hmem, _⟩ := findCartItem_ok env db u r.ProductID cart item hf
        simp only
        split
        · refine Preserves.trans ?_ (cartUpdated_preserves env _ cart _)
          split
          · exact Preserves.refl db
          · exact deleteCartItem_preserves db item.ID
        · rename_i hne
          split
          · exact Preserves.refl db
          · split
            · exact Preserves.refl db
            · rename_i product hprod
              have hpmem : product ∈ db.products := List.mem_of_find?_eq_some hprod
              split
              · exact Preserves.refl db
              · rename_i hchk
                have hreq : r.Quantity ≤ product.StockQuantity := by
                  simp only [Bool.or_eq_true, decide_eq_true_eq, not_or, not_lt] at hchk
                  exact hchk.2
                refine Preserves.trans ?_ (cartUpdated_preserves env _ cart _)
                split
                · exact Preserves.refl db
                · refine saveCartItem_preserves db item _ hmem rfl rfl rfl (fun hs _ _ => ?_)
                  have hstk := hs product hpmem
                  show 1 ≤ r.Quantity ∧ r.Quantity < 2 ^ 62
                  constructor <;> omega

theorem RemoveFromCart_preserves (env : CartEnv) (db : DB) (userID : Option String)
    (productID : String) : Preserves db (RemoveFromCart env db userID productID).2 := by
  unfold RemoveFromCart
  cases userID with
  | none => exact Preserves.refl db
  | some u =>
    simp only
    cases hf : findCartItem env db u productID with
    | error resp => exact Preserves.refl db
    | ok p =>
      obtain ⟨cart, item⟩ := p
      simp only
      split
      · exact Preserves.refl db
      · exact (deleteCartItem_preserves db item.ID).trans (cartUpdated_preserves env _ cart _)

theorem ClearCart_preserves (env : CartEnv) (db : DB) (userID : Option String) :
    Preserves db (ClearCart env db userID).2 := by
  unfold ClearCart
  cases userID with
  | none => exact Preserves.refl db
  | some u =>
    simp only
    split
    · exact Preserves.refl db
    · split
      · exact Preserves.refl db
      · rename_i cart _
        split
        · exact Preserves.refl db
        · refine (deleteCartItems_preserves db cart.ID).trans ?_
          split
          · exact Preserves.refl _
          · exact saveCart_preserves _ _

theorem CartOp.run_preserves (env : CartEnv) (db : DB) (op : CartOp) (hvalid : op.valid) :
    Preserves db (op.run env db).2 := by
  cases op with
  | add userID req => exact AddToCart_preserves env db userID req hvalid
  | update userID req => exact UpdateCart_preserves env db userID req hvalid
  | remove userID productID => exact RemoveFromCart_preserves env db userID productID
  | clear userID => exact ClearCart_preserves env db userID

theorem CartLinesReachable.lines_invariant {db : DB} (h : CartLinesReachable db) :
    StockBelow db → LinesInvariant db := by
  induction h with
  | init db hitems =>
    intro _
    exact ⟨by simp [hitems], by simp [hitems], by simp [hitems], by simp [hitems]⟩
  | step db env op _ hvalid ih =>
    intro hs
    have hp := CartOp.run_preserves env db op hvalid
    have hs0 : StockBelow db := by
      unfold StockBelow at hs ⊢
      rw [← hp.1]; exact hs
    exact hp.2.2.2 hs0 (ih hs0)

theorem cartUpdated_cartItems (env : CartEnv) (db : DB) (cart : Cart) (message : String) :
    (cartUpdated env db cart message).2.cartItems = db.cartItems := by
  show (updateCartTotals env db cart).2.cartItems = db.cartItems
  unfold updateCartTotals
  simp only
  split
  · rfl
  · exact (saveCart_carts db _).2.2.2.1

theorem LinesInvariant.products_nodup {db : DB} (h : LinesInvariant db) (cid : String) :
    ((cartLines db cid).map (fun it => it.ProductID)).Nodup := by
  have hsub : ((cartLines db cid).map (fun it => (it.CartID, it.ProductID))).Nodup :=
    List.Nodup.sublist (List.Sublist.map _ (List.filter_sublist _)) h.distinct
  have heq : (cartLines db cid).map (fun it => (it.CartID, it.ProductID)) =
      ((cartLines db cid).map (fun it => it.ProductID)).map (fun p => (cid, p)) := by
    rw [List.map_map]
    apply List.map_congr_left
    intro it hit
    have : it.CartID = cid := by
      have := (List.mem_filter.mp hit).2
      simpa using this
    simp [this]
  rw [heq] at hsub
  exact List.Nodup.of_map _ hsub

theorem AddToCart_merge (env : CartEnv) (db : DB) (u : String) (r : AddToCartRequest)
    (cart : Cart) (e : CartItem)
    (hcart : db.carts.find? (fun c => c.UserID = some u) = some cart)
    (hitem : db.cartItems.find? (fun it => it.CartID = cart.ID ∧ it.ProductID = r.ProductID)
      = some e)
    (h200 : (AddToCart env db (some u) (.ok r)).1.status = 200) :
    (∃ product ∈ db.products, r.Quantity ≤ product.StockQuantity ∧
      wrapInt64 (e.Quantity + r.Quantity) ≤ product.StockQuantity) ∧
    (AddToCart env db (some u) (.ok r)).2.cartItems =
      if env.saveItemFails then db.cartItems
      else db.cartItems.map
        (fun it =>
          if it.ID = e.ID then { e with Quantity := wrapInt64 (e.Quantity + r.Quantity) }
          else it) := by
  obtain ⟨hmem, _, _⟩ := find_cartItem db cart.ID r.ProductID e hitem
  unfold AddToCart at h200 ⊢
  simp only [hcart, hitem] at h200 ⊢
  split at h200
  · simp [CartResponse.fail] at h200
  · split at h200
    · simp [CartResponse.fail] at h200
    · split at h200
      · simp [CartResponse.fail] at h200
      · split at h200
        · simp [CartResponse.fail] at h200
        · split at h200
          · simp [CartResponse.fail] at h200
          · split at h200
            · simp [CartResponse.fail] at h200
            · rename_i hfp _ product hprod hstock hfc hfi hq
              simp only [hfp, hprod, hstock, hfc, hfi, hq, if_false, Bool.false_eq_true]
              constructor
              · refine ⟨product, List.mem_of_find?_eq_some hprod, ?_, ?_⟩
                · simp only [Bool.or_eq_true, decide_eq_true_eq, not_or, not_lt] at hstock
                  exact hstock.2
                · exact not_lt.mp hq
              · rw [cartUpdated_cartItems]
                split
                · rfl
                · exact saveCartItem_cartItems db e _ hmem rfl

/-- C24 (as stated) fails: the stock of p1 is 2^62 and user u1, whose cart is empty, twice
adds 2^62 units of p1.  Both requests pass validation and answer 200; the second merges into
the line of the first, and the `int` sum 2^62 + 2^62 wraps around to -2^63, which is not
above the stock and is stored as the line's quantity. -/
theorem cart_line_quantity_wraps :
    Scenario.bulk.cartItems = [] ∧
    CartLinesReachable Scenario.bulkTwice ∧
    (AddToCart Scenario.cartEnv Scenario.bulk (some "u1")
      (.ok { ProductID := "p1", Quantity := 2 ^ 62 })).1.status = 200 ∧
    (AddToCart Scenario.cartEnv Scenario.bulk (some "u1")
      (.ok { ProductID := "p1", Quantity := 2 ^ 62 })).2.cartItems.map
        (fun it => (it.ID, it.ProductID, it.Quantity)) = [("line-91ab", "p1", 2 ^ 62)] ∧
    (AddToCart Scenario.cartEnv
      (AddToCart Scenario.cartEnv Scenario.bulk (some "u1")
        (.ok { ProductID := "p1", Quantity := 2 ^ 62 })).2 (some "u1")
      (.ok { ProductID := "p1", Quantity := 2 ^ 62 })).1.status = 200 ∧
    Scenario.bulkTwice.cartItems.map (fun it => (it.ID, it.ProductID, it.Quantity))
      = [("line-91ab", "p1", -(2 ^ 63))] ∧
    ¬ ∀ it ∈ Scenario.bulkTwice.cartItems, 1 ≤ it.Quantity :=
  ⟨rfl,
   CartLinesReachable.step _ Scenario.cartEnv
    (.add (some "u1") (.ok { ProductID := "p1", Quantity := 2 ^ 62 }))
    (CartLinesReachable.step Scenario.bulk Scenario.cartEnv
      (.add (some "u1") (.ok { ProductID := "p1", Quantity := 2 ^ 62 }))
      (CartLinesReachable.init _ rfl) (by show (1 : Int) ≤ 2 ^ 62; decide))
    (by show (1 : Int) ≤ 2 ^ 62; decide),
   by decide!, by decide!, by decide!, by decide!, by decide!⟩

/-- C24 (amended): in every store in which no stock quantity reaches 2^62 and which is
reachable from one without cart lines through AddToCart, UpdateCart, RemoveFromCart and
ClearCart with quantities the binding tags admit, every line has a quantity of at least 1
and no two lines of a cart are for the same product; an AddToCart of at least one unit that
answers 200 for a product the cart already has a line for adds and removes no line, and
(when its store write succeeds) only raises that line's quantity by the requested one. -/
theorem cart_lines_invariant (db : DB) (h : CartLinesReachable db)
    (hstock : ∀ p ∈ db.products, p.StockQuantity < 2 ^ 62) :
    (∀ it ∈ db.cartItems, 1 ≤ it.Quantity) ∧
    (∀ cid, ((cartLines db cid).map (fun it => it.ProductID)).Nodup) ∧
    (∀ (env : CartEnv) (u : String) (r : AddToCartRequest) (cart : Cart) (e : CartItem),
      1 ≤ r.Quantity →
      db.carts.find? (fun c => c.UserID = some u) = some cart →
      db.cartItems.find? (fun it => it.CartID = cart.ID ∧ it.ProductID = r.ProductID) = some e →
      (AddToCart env db (some u) (.ok r)).1.status = 200 →
      (AddToCart env db (some u) (.ok r)).2.cartItems.map
          (fun it => (it.ID, it.CartID, it.ProductID)) =
        db.cartItems.map (fun it => (it.ID, it.CartID, it.ProductID)) ∧
      (env.saveItemFails = false →
        (AddToCart env db (some u) (.ok r)).2.cartItems =
          db.cartItems.map (fun it =>
            if it.ID = e.ID then { e with Quantity := e.Quantity + r.Quantity } else it))) := by
  have hinv := h.lines_invariant hstock
  refine ⟨hinv.quantity, hinv.products_nodup, ?_⟩
  intro env u r cart e hr hcart hitem h200
  obtain ⟨⟨product, hprod, hreq, _⟩, hrun⟩ := AddToCart_merge env db u r cart e hcart hitem h200
  obtain ⟨hmem, _, _⟩ := find_cartItem db cart.ID r.ProductID e hitem
  have hstk := hstock product hprod
  have he1 := hinv.quantity e hmem
  have he2 := hinv.bounded e hmem
  have hw : wrapInt64 (e.Quantity + r.Quantity) = e.Quantity + r.Quantity :=
    wrapInt64_of_range _ (by omega) (by omega)
  rw [hw] at hrun
  constructor
  · rw [hrun]
    split
    · rfl
    · rw [List.map_map]
      apply List.map_congr_left
      intro it hit
      by_cases hi : it.ID = e.ID
      · have : it = e := List.inj_on_of_nodup_map hinv.itemKeys hit hmem hi
        simp [hi, this]
      · simp [hi]
  · intro hsave
    rw [hrun, hsave]
    rfl

theorem Scenario.afterAdds_reachable : CartLinesReachable Scenario.afterAdds :=
  CartLinesReachable.step _ Scenario.cartEnv2
    (.add (some "u1") (.ok { ProductID := "p2", Quantity := 1 }))
    (CartLinesReachable.step Scenario.catalog Scenario.cartEnv
      (.add (some "u1") (.ok { ProductID := "p1", Quantity := 2 }))
      (CartLinesReachable.init _ rfl) (by show (1 : Int) ≤ 2; decide))
    (by show (1 : Int) ≤ 1; decide)

theorem cart_lines_invariant_witness :
    CartLinesReachable Scenario.afterAdds ∧
    (∀ p ∈ Scenario.afterAdds.products, p.StockQuantity < 2 ^ 62) ∧
    ((∀ it ∈ Scenario.afterAdds.cartItems, 1 ≤ it.Quantity) ∧
    (∀ cid, ((cartLines Scenario.afterAdds cid).map (fun it => it.ProductID)).Nodup) ∧
    (∀ (env : CartEnv) (u : String) (r : AddToCartRequest) (cart : Cart) (e : CartItem),
      1 ≤ r.Quantity →
      Scenario.afterAdds.carts.find? (fun c => c.UserID = some u) = some cart →
      Scenario.afterAdds.cartItems.find?
        (fun it => it.CartID = cart.ID ∧ it.ProductID = r.ProductID) = some e →
      (AddToCart env Scenario.afterAdds (some u) (.ok r)).1.status = 200 →
      (AddToCart env Scenario.afterAdds (some u) (.ok r)).2.cartItems.map
          (fun it => (it.ID, it.CartID, it.ProductID)) =
        Scenario.afterAdds.cartItems.map (fun it => (it.ID, it.CartID, it.ProductID)) ∧
      (env.saveItemFails = false →
        (AddToCart env Scenario.afterAdds (some u) (.ok r)).2.cartItems =
          Scenario.afterAdds.cartItems.map (fun it =>
            if it.ID = e.ID then { e with Quantity := e.Quantity + r.Quantity } else it)))) ∧
    Scenario.afterAdds.cartItems.map (fun it => (it.ID, it.ProductID, it.Quantity))
      = [("line-91ab", "p1", 2), ("line-c3d4", "p2", 1)] ∧
    (AddToCart Scenario.cartEnv Scenario.afterAdds (some "u1")
      (.ok { ProductID := "p1", Quantity := 3 })).1.status = 200 ∧
    (AddToCart Scenario.cartEnv Scenario.afterAdds (some "u1")
      (.ok { ProductID := "p1", Quantity := 3 })).2.cartItems.map
        (fun it => (it.ID, it.ProductID, it.Quantity))
      = [("line-91ab", "p1", 5), ("line-c3d4", "p2", 1)] ∧
    (UpdateCart Scenario.cartEnv Scenario.afterAdds (some "u1")
      (.ok { ProductID := "p1", Quantity := 0 })).2.cartItems.map
        (fun it => (it.ID, it.ProductID, it.Quantity))
      = [("line-c3d4", "p2", 1)] :=
  ⟨Scenario.afterAdds_reachable, by decide!,
    cart_lines_invariant Scenario.afterAdds Scenario.afterAdds_reachable (by decide!),
    by decide!, by decide!, by decide!, by decide!⟩

theorem LinesInvariant.of_perm {db db1 : DB} (h : LinesInvariant db)
    (hperm : db1.cartItems.Perm db.cartItems) : LinesInvariant db1 :=
  ⟨(hperm.map _).nodup_iff.mpr h.itemKeys,
   fun it hit => h.quantity it (hperm.subset hit),
   (hperm.map _).nodup_iff.mpr h.distinct,
   fun it hit => h.bounded it (hperm.subset hit)⟩

/-- With unique cart item keys, the cart item table a successful `CreateOrder` commits
holds the rows it held before, in another order. -/
theorem committed_cartItems_perm (env : Env) (db : DB) (u : String) (r : CreateOrderRequest)
    (c : Cart) (hnd : (db.cartItems.map (fun it => it.ID)).Nodup) :
    (committed env db u r { toCart := c, Items := preloadItems db c.ID }).cartItems.Perm
      db.cartItems := by
  rw [committed_cartItems_of_nodup env db u r c hnd]
  have hfun : (fun it : CartItem => decide (¬ it.CartID = c.ID)) =
      (fun it => !decide (it.CartID = c.ID)) := by
    funext it; simp
  unfold cartLines
  rw [hfun]
  exact List.perm_append_comm.trans (List.filter_append_perm _ _)

theorem StockInvariant.of_frame {db db1 : DB} (h : StockInvariant db)
    (hp : db1.products = db.products) (hci : db1.cartItems = db.cartItems)
    (hoi : db1.orderItems = db.orderItems) : StockInvariant db1 :=
  ⟨by rw [hp]; exact h.productKeys, by rw [hp]; exact h.stock,
   h.lines.of_perm (by rw [hci]), by rw [hoi]; exact h.ordered⟩

theorem restored_nonneg (items : List LoadedOrderItem) (pid : String)
    (h : ∀ oi ∈ items, 0 ≤ oi.Quantity) : 0 ≤ restored items pid := by
  unfold restored
  apply List.sum_nonneg
  intro q hq
  obtain ⟨oi, hoi, rfl⟩ := List.mem_map.mp hq
  exact h oi (List.mem_filter.mp hoi).1

theorem preloadOrderItems_quantity (db : DB) (orderID : String)
    (h : ∀ oi ∈ db.orderItems, 0 ≤ oi.Quantity) :
    ∀ oi ∈ preloadOrderItems db orderID, 0 ≤ oi.Quantity := by
  intro oi hoi
  unfold preloadOrderItems at hoi
  obtain ⟨row, hrow, rfl⟩ := List.mem_map.mp hoi
  exact h row (List.mem_filter.mp hrow).1

theorem stock_map_invariant (db db1 : DB) (f : Product → Product) (h : StockInvariant db)
    (hp : db1.products = db.products.map f) (hid : ∀ p, (f p).ID = p.ID)
    (hnn : ∀ p ∈ db.products, 0 ≤ (f p).StockQuantity)
    (hperm : db1.cartItems.Perm db.cartItems)
    (hoi : ∀ oi ∈ db1.orderItems, 0 ≤ oi.Quantity) : StockInvariant db1 := by
  refine ⟨?_, ?_, h.lines.of_perm hperm, hoi⟩
  · rw [hp, List.map_map]
    have : db.products.map ((fun p => p.ID) ∘ f) = db.products.map (fun p => p.ID) :=
      List.map_congr_left (fun p _ => hid p)
    rw [this]
    exact h.productKeys
  · intro p hmem
    rw [hp] at hmem
    obtain ⟨p0, hp0, rfl⟩ := List.mem_map.mp hmem
    exact hnn p0 hp0

theorem CancelOrder_stock (env : OrderEnv) (db : DB) (userID : Option String)
    (isAdmin : Bool) (orderID : String) (h : StockInvariant db) :
    StockInvariant (CancelOrder env db userID isAdmin orderID).2 := by
  rcases CancelOrder_store env db userID isAdmin orderID with hrun | ⟨u, row, _, _, hrun⟩
  · rw [hrun]; exact h
  · rw [hrun]
    obtain ⟨_, hcitems, _, hitems⟩ := restoreResult_frame (preloadOrderItems db row.ID) db
    obtain ⟨hp2, _, hci2, hoi2⟩ :=
      saveOrder_frame (restoreResult (preloadOrderItems db row.ID) db)
        { row with Status := OrderStatusCancelled }
    apply stock_map_invariant db _ (fun p =>
      { p with StockQuantity := p.StockQuantity + restored (preloadOrderItems db row.ID) p.ID }) h
    · show (saveOrder _ _).products = _
      rw [hp2, restoreResult_products]
    · intro p; rfl
    · intro p hp
      show 0 ≤ p.StockQuantity + restored (preloadOrderItems db row.ID) p.ID
      have := restored_nonneg (preloadOrderItems db row.ID) p.ID
        (preloadOrderItems_quantity db row.ID h.ordered)
      have := h.stock p hp
      omega
    · show (saveOrder _ _).cartItems.Perm _
      rw [hci2, hcitems]
    · show ∀ oi ∈ (saveOrder _ _).orderItems, _
      rw [hoi2, hitems]; exact h.ordered

theorem preloadItems_mem (db : DB) (cid : String) (it : LoadedCartItem)
    (hit : it ∈ preloadItems db cid) : it.toCartItem ∈ db.cartItems := by
  unfold preloadItems at hit
  obtain ⟨row, hrow, rfl⟩ := List.mem_map.mp hit
  exact (List.mem_filter.mp hrow).1

theorem preloadItems_nodup (db : DB) (cid : String) (h : LinesInvariant db) :
    ((preloadItems db cid).map (fun it => it.ProductID)).Nodup := by
  have := h.products_nodup cid
  rw [← preloadItems_rows, List.map_map] at this
  exact this

theorem requested_le_stock (db : DB) (cid : String) (h : StockInvariant db)
    (hstock : ∀ it ∈ preloadItems db cid, ¬ short it) :
    ∀ p ∈ db.products, requested (preloadItems db cid) p.ID ≤ p.StockQuantity := by
  intro p hp
  have hids : ∀ it ∈ preloadItems db cid, it.Product.ID = it.ProductID :=
    fun it hit => (preloadItems_product db cid it hit (hstock it hit)).1
  rw [requested_eq_lineQuantity _ _ hids]
  by_cases hex : ∃ it ∈ preloadItems db cid, it.ProductID = p.ID
  · obtain ⟨it, hit, hpid⟩ := hex
    obtain ⟨hid, hfind, _⟩ := preloadItems_product db cid it hit (hstock it hit)
    have hmem : it.Product ∈ db.products := List.mem_of_find?_eq_some hfind
    have hsame : it.Product = p :=
      List.inj_on_of_nodup_map h.productKeys hmem hp (hid.trans hpid)
    have hq := lineQuantity_of_nodup _ (preloadItems_nodup db cid h.lines) it hit
    rw [← hpid, hq]
    have hns := hstock it hit
    unfold short at hns
    rw [hsame] at hns
    omega
  · have hzero := lineQuantity_of_not_mem (preloadItems db cid) p.ID
      (fun it hit he => hex ⟨it, hit, he⟩)
    rw [hzero]
    exact h.stock p hp

theorem orderItemsFrom_quantity (env : Env) (orderID : String) (items : List LoadedCartItem)
    (i : Nat) : ∀ oi ∈ orderItemsFrom env orderID items i, ∃ it ∈ items, oi.Quantity = it.Quantity := by
  intro oi hoi
  have hmem : (oi.OrderID, oi.ProductID, oi.Quantity, oi.Price, oi.Total) ∈
      (orderItemsFrom env orderID items i).map
        (fun oi => (oi.OrderID, oi.ProductID, oi.Quantity, oi.Price, oi.Total)) :=
    List.mem_map.mpr ⟨oi, hoi, rfl⟩
  rw [orderItemsFrom_fields] at hmem
  obtain ⟨it, hit, heq⟩ := List.mem_map.mp hmem
  refine ⟨it, hit, ?_⟩
  have := congrArg (fun t => t.2.2.1) heq
  exact this.symm

theorem CreateOrder_stock (env : Env) (db : DB) (userID : Option String)
    (req : Except String CreateOrderRequest) (h : StockInvariant db) :
    StockInvariant (CreateOrder env db userID req).2 := by
  by_cases h201 : (CreateOrder env db userID req).1.status = 201
  · obtain ⟨u, r, c, _, _, _, _, _, hstock, _, hrun⟩ := CreateOrder_inv env db userID req h201
    rw [hrun]
    apply stock_map_invariant db _ (fun p =>
      { p with StockQuantity := p.StockQuantity - requested (preloadItems db c.ID) p.ID }) h
    · exact committed_products env db u r _
    · intro p; rfl
    · intro p hp
      show 0 ≤ p.StockQuantity - requested (preloadItems db c.ID) p.ID
      have := requested_le_stock db c.ID h hstock p hp
      omega
    · exact committed_cartItems_perm env db u r c h.lines.itemKeys
    · rw [committed_orderItems]
      intro oi hoi
      rcases List.mem_append.mp hoi with h1 | h1
      · exact h.ordered oi h1
      · obtain ⟨it, hit, hq⟩ := orderItemsFrom_quantity env _ _ 0 oi h1
        have := h.lines.quantity it.toCartItem (preloadItems_mem db c.ID it hit)
        rw [hq]
        omega
  · rw [CreateOrder_unchanged env db userID req h201]
    exact h

theorem UpdateOrderStatus_stock (env : OrderEnv) (db : DB) (orderID : String)
    (updateData : Except String String) (h : StockInvariant db) :
    StockInvariant (UpdateOrderStatus env db orderID updateData).2 := by
  rcases UpdateOrderStatus_store env db orderID updateData with hrun | ⟨s, order, _, _, hrun⟩
  · rw [hrun]; exact h
  · rw [hrun]
    obtain ⟨hp, _, hci, hoi⟩ := saveOrder_frame db { order with Status := s }
    exact h.of_frame hp hci hoi

theorem CreatePaymentIntent_stock (env : PayEnv) (db : DB) (userID : Option String)
    (req : Except String CreatePaymentIntentRequest) (h : StockInvariant db) :
    StockInvariant (CreatePaymentIntent env db userID req).2.1 := by
  rcases CreatePaymentIntent_store env db userID req with hrun | ⟨u, r, order, ref, _, _, _, hrun⟩
  · rw [hrun]; exact h
  · rw [hrun]
    obtain ⟨hp, _, hci, hoi⟩ := saveOrder_frame db { order with PaymentIntentID := ref }
    exact h.of_frame hp hci hoi

theorem ConfirmPayment_stock (env : PayEnv) (db : DB) (userID : Option String)
    (req : Except String ConfirmPaymentRequest) (h : StockInvariant db) :
    StockInvariant (ConfirmPayment env db userID req).2 := by
  rcases ConfirmPayment_store env db userID req with hrun | ⟨u, r, order, _, _, _, hrun⟩
  · rw [hrun]; exact h
  · rw [hrun]
    obtain ⟨hp, _, hci, hoi⟩ := saveOrder_frame db order.paid
    exact h.of_frame hp hci hoi

theorem StoreOp.run_stock (db : DB) (op : StoreOp) (hvalid : op.valid) (hs : StockBelow db)
    (h : StockInvariant db) : StockInvariant (op.run db) := by
  cases op with
  | cart env op =>
    obtain ⟨hp, _, hoi, hlines⟩ := CartOp.run_preserves env db op hvalid
    exact ⟨by show ((op.run env db).2.products.map _).Nodup; rw [hp]; exact h.productKeys,
      by show ∀ p ∈ (op.run env db).2.products, _; rw [hp]; exact h.stock,
      hlines hs h.lines,
      by show ∀ oi ∈ (op.run env db).2.orderItems, _; rw [hoi]; exact h.ordered⟩
  | order op =>
    cases op with
    | create env userID req => exact CreateOrder_stock env db userID req h
    | cancel env userID isAdmin orderID => exact CancelOrder_stock env db userID isAdmin orderID h
    | updateStatus env orderID updateData =>
      exact UpdateOrderStatus_stock env db orderID updateData h
    | createIntent env userID req => exact CreatePaymentIntent_stock env db userID req h
    | confirm env userID req => exact ConfirmPayment_stock env db userID req h

theorem runAll_stock (ops : List StoreOp) :
    ∀ db : DB, (∀ op ∈ ops, op.valid) → (∀ k, StockBelow (runAll (ops.take k) db)) →
      StockInvariant db → StockInvariant (runAll ops db) := by
  induction ops with
  | nil => intro db _ _ h; exact h
  | cons op rest ih =>
    intro db hvalid hbelow h
    show StockInvariant (runAll rest (op.run db))
    exact ih (op.run db) (fun o ho => hvalid o (List.mem_cons_of_mem _ ho))
      (fun k => hbelow (k + 1))
      (StoreOp.run_stock db op (hvalid op (List.mem_cons_self _ _)) (hbelow 0) h)

theorem Scenario.overdraw_valid : ∀ op ∈ Scenario.overdraw, op.valid := by
  intro op hop
  simp only [Scenario.overdraw, List.mem_cons, List.mem_singleton, List.not_mem_nil,
    or_false] at hop
  rcases hop with rfl | rfl | rfl | rfl | rfl | rfl | rfl | rfl
  · show (1 : Int) ≤ 3 * 2 ^ 61; decide
  · show (1 : Int) ≤ 3 * 2 ^ 61; decide
  · show (1 : Int) ≤ 2 ^ 61 + 1; decide
  · trivial
  · trivial
  · show (1 : Int) ≤ 2 ^ 63 - 1; decide
  · trivial
  · trivial

/-- C26 (as stated) fails: the store `Scenario.warehouse` has one product with a stock of
3 * 2^61, no cart and no order.  In the eight requests of `Scenario.overdraw`, all valid and
served one after the other, the second AddToCart of user u1 wraps the line's quantity around
to -2^62; the order of user u2 lowers the stock to 2^62 - 1; the order of user u1 passes the
stock check, stores an item of quantity -2^62 and raises the stock to 2^63 - 1; the order
of user u3 takes the stock to 0; and the cancellation of u1's order "restores" -2^62 units,
leaving a stock of -2^62. -/
theorem stock_negative_after_overdraw :
    (∀ p ∈ Scenario.warehouse.products, 0 ≤ p.StockQuantity) ∧
    Scenario.warehouse.cartItems = [] ∧
    Scenario.warehouse.orders = [] ∧
    Scenario.warehouse.orderItems = [] ∧
    (∀ op ∈ Scenario.overdraw, op.valid) ∧
    (List.range 9).map
        (fun k => stockOf (runAll (Scenario.overdraw.take k) Scenario.warehouse) "p1") =
      [some (3 * 2 ^ 61), some (3 * 2 ^ 61), some (3 * 2 ^ 61), some (3 * 2 ^ 61),
       some (2 ^ 62 - 1), some (2 ^ 63 - 1), some (2 ^ 63 - 1), some 0, some (-(2 ^ 62))] ∧
    (runAll (Scenario.overdraw.take 2) Scenario.warehouse).cartItems.map
        (fun it => (it.ProductID, it.Quantity)) = [("p1", -(2 ^ 62))] ∧
    (runAll (Scenario.overdraw.take 5) Scenario.warehouse).orderItems.map
        (fun oi => (oi.OrderID, oi.ProductID, oi.Quantity)) =
      [("7c1d9e04-order", "p1", 2 ^ 61 + 1), ("0b7e3c52-order", "p1", -(2 ^ 62))] ∧
    (runAll Scenario.overdraw Scenario.warehouse).orders.map (fun o => (o.ID, o.UserID, o.Status)) =
      [("7c1d9e04-order", "u2", OrderStatusPending),
       ("0b7e3c52-order", "u1", OrderStatusCancelled),
       ("d2e8a1b6-order", "u3", OrderStatusPending)] ∧
    ¬ ∀ p ∈ (runAll Scenario.overdraw Scenario.warehouse).products, 0 ≤ p.StockQuantity :=
  ⟨by decide!, rfl, rfl, rfl, Scenario.overdraw_valid, by decide!, by decide!, by decide!,
    by decide!, by decide!⟩

/-- C26 (amended): starting from a store with unique product keys in which no stock quantity
is negative, the cart lines are well formed (unique keys, quantities of at least 1 and below
2^62, no two lines of a cart for one product) and no order item has a negative quantity,
every sequence of AddToCart, UpdateCart, RemoveFromCart, ClearCart, CreateOrder, CancelOrder,
UpdateOrderStatus, CreatePaymentIntent and ConfirmPayment requests served one after the
other, with cart quantities the binding tags admit, during which no stock quantity reaches
2^62, leaves every stock quantity at 0 or more. -/
theorem sequential_stock_safety (db : DB) (ops : List StoreOp)
    (hkeys : (db.products.map (fun p => p.ID)).Nodup)
    (hstock : ∀ p ∈ db.products, 0 ≤ p.StockQuantity)
    (hcart : LinesInvariant db)
    (hitems : ∀ oi ∈ db.orderItems, 0 ≤ oi.Quantity)
    (hvalid : ∀ op ∈ ops, op.valid)
    (hbelow : ∀ k, ∀ p ∈ (runAll (ops.take k) db).products, p.StockQuantity < 2 ^ 62) :
    (∀ p ∈ (runAll ops db).products, 0 ≤ p.StockQuantity) ∧
    (∀ pid s, stockOf (runAll ops db) pid = some s → 0 ≤ s) := by
  have hinv := runAll_stock ops db hvalid hbelow ⟨hkeys, hstock, hcart, hitems⟩
  refine ⟨hinv.stock, ?_⟩
  intro pid s hs
  unfold stockOf at hs
  cases hfind : (runAll ops db).products.find? (fun p => decide (p.ID = pid)) with
  | none => rw [hfind] at hs; cases hs
  | some p =>
    rw [hfind] at hs
    have : p.StockQuantity = s := by simpa using hs
    rw [← this]
    exact hinv.stock p (List.mem_of_find?_eq_some hfind)

theorem sequential_stock_safety_witness :
    ((∀ p ∈ (runAll Scenario.roundTrip (Scenario.store 10 2 5)).products, 0 ≤ p.StockQuantity) ∧
     (∀ pid s, stockOf (runAll Scenario.roundTrip (Scenario.store 10 2 5)) pid = some s →
        0 ≤ s)) ∧
    (List.range 4).map
        (fun k => stockOf (runAll (Scenario.roundTrip.take k) (Scenario.store 10 2 5)) "p1") =
      [some 5, some 5, some 2, some 5] ∧
    (CreateOrder Scenario.env2
        (runAll [.order (.create Scenario.env (some "u1") (.ok Scenario.req))]
          (Scenario.contended 1 1 1)) (some "u2") (.ok Scenario.req)).1.status = 400 :=
  ⟨sequential_stock_safety (Scenario.store 10 2 5) Scenario.roundTrip
      (by decide!) (by decide!) ⟨by decide!, by decide!, by decide!, by decide!⟩ (by decide!)
      (by
        intro op hop
        simp only [Scenario.roundTrip, List.mem_cons, List.mem_singleton, List.not_mem_nil,
          or_false] at hop
        rcases hop with rfl | rfl | rfl
        · show (1 : Int) ≤ 1; decide
        · trivial
        · trivial)
      (by
        intro k
        rcases k with _ | _ | _ | k
        · decide!
        · decide!
        · decide!
        · have : Scenario.roundTrip.take (k + 1 + 1 + 1) = Scenario.roundTrip := by
            simp [Scenario.roundTrip]
          rw [this]
          decide!),
    by decide!, by decide!⟩

end Bizoe
